import Mathlib

/-!
# DRAGON switch-control sessions: JuniperEX3200 (JUNOScript) and PowerConnect 6200/8000

A shallow embedding of

* `SwitchCtrl_Session_JuniperEX3200.cc` : the lock / mutate / commit / unlock
  transaction (`preAction`, `postAction`, `postActionWithCommit`,
  `addVLANPort_JUNOScript`, `deleteVLANPort_JUNOScript`, `hook_createVLAN`,
  `hook_removeVLAN`) and the VLAN membership operations built on it;
  `connectSwitch`, `policeInputBandwidth_JUNOScript`, `hook_isVLANEmpty` and
  the two SNMP walks `hook_createPortToIDRefTable` and
  `hook_createVlanInterfaceToIDRefTable` (with the C semantics of the `sscanf`
  formats they use);
* `CLI_Session.h` : the macros `DIE_IF_NEGATIVE` and `DIE_IF_EQUAL`, and the
  bandwidth hooks `policeInputBandwidth` / `limitOutputBandwidth`;
* `SwitchCtrl_Session_PowerConnect6200_8000.h` : `portToBit` / `bitToPort`;
* `SwitchCtrl_Session_SubnetUNI.cc` : `setSubnetUniData` and `isSessionOwner`.

The device is an explicit parameter (`Env`): the answer of every call of
`pipeAlive`, `writeShell` and `readShellBuffer` is a function of the number of
transport calls made so far, so that a statement quantified over `Env` holds
for every behaviour of the transport.  The session carries a ghost `trace` of
the transport calls and of the entries into the three transaction functions.

`postAction` calls itself through `DIE_IF_NEGATIVE`; the embedding bounds the
nesting depth by a `fuel` argument and reports `Outcome.outOfFuel` when the
bound is hit.  The SNMP agent is a parameter as well (`SnmpEnv`); a walk is
bounded by the number of requests it may issue.
-/

namespace DRAGON

/-! ## Data model -/

/-- Vendor/model tags (the enum lives in `SwitchCtrl_Global.h`); only the
constants named by the embedded code are distinguished. -/
inductive VendorModel where
  | JuniperEX3200
  | PowerConnect6024
  | PowerConnect6224
  | PowerConnect6248
  | PowerConnect8024
  | Other (code : Nat)
  deriving DecidableEq

/-- One VLAN port map: `struct vlanPortMap { uint32 vid; uint8 portbits[MAX_VLAN_PORT_BYTES]; }`.
The bytes of `portbits` are kept as a list of numbers below 256. -/
structure vlanPortMap where
  vid : Nat
  portbits : List Nat
  deriving DecidableEq

/-- The three transaction functions whose entries are recorded in the trace. -/
inductive Fn where
  | preAction
  | postAction
  | postActionWithCommit
  deriving DecidableEq

/-- Ghost events: entry into a transaction function, one `writeShell` call
(with its text), one `readShellBuffer` call. -/
inductive Event where
  | call (f : Fn)
  | write (text : String)
  | read
  deriving DecidableEq

/-- The fields of the session object that the embedded code reads or writes,
plus the ghost fields `tick` (number of transport calls so far) and `trace`. -/
structure Session where
  active : Bool
  vendor : VendorModel
  bufScript : String
  vlanPortMapListAll : List vlanPortMap
  vlanPortMapListUntagged : List vlanPortMap
  tick : Nat
  trace : List Event
  deriving DecidableEq

/-- Everything the embedded code uses but does not define: the constants and
the port-to-bit conversion of the missing headers, the transport primitives of
`CLI_Session`, and the composers / reply parsers of `SwitchCtrl_JUNOScript.h`.
All of it is a parameter of the embedding. -/
structure Env where
  /-- The constant `SWITCH_CTRL_PORT` -/
  SWITCH_CTRL_PORT : Nat
  /-- The constant `MIN_VLAN` -/
  MIN_VLAN : Nat
  /-- The constant `MAX_VLAN` -/
  MAX_VLAN : Nat
  /-- The constant `MAX_VLAN_PORT_BYTES` -/
  MAX_VLAN_PORT_BYTES : Nat
  /-- The value of `convertUnifiedPort2JuniperEXBit(port)` -/
  convertUnifiedPort2JuniperEXBit : Nat → Nat
  /-- The answer of `pipeAlive()` asked as the `k`-th transport call -/
  pipeAlive : Nat → Bool
  /-- return value of `writeShell(text, 5)` issued as the `k`-th transport call -/
  writeShell : Nat → String → Int
  /-- return value of `readShellBuffer(bufScript, ...)` issued as the `k`-th
  transport call, and the text it leaves in `bufScript` -/
  readShellBuffer : Nat → Int × String
  /-- The result of `JUNOScriptLockReplyParser(buf).loadAndVerifyScript()` -/
  lockLoadAndVerifyScript : String → Bool
  /-- The result of `JUNOScriptLockReplyParser(buf).isSuccessful()` -/
  lockIsSuccessful : String → Bool
  /-- The result of `JUNOScriptUnlockReplyParser(buf).loadAndVerifyScript()` -/
  unlockLoadAndVerifyScript : String → Bool
  /-- The result of `JUNOScriptUnlockReplyParser(buf).isSuccessful()` -/
  unlockIsSuccessful : String → Bool
  /-- The result of `JUNOScriptCommitReplyParser(buf).loadAndVerifyScript()` -/
  commitLoadAndVerifyScript : String → Bool
  /-- The result of `JUNOScriptCommitReplyParser(buf).isSuccessful()` -/
  commitIsSuccessful : String → Bool
  /-- The result of `JUNOScriptRpcReplyParser(buf).loadAndVerifyScript()` -/
  rpcLoadAndVerifyScript : String → Bool
  /-- The result of `JUNOScriptRpcReplyParser(buf).isSuccessful()` -/
  rpcIsSuccessful : String → Bool
  /-- The call `JUNOScriptMovePortVlanComposer::setPortAndVlan(portID, vlanID, isTagged, isDelete)`:
  its boolean result and the script it composes into `bufScript` -/
  setPortAndVlan : Nat → Nat → Bool → Bool → Bool × String
  /-- The call `JUNOScriptVlanComposer::setVlan(vlanID, isDelete)`: its boolean result
  and the script it composes into `bufScript` -/
  setVlan : Nat → Bool → Bool × String

/-- How a call ended: it returned a boolean, the nesting bound of `postAction`
was exhausted, or an `assert` failed. -/
inductive Outcome where
  | returned (b : Bool)
  | outOfFuel
  | assertFailed
  deriving DecidableEq

/-! ## Transport primitives -/

/-- One call of `pipeAlive()`. -/
def pipeAlive (E : Env) (s : Session) : Bool × Session :=
  (E.pipeAlive s.tick, { s with tick := s.tick + 1 })

/-- One call of `writeShell(text, 5)`. -/
def writeShell (E : Env) (s : Session) (text : String) : Int × Session :=
  (E.writeShell s.tick text,
   { s with tick := s.tick + 1, trace := s.trace ++ [Event.write text] })

/-- One call of `readShellBuffer(bufScript, "</rpc-reply>", "</junoscript>", true, 1, 10)`. -/
def readShellBuffer (E : Env) (s : Session) : Int × Session :=
  ((E.readShellBuffer s.tick).1,
   { s with tick := s.tick + 1, bufScript := (E.readShellBuffer s.tick).2,
            trace := s.trace ++ [Event.read] })

/-- Entry into one of the transaction functions (ghost). -/
def enter (f : Fn) (s : Session) : Session :=
  { s with trace := s.trace ++ [Event.call f] }

/-- The condition `!active || vendor!=JuniperEX3200 || !pipeAlive()`, evaluated
left to right with short-circuit. -/
def notReady (E : Env) (s : Session) : Bool × Session :=
  if s.active = false then (true, s)
  else if s.vendor ≠ VendorModel.JuniperEX3200 then (true, s)
  else (!(pipeAlive E s).1, (pipeAlive E s).2)

/-- The value of `(false & postAction())` given the run of the nested
`postAction()`: the operand is evaluated, the result is `false`. -/
def falseAnd (r : Session × Outcome) : Session × Outcome :=
  match r.2 with
  | Outcome.returned _ => (r.1, Outcome.returned false)
  | o => (r.1, o)

/-! ## The transaction functions -/

/-- The lock request written by `preAction`. -/
def lockCmd : String := "<rpc><lock-configuration /></rpc>"
/-- The unlock request written by `postAction` and `postActionWithCommit`. -/
def unlockCmd : String := "<rpc><unlock-configuration /></rpc>"
/-- The commit request written by `postActionWithCommit`. -/
def commitCmd : String := "<rpc><commit-configuration /></rpc>"

/-- Embedding of `SwitchCtrl_Session_JuniperEX3200::postAction`.  Both `DIE_IF_NEGATIVE`
lines expand to `return (false & postAction())`, a nested call. -/
def postAction (E : Env) : Nat → Session → Session × Outcome
  | 0, s => (s, Outcome.outOfFuel)
  | fuel + 1, s =>
    let s0 := enter Fn.postAction s
    if (notReady E s0).1 then ((notReady E s0).2, Outcome.returned false)
    else
      let w := writeShell E (notReady E s0).2 unlockCmd
      if w.1 < 0 then falseAnd (postAction E fuel w.2)
      else
        let r := readShellBuffer E w.2
        if r.1 < 0 then falseAnd (postAction E fuel r.2)
        else if !E.unlockLoadAndVerifyScript r.2.bufScript then (r.2, Outcome.returned false)
        else if !E.unlockIsSuccessful r.2.bufScript then (r.2, Outcome.returned false)
        else (r.2, Outcome.returned true)

/-- Embedding of `SwitchCtrl_Session_JuniperEX3200::preAction`. -/
def preAction (E : Env) (fuel : Nat) (s : Session) : Session × Outcome :=
  let s0 := enter Fn.preAction s
  if (notReady E s0).1 then ((notReady E s0).2, Outcome.returned false)
  else
    let w := writeShell E (notReady E s0).2 lockCmd
    if w.1 < 0 then falseAnd (postAction E fuel w.2)
    else
      let r := readShellBuffer E w.2
      if r.1 < 0 then falseAnd (postAction E fuel r.2)
      else if !E.lockLoadAndVerifyScript r.2.bufScript then (r.2, Outcome.returned false)
      else if !E.lockIsSuccessful r.2.bufScript then (r.2, Outcome.returned false)
      else (r.2, Outcome.returned true)

/-- Embedding of `SwitchCtrl_Session_JuniperEX3200::postActionWithCommit`.  The two
branches on the commit reply are empty in the source. -/
def postActionWithCommit (E : Env) (fuel : Nat) (s : Session) : Session × Outcome :=
  let s0 := enter Fn.postActionWithCommit s
  if (notReady E s0).1 then ((notReady E s0).2, Outcome.returned false)
  else
    let w := writeShell E (notReady E s0).2 commitCmd
    if w.1 < 0 then falseAnd (postAction E fuel w.2)
    else
      let r := readShellBuffer E w.2
      if r.1 < 0 then falseAnd (postAction E fuel r.2)
      else
        -- if (!commitReplyParser.loadAndVerifyScript()) { } else if (!commitReplyParser.isSuccessful()) { }
        let w2 := writeShell E r.2 unlockCmd
        if w2.1 < 0 then falseAnd (postAction E fuel w2.2)
        else
          let r2 := readShellBuffer E w2.2
          if r2.1 < 0 then falseAnd (postAction E fuel r2.2)
          else if !E.unlockLoadAndVerifyScript r2.2.bufScript then (r2.2, Outcome.returned false)
          else if !E.unlockIsSuccessful r2.2.bufScript then (r2.2, Outcome.returned false)
          else (r2.2, Outcome.returned true)

/-- The common body of `addVLANPort_JUNOScript` (`isDelete = false`) and
`deleteVLANPort_JUNOScript` (`isDelete = true`); the two source functions
differ only in the last argument of `setPortAndVlan`.  At `_out` the source
returns `(false && postAction())`: `&&` short-circuits, so `postAction()` is
not evaluated there. -/
def portVlanTransaction (E : Env) (fuel : Nat) (s : Session)
    (portID vlanID : Nat) (isTagged isDelete : Bool) : Session × Outcome :=
  let p := preAction E fuel s
  match p.2 with
  | Outcome.returned true =>
    let c := E.setPortAndVlan portID vlanID isTagged isDelete
    let s1 : Session := { p.1 with bufScript := c.2 }
    if !c.1 then (s1, Outcome.returned false)
    else
      let w1 := writeShell E s1 c.2
      if w1.1 < 0 then falseAnd (postAction E fuel w1.2)
      else
        let w2 := writeShell E w1.2 "\n"
        if w2.1 < 0 then falseAnd (postAction E fuel w2.2)
        else
          let r := readShellBuffer E w2.2
          if r.1 < 0 then falseAnd (postAction E fuel r.2)
          else if !E.rpcLoadAndVerifyScript r.2.bufScript then (r.2, Outcome.returned false)
          else if !E.rpcIsSuccessful r.2.bufScript then (r.2, Outcome.returned false)
          else postActionWithCommit E fuel r.2
  | Outcome.returned false => (p.1, Outcome.returned false)
  | o => (p.1, o)

/-- Embedding of `SwitchCtrl_Session_JuniperEX3200::addVLANPort_JUNOScript`. -/
def addVLANPort_JUNOScript (E : Env) (fuel : Nat) (s : Session)
    (portID vlanID : Nat) (isTagged : Bool) : Session × Outcome :=
  portVlanTransaction E fuel s portID vlanID isTagged false

/-- Embedding of `SwitchCtrl_Session_JuniperEX3200::deleteVLANPort_JUNOScript`. -/
def deleteVLANPort_JUNOScript (E : Env) (fuel : Nat) (s : Session)
    (portID vlanID : Nat) (isTagged : Bool) : Session × Outcome :=
  portVlanTransaction E fuel s portID vlanID isTagged true

/-- The common body of `hook_createVLAN` (`isDelete = false`) and
`hook_removeVLAN` (`isDelete = true`).  `DIE_IF_EQUAL(vlanID, 0)` and
`DIE_IF_EQUAL(preAction(), false)` both expand to
`return (false & postAction())`. -/
def vlanTransaction (E : Env) (fuel : Nat) (s : Session)
    (vlanID : Nat) (isDelete : Bool) : Session × Outcome :=
  if vlanID = 0 then falseAnd (postAction E fuel s)
  else
    let p := preAction E fuel s
    match p.2 with
    | Outcome.returned true =>
      let c := E.setVlan vlanID isDelete
      let s1 : Session := { p.1 with bufScript := c.2 }
      if !c.1 then (s1, Outcome.returned false)
      else
        let w1 := writeShell E s1 c.2
        if w1.1 < 0 then falseAnd (postAction E fuel w1.2)
        else
          let w2 := writeShell E w1.2 "\n"
          if w2.1 < 0 then falseAnd (postAction E fuel w2.2)
          else
            let r := readShellBuffer E w2.2
            if r.1 < 0 then falseAnd (postAction E fuel r.2)
            else if !E.rpcLoadAndVerifyScript r.2.bufScript then (r.2, Outcome.returned false)
            else if !E.rpcIsSuccessful r.2.bufScript then (r.2, Outcome.returned false)
            else postActionWithCommit E fuel r.2
    | Outcome.returned false => falseAnd (postAction E fuel p.1)
    | o => (p.1, o)

/-- Embedding of `SwitchCtrl_Session_JuniperEX3200::hook_createVLAN`. -/
def hook_createVLAN (E : Env) (fuel : Nat) (s : Session) (vlanID : Nat) : Session × Outcome :=
  vlanTransaction E fuel s vlanID false

/-- Embedding of `SwitchCtrl_Session_JuniperEX3200::hook_removeVLAN`. -/
def hook_removeVLAN (E : Env) (fuel : Nat) (s : Session) (vlanID : Nat) : Session × Outcome :=
  vlanTransaction E fuel s vlanID true

/-! ## The VLAN port maps -/

/-- Modelled from the spec: the macro `SetPortBit(bitstring, bit)` of the
missing `SwitchCtrl_Global.h` (the spec: a fixed-size bit vector, one bit per
port); bit `bit` is bit `0x80 >> (bit % 8)` of byte `bit / 8`. -/
def SetPortBit (bit : Nat) (portbits : List Nat) : List Nat :=
  portbits.modify (fun b => b ||| (0x80 >>> (bit % 8))) (bit / 8)

/-- Modelled from the spec: the macro `ResetPortBit(bitstring, bit)` of the
missing `SwitchCtrl_Global.h`; clears what `SetPortBit` sets. -/
def ResetPortBit (bit : Nat) (portbits : List Nat) : List Nat :=
  portbits.modify (fun b => b &&& (0xff ^^^ (0x80 >>> (bit % 8)))) (bit / 8)

/-- Modelled from the spec: the macro `HasPortBit(bitstring, bit)` of the
missing `SwitchCtrl_Global.h`; tests what `SetPortBit` sets. -/
def HasPortBit (portbits : List Nat) (bit : Nat) : Bool :=
  (portbits.getD (bit / 8) 0) &&& (0x80 >>> (bit % 8)) != 0

/-- Modelled from the spec: `SwitchCtrl_Session::getVlanPortMapById(list, vid)`
of the missing base class (the spec: look up the bitmap entry for a VLAN).
The callers test the result against `NULL`, so an absent entry is `none`. -/
def getVlanPortMapById (l : List vlanPortMap) (vid : Nat) : Option vlanPortMap :=
  l.find? (fun m => m.vid == vid)

/-- The list after `f` has been applied to `vpm->portbits`, where `vpm` is the
entry `getVlanPortMapById` points at (the first one with that `vid`). -/
def updatePortbits (f : List Nat → List Nat) (vid : Nat) : List vlanPortMap → List vlanPortMap
  | [] => []
  | m :: t =>
    if m.vid == vid then { m with portbits := f m.portbits } :: t
    else m :: updatePortbits f vid t

/-- Embedding of `SwitchCtrl_Session_JuniperEX3200::hook_hasPortinVlanPortMap`. -/
def hook_hasPortinVlanPortMap (E : Env) (vpm : vlanPortMap) (port : Nat) : Bool :=
  if HasPortBit vpm.portbits (E.convertUnifiedPort2JuniperEXBit port) then true else false

/-- Modelled from the spec: `SwitchCtrl_Session::getVLANbyUntaggedPort(port)` of
the missing base class (the spec: the VLAN that currently holds the port as
untagged member, looked up via the Port/VLAN model); the `vid` of the first
untagged map that has the port, `0` when there is none. -/
def getVLANbyUntaggedPort (E : Env) (s : Session) (port : Nat) : Nat :=
  match s.vlanPortMapListUntagged.find? (fun m => hook_hasPortinVlanPortMap E m port) with
  | some m => m.vid
  | none => 0

/-- Conversion `uint32 → int` (as in `int old_vlan = getVLANbyUntaggedPort(port)`). -/
def toInt32 (u : Nat) : Int :=
  if u % 2 ^ 32 < 2 ^ 31 then ((u % 2 ^ 32 : Nat) : Int) else ((u % 2 ^ 32 : Nat) : Int) - 2 ^ 32

/-- Conversion `int → uint32` (as in passing `old_vlan` to a `uint32` parameter). -/
def toUInt32 (i : Int) : Nat := (i % 2 ^ 32).toNat

/-- The statement `if (vpm) ResetPortBit(vpm->portbits, bit)` (or `SetPortBit`), with
`vpm = getVlanPortMapById(list, vid)`, on one list. -/
def touchBit (f : List Nat → List Nat) (vid : Nat) (l : List vlanPortMap) : List vlanPortMap :=
  match getVlanPortMapById l vid with
  | some _ => updatePortbits f vid l
  | none => l

/-- The value of `ret &= r` for `ret == false`, given the run `r` of the right
operand: the operand is evaluated, `ret` stays `false`. -/
def andAssignFalse (r : Session × Outcome) (k : Session → Session × Outcome) : Session × Outcome :=
  match r.2 with
  | Outcome.returned _ => k r.1
  | o => (r.1, o)

/-- Embedding of `SwitchCtrl_Session_JuniperEX3200::movePortToVLANAsTagged`.  `ret` is
initialised to `false` and only changed by `ret &= ...`. -/
def movePortToVLANAsTagged (E : Env) (fuel : Nat) (s : Session) (port vlanID : Nat) :
    Session × Outcome :=
  if s.active = false ∨ port = E.SWITCH_CTRL_PORT ∨ vlanID < E.MIN_VLAN ∨ vlanID > E.MAX_VLAN then
    (s, Outcome.returned false)
  else
    let bit := E.convertUnifiedPort2JuniperEXBit port
    if ¬ bit < E.MAX_VLAN_PORT_BYTES * 8 then (s, Outcome.assertFailed)
    else
      match getVlanPortMapById s.vlanPortMapListAll vlanID with
      | some _ =>
        let s1 : Session :=
          { s with vlanPortMapListAll := updatePortbits (SetPortBit bit) vlanID s.vlanPortMapListAll }
        andAssignFalse (addVLANPort_JUNOScript E fuel s1 port vlanID true)
          (fun s2 => (s2, Outcome.returned false))
      | none => (s, Outcome.returned false)

/-- The second half of `movePortToVLANAsUntagged` (from the second
`bit = convertUnifiedPort2JuniperEXBit(port)` to `return ret`): the port is
added to the target VLAN; `ret` is `false` on entry.  The second `assert` is
the first one again (same `port`), so it holds here. -/
def movePortToVLANAsUntagged_add (E : Env) (fuel : Nat) (s : Session) (port vlanID : Nat) :
    Session × Outcome :=
  let bit := E.convertUnifiedPort2JuniperEXBit port
  let s1 : Session :=
    { s with
      vlanPortMapListUntagged := touchBit (SetPortBit bit) vlanID s.vlanPortMapListUntagged }
  match getVlanPortMapById s1.vlanPortMapListAll vlanID with
  | some _ =>
    let s2 : Session :=
      { s1 with
        vlanPortMapListAll := updatePortbits (SetPortBit bit) vlanID s1.vlanPortMapListAll }
    andAssignFalse (addVLANPort_JUNOScript E fuel s2 port vlanID false)
      (fun s3 => (s3, Outcome.returned false))
  | none => (s1, Outcome.returned false)

/-- Embedding of `SwitchCtrl_Session_JuniperEX3200::movePortToVLANAsUntagged`. -/
def movePortToVLANAsUntagged (E : Env) (fuel : Nat) (s : Session) (port vlanID : Nat) :
    Session × Outcome :=
  if s.active = false ∨ port = E.SWITCH_CTRL_PORT ∨ vlanID < E.MIN_VLAN ∨ vlanID > E.MAX_VLAN then
    (s, Outcome.returned false)
  else
    let old_vlan : Int := toInt32 (getVLANbyUntaggedPort E s port)
    let bit := E.convertUnifiedPort2JuniperEXBit port
    if ¬ bit < E.MAX_VLAN_PORT_BYTES * 8 then (s, Outcome.assertFailed)
    else
      let s1 : Session :=
        { s with
          vlanPortMapListUntagged :=
            touchBit (ResetPortBit bit) (toUInt32 old_vlan) s.vlanPortMapListUntagged,
          vlanPortMapListAll :=
            touchBit (ResetPortBit bit) (toUInt32 old_vlan) s.vlanPortMapListAll }
      if old_vlan > 1 then
        andAssignFalse (deleteVLANPort_JUNOScript E fuel s1 port (toUInt32 old_vlan) false)
          (fun s2 => movePortToVLANAsUntagged_add E fuel s2 port vlanID)
      else movePortToVLANAsUntagged_add E fuel s1 port vlanID

/-- Embedding of `SwitchCtrl_Session_JuniperEX3200::removePortFromVLAN`. -/
def removePortFromVLAN (E : Env) (fuel : Nat) (s : Session) (port vlanID : Nat) :
    Session × Outcome :=
  if s.active = false ∨ port = E.SWITCH_CTRL_PORT then (s, Outcome.returned false)
  else if vlanID ≥ E.MIN_VLAN ∧ vlanID ≤ E.MAX_VLAN then
    let bit := E.convertUnifiedPort2JuniperEXBit port
    if ¬ bit < E.MAX_VLAN_PORT_BYTES * 8 then (s, Outcome.assertFailed)
    else
      let s1 : Session :=
        { s with
          vlanPortMapListUntagged := touchBit (ResetPortBit bit) vlanID s.vlanPortMapListUntagged }
      match getVlanPortMapById s1.vlanPortMapListAll vlanID with
      | some _ =>
        let s2 : Session :=
          { s1 with
            vlanPortMapListAll := updatePortbits (ResetPortBit bit) vlanID s1.vlanPortMapListAll }
        andAssignFalse (deleteVLANPort_JUNOScript E fuel s2 port vlanID false)
          (fun s3 => (s3, Outcome.returned false))
      | none => (s1, Outcome.returned false)
  else (s, Outcome.returned false)

/-! ## PowerConnect 6200 / 8000 port numbering -/

/-- The unified port number of module / slot / port, packed as in
`hook_createPortToIDRefTable`:
`((mod & 0xf) << 12) | ((slot & 0xf) << 8) | (port & 0xff)`. -/
def unifiedPort (mod slot port : Nat) : Nat :=
  (((mod &&& 0xf) <<< 12) ||| ((slot &&& 0xf) <<< 8)) ||| (port &&& 0xff)

/-- Embedding of `SwitchCtrl_Session_PowerConnect8000::portToBit`, with `SWITCH_VENDOR_MODEL`
as the first argument. -/
def portToBit (model : VendorModel) (port : Nat) : Nat :=
  let offset : Nat :=
    if model = VendorModel.PowerConnect6024 ∨ model = VendorModel.PowerConnect6224 then 24
    else if model = VendorModel.PowerConnect6248 then 48
    else 0
  if (port >>> 8) &&& 0x000f = 0 then port &&& 0x00ff
  else (port &&& 0x00ff) + offset

/-- Embedding of `SwitchCtrl_Session_PowerConnect8000::bitToPort`, with `SWITCH_VENDOR_MODEL`
as the first argument; `bit - 24` and `bit - 48` are taken modulo `2 ^ 32`
(they are only reached with `bit` above the subtrahend). -/
def bitToPort (model : VendorModel) (bit : Nat) : Nat :=
  if model = VendorModel.PowerConnect6024 ∨ model = VendorModel.PowerConnect6224 then
    if bit ≤ 24 then (0x10 <<< 8) ||| bit
    else (0x11 <<< 8) ||| (bit - 24)
  else if model = VendorModel.PowerConnect6248 then
    if bit ≤ 48 then (0x10 <<< 8) ||| bit
    else (0x11 <<< 8) ||| (bit - 48)
  else (0x0011 <<< 8) ||| (bit &&& 0x00ff)

/-! ## Reading the trace -/

/-- The texts passed to `writeShell`, in order. -/
def written (t : List Event) : List String :=
  t.filterMap (fun e => match e with
    | Event.write text => some text
    | _ => none)

/-- The events a call added to the trace: those of `s1` after the ones of `s`. -/
def eventsSince (s s1 : Session) : List Event :=
  s1.trace.drop s.trace.length

/-! ## Concrete devices and sessions -/

/-- A device on which the pipe is alive, every write and read succeeds, every
reply verifies as successful and the composers succeed. -/
def okEnv : Env where
  SWITCH_CTRL_PORT := 0xffff
  MIN_VLAN := 1
  MAX_VLAN := 4095
  MAX_VLAN_PORT_BYTES := 24
  convertUnifiedPort2JuniperEXBit := fun port => port &&& 0xff
  pipeAlive := fun _ => true
  writeShell := fun _ _ => 1
  readShellBuffer := fun _ => (1, "<rpc-reply></rpc-reply>")
  lockLoadAndVerifyScript := fun _ => true
  lockIsSuccessful := fun _ => true
  unlockLoadAndVerifyScript := fun _ => true
  unlockIsSuccessful := fun _ => true
  commitLoadAndVerifyScript := fun _ => true
  commitIsSuccessful := fun _ => true
  rpcLoadAndVerifyScript := fun _ => true
  rpcIsSuccessful := fun _ => true
  setPortAndVlan := fun _ _ _ _ => (true, "<rpc>port-vlan</rpc>")
  setVlan := fun _ _ => (true, "<rpc>vlan</rpc>")

/-- As `okEnv`, but the reply to the mutation carries an error. -/
def rpcErrorEnv : Env := { okEnv with rpcIsSuccessful := fun _ => false }

/-- As `okEnv`, but the composer fails. -/
def composerFailEnv : Env :=
  { okEnv with setPortAndVlan := fun _ _ _ _ => (false, ""), setVlan := fun _ _ => (false, "") }

/-- As `okEnv`, but the commit reply cannot be loaded and verified. -/
def commitErrorEnv : Env :=
  { okEnv with commitLoadAndVerifyScript := fun _ => false, commitIsSuccessful := fun _ => false }

/-- As `okEnv`, but the lock reply carries an error. -/
def lockErrorEnv : Env := { okEnv with lockIsSuccessful := fun _ => false }

/-- As `okEnv`, but the transport call number 1 (the first write after the
first `pipeAlive()`) returns `-1`. -/
def firstWriteFailsEnv : Env :=
  { okEnv with writeShell := fun k _ => if k = 1 then -1 else 1 }

/-- As `okEnv`, but every write returns `-1` (the pipe stays alive). -/
def writeFailsEnv : Env := { okEnv with writeShell := fun _ _ => -1 }

/-- An active JuniperEX3200 session that knows VLAN 100 (no member port). -/
def session100 : Session where
  active := true
  vendor := VendorModel.JuniperEX3200
  bufScript := ""
  vlanPortMapListAll := [{ vid := 100, portbits := List.replicate 24 0 }]
  vlanPortMapListUntagged := [{ vid := 100, portbits := List.replicate 24 0 }]
  tick := 0
  trace := []

/-! ## Empty-VLAN test, bandwidth policing, connect -/

/-- Embedding of `SwitchCtrl_Session_JuniperEX3200::hook_isVLANEmpty`:
`memcmp(&vpm.portbits, &vpm_empty.portbits, MAX_VLAN_PORT_BYTES) == 0`, where
`vpm_empty` has been zeroed by `memset`; the first `MAX_VLAN_PORT_BYTES` bytes
of `portbits` are compared with as many zero bytes. -/
def hook_isVLANEmpty (E : Env) (vpm : vlanPortMap) : Bool :=
  vpm.portbits.take E.MAX_VLAN_PORT_BYTES == List.replicate E.MAX_VLAN_PORT_BYTES 0

/-- Embedding of `CLI_Session::policeInputBandwidth` (body `{ return false; }`);
`F` stands for the C type `float` of `committed_rate` and `peak_rate`. -/
def CLI_Session_policeInputBandwidth {F : Type} (_do_undo : Bool) (_input_port _vlan_id : Nat)
    (_committed_rate : F) (_burst_size : Int) (_peak_rate : F) (_peak_burst_size : Int) : Bool :=
  false

/-- Embedding of `CLI_Session::limitOutputBandwidth` (body `{ return false; }`);
`F` stands for the C type `float`. -/
def CLI_Session_limitOutputBandwidth {F : Type} (_do_undo : Bool) (_output_port _vlan_id : Nat)
    (_committed_rate : F) (_burst_size : Int) (_peak_rate : F) (_peak_burst_size : Int) : Bool :=
  false

/-- Embedding of `SwitchCtrl_Session_JuniperEX3200::policeInputBandwidth_JUNOScript`.
The argument `committed_rate_int` is the value of `(int)committed_rate`; the
other arguments are not used by the body.  After `preAction()` the body has
`ret == false` and returns `(false && postAction())`, which does not evaluate
`postAction()`. -/
def policeInputBandwidth_JUNOScript (E : Env) (fuel : Nat) (s : Session)
    (_do_undo : Bool) (_input_port _vlan_id : Nat) (committed_rate_int : Int)
    (_burst_size : Int) (_peak_burst_size : Int) : Session × Outcome :=
  if committed_rate_int < 1 then (s, Outcome.returned false)
  else
    let p := preAction E fuel s
    match p.2 with
    | Outcome.returned _ => (p.1, Outcome.returned false)
    | o => (p.1, o)

/-- The parts of `connectSwitch` that are not in the embedded file: the base
class `SwitchCtrl_Session::connectSwitch()`, `CLI_Session::engage("login:")`
(each gives its boolean result and the session it leaves behind) and the
return value of `readShell(...)` issued as the `k`-th transport call. -/
structure ConnectEnv where
  /-- The call `SwitchCtrl_Session::connectSwitch()` -/
  baseConnectSwitch : Session → Bool × Session
  /-- The call `CLI_Session::engage("login:")` -/
  engage : Session → Bool × Session
  /-- The return value of `readShell(text, NULL, verbose, 1, 10)` -/
  readShell : Nat → Int

/-- One call of `readShell(text, NULL, verbose, 1, 10)`. -/
def readShell (C : ConnectEnv) (s : Session) : Int × Session :=
  (C.readShell s.tick, { s with tick := s.tick + 1, trace := s.trace ++ [Event.read] })

/-- The text of the first handshake write of `connectSwitch`. -/
def junoscriptCmd : String := "junoscript\n"

/-- The text of the second handshake write of `connectSwitch`. -/
def junoscriptHello : String :=
  "<?xml version=\"1.0\" encoding=\"us-ascii\"?> <junoscript version=\"1.0\" client=\"vlsr\" release=\"9.2R2\">\n"

/-- The chain `if ((n = step) < 0) goto _abort;` over a list of transport
steps, ending in `return true`; `_abort` returns `false`. -/
def stepsOrAbort : List (Session → Int × Session) → Session → Bool × Session
  | [], s => (true, s)
  | step :: rest, s =>
    if (step s).1 < 0 then (false, (step s).2) else stepsOrAbort rest (step s).2

/-- The six transport steps of the junoscript handshake in `connectSwitch`:
write `junoscript`, two reads, write the XML declaration, two reads. -/
def handshakeSteps (C : ConnectEnv) (E : Env) : List (Session → Int × Session) :=
  [fun s => writeShell E s junoscriptCmd, readShell C, readShell C,
   fun s => writeShell E s junoscriptHello, readShell C, readShell C]

/-- Embedding of `SwitchCtrl_Session_JuniperEX3200::connectSwitch`.  The label
`_abort` only logs and returns `false`. -/
def connectSwitch (C : ConnectEnv) (E : Env) (s : Session) : Bool × Session :=
  if (C.baseConnectSwitch s).1 = false then (false, (C.baseConnectSwitch s).2)
  else if (C.engage (C.baseConnectSwitch s).2).1 = false then
    (false, (C.engage (C.baseConnectSwitch s).2).2)
  else stepsOrAbort (handshakeSteps C E) (C.engage (C.baseConnectSwitch s).2).2

/-- Modelled from the spec: the base class `SwitchCtrl_Session::connectSwitch()`
and `CLI_Session::engage("login:")`, which are not under `src/`.  In the spec
the lifetime of a switch session runs from a successful connect to the
disconnect and the operations require an active session, so a base connect
and login that succeed leave the session active; here both succeed, and every
`readShell` succeeds. -/
def okConnectEnv : ConnectEnv where
  baseConnectSwitch := fun s => (true, { s with active := true })
  engage := fun s => (true, s)
  readShell := fun _ => 1

/-- A JuniperEX3200 session that is not yet connected. -/
def sessionNew : Session where
  active := false
  vendor := VendorModel.JuniperEX3200
  bufScript := ""
  vlanPortMapListAll := []
  vlanPortMapListUntagged := []
  tick := 0
  trace := []

/-! ## SNMP walks and the reference tables -/

/-- One variable binding of a response (`netsnmp_variable_list`): its OID
`name`, whether its `type` is one of `SNMP_ENDOFMIBVIEW`, `SNMP_NOSUCHOBJECT`,
`SNMP_NOSUCHINSTANCE`, and the text `val.string`, whose size in bytes is
`val_len` (`none` for a null pointer). -/
structure SnmpVar where
  name : List Nat
  isException : Bool
  val : Option String
  deriving DecidableEq

/-- The answer to one GETNEXT request: whether
`status == STAT_SUCCESS && response->errstat == SNMP_ERR_NOERROR`, and the
variable bindings `response->variables`. -/
structure SnmpResponse where
  success : Bool
  vars : List SnmpVar

/-- The SNMP side of the session: `snmpEnabled()` and the agent, whose answer
to the `k`-th GETNEXT request of a walk may depend on the requested OID. -/
structure SnmpEnv where
  snmpEnabled : Bool
  snmp_synch_response : Nat → List Nat → SnmpResponse

/-- One entry of `portRefIDList`. -/
structure portRefID where
  ref_id : Nat
  port_id : Nat
  port_bit : Nat
  deriving DecidableEq

/-- One entry of `vlanRefIDList`. -/
structure vlanRefID where
  ref_id : Nat
  vlan_id : Nat
  deriving DecidableEq

/-- The C library predicate `isspace` (in the C locale). -/
def isspace (c : Char) : Bool :=
  c = ' ' ∨ c = '\t' ∨ c = '\n' ∨ c = '\r' ∨ c = '\x0b' ∨ c = '\x0c'

/-- A run of ordinary characters of an `sscanf` format: the input must start
with exactly these characters; the rest of the input is returned. -/
def scanLiteral : List Char → List Char → Option (List Char)
  | [], input => some input
  | _ :: _, [] => none
  | c :: cs, i :: input => if c = i then scanLiteral cs input else none

/-- The number written by a list of decimal digits. -/
def digitsValue (ds : List Char) : Nat :=
  ds.foldl (fun acc c => 10 * acc + (c.toNat - 48)) 0

/-- The constant `LONG_MAX` where `long` has 64 bits. -/
def LONG_MAX : Int := 2 ^ 63 - 1

/-- The constant `LONG_MIN` where `long` has 64 bits. -/
def LONG_MIN : Int := - 2 ^ 63

/-- The conversion `%d` of `sscanf`, as the GNU C library performs it where
`long` has 64 bits: white space is skipped, an optional sign and at least one
decimal digit are read; the number is converted as by `strtol`, which gives
`LONG_MAX` or `LONG_MIN` when the value is out of the range of `long`, and is
then stored in the 32-bit variable.  The result is the value stored, with the
rest of the input; `none` is a matching failure. -/
def scanDecimal (input : List Char) : Option (Nat × List Char) :=
  match input.dropWhile isspace with
  | [] => none
  | c :: r =>
    let body := if c = '-' ∨ c = '+' then r else c :: r
    let ds := body.takeWhile Char.isDigit
    if ds = [] then none
    else
      some (toUInt32 (max LONG_MIN (min LONG_MAX
              (if c = '-' then - (digitsValue ds : Int) else (digitsValue ds : Int)))),
            body.dropWhile Char.isDigit)

/-- The call `sscanf(ref_str, "ge-%d/%d/%d.%d", &tmp_mod_id, &tmp_slot_id,
&tmp_port_id, &tmp0)`: the number of items assigned (an `EOF` result counts
as none assigned; the caller only tests `== 3`) and the values of
`tmp_mod_id`, `tmp_slot_id`, `tmp_port_id`, which are zero before the call. -/
def sscanf_ge (str : List Char) : Nat × Nat × Nat × Nat :=
  match (scanLiteral ['g', 'e', '-'] str).bind scanDecimal with
  | none => (0, 0, 0, 0)
  | some (m, r1) =>
    match (scanLiteral ['/'] r1).bind scanDecimal with
    | none => (1, m, 0, 0)
    | some (sl, r2) =>
      match (scanLiteral ['/'] r2).bind scanDecimal with
      | none => (2, m, sl, 0)
      | some (p, r3) =>
        match (scanLiteral ['.'] r3).bind scanDecimal with
        | none => (3, m, sl, p)
        | some _ => (4, m, sl, p)

/-- The call `sscanf(ref_str, "dynamic_vlan_%d", &ref_id.vlan_id)`: the value
assigned, `none` when the result is not 1. -/
def sscanf_dynamic_vlan (str : List Char) : Option Nat :=
  ((scanLiteral ['d', 'y', 'n', 'a', 'm', 'i', 'c', '_', 'v', 'l', 'a', 'n', '_'] str).bind
    scanDecimal).map (fun r => r.1)

/-- The value of `(int)vars->name[vars->name_length - 1]` (SNMP
sub-identifiers fit 32 bits). -/
def lastSubId (v : SnmpVar) : Nat :=
  v.name.getLast?.getD 0

/-- Whether the text of a variable fits the local buffer `char ref_str[100]`
of the two walks: `strncpy(ref_str, val.string, val_len)` followed by
`ref_str[val_len] = 0` stays inside the buffer only when `val_len` is at most
99; a null `val.string` is not copied. -/
def fitsRefStr (v : SnmpVar) : Bool :=
  match v.val with
  | none => true
  | some s => decide (s.utf8ByteSize < 100)

/-- The C string in `ref_str` after the copy: the characters of the text
before its first NUL, empty for a null `val.string`; `none` when the copy
writes past the end of the buffer. -/
def refStr (v : SnmpVar) : Option (List Char) :=
  if fitsRefStr v = true then
    some ((v.val.getD "").toList.takeWhile (fun c => c != '\x00'))
  else none

/-- Lines 412-419 of the source, from `if (ref_str[0] != 0)` on: the entry
that `hook_createPortToIDRefTable` pushes for the string `ref_str`, if any. -/
def portEntryOf (v : SnmpVar) (ref_str : List Char) : Option portRefID :=
  if ref_str = [] then none
  else if (sscanf_ge ref_str).1 = 3 then
    some { ref_id := lastSubId v,
           port_bit := lastSubId v,
           port_id := unifiedPort (sscanf_ge ref_str).2.1 (sscanf_ge ref_str).2.2.1
             (sscanf_ge ref_str).2.2.2 }
  else none

/-- What `hook_createPortToIDRefTable` does with one in-subtree variable
(lines 405-419 of the source): `none` when the copy of its text writes past
the end of `ref_str`, otherwise the entry pushed, if any. -/
def portEntry (v : SnmpVar) : Option (Option portRefID) :=
  (refStr v).map (portEntryOf v)

/-- Lines 484-492 of the source, from `if (ref_str[0] != 0)` on: the entry
that `hook_createVlanInterfaceToIDRefTable` pushes for the string `ref_str`,
if any; `strncmp(ref_str, "default", 7) == 0` compares the first seven
characters. -/
def vlanEntryOf (v : SnmpVar) (ref_str : List Char) : Option vlanRefID :=
  if ref_str = [] then none
  else
    match sscanf_dynamic_vlan ref_str with
    | some id => some { ref_id := lastSubId v, vlan_id := id }
    | none =>
      if ref_str.take 7 = ['d', 'e', 'f', 'a', 'u', 'l', 't'] then
        some { ref_id := lastSubId v, vlan_id := 1 }
      else none

/-- What `hook_createVlanInterfaceToIDRefTable` does with one in-subtree
variable (lines 477-492 of the source): `none` when the copy of its text
writes past the end of `ref_str`, otherwise the entry pushed, if any. -/
def vlanEntry (v : SnmpVar) : Option (Option vlanRefID) :=
  (refStr v).map (vlanEntryOf v)

/-- The local state of a walk: the list being built, `anOID` and `running`,
and whether a copy has written past the end of `ref_str`. -/
structure WalkState (α : Type) where
  list : List α
  anOID : List Nat
  running : Bool
  overflow : Bool

/-- The body of the `for (vars = response->variables; ...)` loop, shared by
the two walks: a variable outside the subtree (compared with the first
`rootlen` sub-identifiers of `anOID`) stops the walk and is skipped; otherwise
its text is copied into `ref_str`, its entry, if any, is pushed, and `anOID`
advances unless the type is an exception, which stops the walk. -/
def walkVar {α : Type} (entry : SnmpVar → Option (Option α)) (rootlen : Nat)
    (st : WalkState α) (v : SnmpVar) : WalkState α :=
  if v.name.length < rootlen ∨ st.anOID.take rootlen ≠ v.name.take rootlen then
    { st with running := false }
  else
    match entry v with
    | none => { st with overflow := true }
    | some pushed =>
      let list1 := match pushed with
        | some e => st.list ++ [e]
        | none => st.list
      if v.isException = false then
        { list := list1, anOID := v.name, running := st.running, overflow := st.overflow }
      else { list := list1, anOID := st.anOID, running := false, overflow := st.overflow }

/-- The loop `while (running) { ... }` of the two walks, from the `k`-th
request on.  The result is the list when the loop ends; `none` when the walk
has no result: it has not ended after `fuel` requests, or a copy has written
past the end of `ref_str`. -/
def walk {α : Type} (S : SnmpEnv) (entry : SnmpVar → Option (Option α)) (rootlen : Nat) :
    Nat → Nat → WalkState α → Option (List α)
  | 0, _, _ => none
  | fuel + 1, k, st =>
    if (S.snmp_synch_response k st.anOID).success then
      if ((S.snmp_synch_response k st.anOID).vars.foldl (walkVar entry rootlen) st).overflow
      then none
      else if ((S.snmp_synch_response k st.anOID).vars.foldl (walkVar entry rootlen) st).running
      then walk S entry rootlen fuel (k + 1)
        ((S.snmp_synch_response k st.anOID).vars.foldl (walkVar entry rootlen) st)
      else some ((S.snmp_synch_response k st.anOID).vars.foldl (walkVar entry rootlen) st).list
    else some st.list

/-- The subtree root `.1.3.6.1.2.1.2.2.1.2` of the port walk. -/
def ifDescrRoot : List Nat := [1, 3, 6, 1, 2, 1, 2, 2, 1, 2]

/-- The subtree root `.1.3.6.1.2.1.17.7.1.4.3.1.1` of the VLAN walk. -/
def vlanStaticNameRoot : List Nat := [1, 3, 6, 1, 2, 1, 17, 7, 1, 4, 3, 1, 1]

/-- Embedding of `SwitchCtrl_Session_JuniperEX3200::hook_createPortToIDRefTable`:
the boolean result and the list `portRefIdConvList` after the call; `none`
when the walk has no result (see `walk`). -/
def hook_createPortToIDRefTable (S : SnmpEnv) (fuel : Nat) (portRefIdConvList : List portRefID) :
    Option (Bool × List portRefID) :=
  if S.snmpEnabled = false then some (false, portRefIdConvList)
  else
    (walk S portEntry ifDescrRoot.length fuel 0
      { list := [], anOID := ifDescrRoot, running := true, overflow := false }).map
      (fun l => (if l.length = 0 then false else true, l))

/-- Embedding of `SwitchCtrl_Session_JuniperEX3200::hook_createVlanInterfaceToIDRefTable`:
the boolean result and the list `vlanRefIdConvList` after the call; `none`
when the walk has no result (see `walk`). -/
def hook_createVlanInterfaceToIDRefTable (S : SnmpEnv) (fuel : Nat)
    (vlanRefIdConvList : List vlanRefID) : Option (Bool × List vlanRefID) :=
  if S.snmpEnabled = false then some (false, vlanRefIdConvList)
  else
    (walk S vlanEntry vlanStaticNameRoot.length fuel 0
      { list := [], anOID := vlanStaticNameRoot, running := true, overflow := false }).map
      (fun l => (if l.length = 0 then false else true, l))

/-- A list of characters is a decimal number: not empty, digits only. -/
def IsDecimal (ds : List Char) : Prop :=
  ds ≠ [] ∧ ∀ c ∈ ds, c.isDigit = true

/-- Following the words of the port convention: a name of the form
`ge-<mod>/<slot>/<port>`, three decimal numbers, with no sub-interface suffix. -/
def IsGePortName (name : List Char) : Prop :=
  ∃ a b c, IsDecimal a ∧ IsDecimal b ∧ IsDecimal c ∧
    name = ['g', 'e', '-'] ++ a ++ '/' :: b ++ '/' :: c

/-- Following the words of the VLAN convention: a name `dynamic_vlan_<id>`
with a decimal `id`, or the literal name `default`. -/
def IsVlanName (name : List Char) : Prop :=
  (∃ d, IsDecimal d ∧
    name = ['d', 'y', 'n', 'a', 'm', 'i', 'c', '_', 'v', 'l', 'a', 'n', '_'] ++ d) ∨
  name = ['d', 'e', 'f', 'a', 'u', 'l', 't']

/-- An agent that answers the port walk with `ge-0/0/3` at index 503,
`ge-0/0/3.0` at index 504, then a variable of the next column; any further
request fails. -/
def ifDescrEnv : SnmpEnv where
  snmpEnabled := true
  snmp_synch_response := fun k _ =>
    if k = 0 then
      { success := true,
        vars := [{ name := ifDescrRoot ++ [503], isException := false,
                        val := some "ge-0/0/3" }] }
    else if k = 1 then
      { success := true,
        vars := [{ name := ifDescrRoot ++ [504], isException := false,
                        val := some "ge-0/0/3.0" }] }
    else if k = 2 then
      { success := true,
        vars := [{ name := [1, 3, 6, 1, 2, 1, 2, 2, 1, 3, 503], isException := false,
                        val := none }] }
    else { success := false, vars := [] }

/-- An agent that answers the VLAN walk with `default` at index 2,
`dynamic_vlan_100` at index 3 and `defaults` at index 4; any further request
fails. -/
def vlanNameEnv : SnmpEnv where
  snmpEnabled := true
  snmp_synch_response := fun k _ =>
    if k = 0 then
      { success := true,
        vars := [{ name := vlanStaticNameRoot ++ [2], isException := false,
                        val := some "default" }] }
    else if k = 1 then
      { success := true,
        vars := [{ name := vlanStaticNameRoot ++ [3], isException := false,
                        val := some "dynamic_vlan_100" }] }
    else if k = 2 then
      { success := true,
        vars := [{ name := vlanStaticNameRoot ++ [4], isException := false,
                        val := some "defaults" }] }
    else { success := false, vars := [] }

/-- A response that ends a walk below `root`: the request failed, or one of
its variables lies outside the subtree or has an exception type. -/
def endsWalk (root : List Nat) (r : SnmpResponse) : Bool :=
  !r.success ||
    r.vars.any (fun v =>
      decide (v.name.length < root.length) || v.name.take root.length != root || v.isException)

/-- Every text of a response fits the buffer `ref_str`. -/
def namesFit (r : SnmpResponse) : Bool :=
  r.vars.all fitsRefStr

/-- An agent that hands out the given variables one per GETNEXT response, in
order, and fails the request after the last one. -/
def walkAgent (results : List SnmpVar) : SnmpEnv where
  snmpEnabled := true
  snmp_synch_response := fun k _ =>
    match results[k]? with
    | some v => { success := true, vars := [v] }
    | none => { success := false, vars := [] }

/-- As `okEnv`, with a composer whose delete and add requests differ. -/
def moveEnv : Env :=
  { okEnv with
    setPortAndVlan := fun _ _ _ isDelete =>
      (true, if isDelete then "<rpc>delete-member</rpc>" else "<rpc>add-member</rpc>") }

/-- An active JuniperEX3200 session that knows VLAN 50 and VLAN 100; port 5
(bit 5) is the untagged member of VLAN 50. -/
def session50 : Session where
  active := true
  vendor := VendorModel.JuniperEX3200
  bufScript := ""
  vlanPortMapListAll :=
    [{ vid := 50, portbits := SetPortBit 5 (List.replicate 24 0) },
     { vid := 100, portbits := List.replicate 24 0 }]
  vlanPortMapListUntagged :=
    [{ vid := 50, portbits := SetPortBit 5 (List.replicate 24 0) },
     { vid := 100, portbits := List.replicate 24 0 }]
  tick := 0
  trace := []

/-! ## Reference-table lookups -/

/-- Embedding of `SwitchCtrl_Session_JuniperEX3200::hook_convertPortInterfaceToID`:
the `port_id` of the first entry whose `ref_id` is `id`, `0` when there is none. -/
def hook_convertPortInterfaceToID (portRefIdConvList : List portRefID) (id : Nat) : Nat :=
  match portRefIdConvList.find? (fun e => e.ref_id == id) with
  | some e => e.port_id
  | none => 0

/-- Embedding of `SwitchCtrl_Session_JuniperEX3200::hook_convertPortIDToInterface`:
the `ref_id` of the first entry whose `port_id` is `id`, `0` when there is none. -/
def hook_convertPortIDToInterface (portRefIdConvList : List portRefID) (id : Nat) : Nat :=
  match portRefIdConvList.find? (fun e => e.port_id == id) with
  | some e => e.ref_id
  | none => 0

/-- Embedding of `SwitchCtrl_Session_JuniperEX3200::hook_convertVLANInterfaceToID`:
the `vlan_id` of the first entry whose `ref_id` is `id`, `0` when there is none. -/
def hook_convertVLANInterfaceToID (vlanRefIdConvList : List vlanRefID) (id : Nat) : Nat :=
  match vlanRefIdConvList.find? (fun e => e.ref_id == id) with
  | some e => e.vlan_id
  | none => 0

/-- Embedding of `SwitchCtrl_Session_JuniperEX3200::hook_convertVLANIDToInterface`:
the `ref_id` of the first entry whose `vlan_id` is `id`, `0` when there is none. -/
def hook_convertVLANIDToInterface (vlanRefIdConvList : List vlanRefID) (id : Nat) : Nat :=
  match vlanRefIdConvList.find? (fun e => e.vlan_id == id) with
  | some e => e.ref_id
  | none => 0

/-! ## Subnet UNI session -/

/-- The record `SubnetUNI_Data` (declared in a header that is not embedded):
the fields that `SwitchCtrl_Session_SubnetUNI.cc` names, each as wide as the
argument assigned to it, `ethernet_bw` as the bit pattern of the `float`,
`control_channel_name` as its `CTRL_CHAN_NAME_LEN` bytes, and `others` for the
bytes of all fields that the file never names. -/
structure SubnetUNI_Data where
  subnet_id : Nat
  tunnel_id : Nat
  ethernet_bw : Nat
  tna_ipv4 : Nat
  logical_port : Nat
  egress_label : Nat
  upstream_label : Nat
  uni_cid_ipv4 : Nat
  uni_nid_ipv4 : Nat
  data_if_ipv4 : Nat
  control_channel_name : List Nat
  others : List Nat
  deriving DecidableEq

/-- The effect of `memset(&data, 0, sizeof(SubnetUNI_Data))`: every byte of
the record is zero; the sizes of the two byte arrays are kept. -/
def memsetZero (CTRL_CHAN_NAME_LEN : Nat) (data : SubnetUNI_Data) : SubnetUNI_Data :=
  { subnet_id := 0, tunnel_id := 0, ethernet_bw := 0, tna_ipv4 := 0, logical_port := 0,
    egress_label := 0, upstream_label := 0, uni_cid_ipv4 := 0, uni_nid_ipv4 := 0,
    data_if_ipv4 := 0,
    control_channel_name := List.replicate CTRL_CHAN_NAME_LEN 0,
    others := List.replicate data.others.length 0 }

/-- The C library call `strncpy(dst, src, n)`, where `src` is given by its
characters before the terminating NUL: the first `n` bytes of `dst` become
the first `n` characters of `src`, padded with NUL bytes when `src` is
shorter; the bytes of `dst` from `n` on are kept. -/
def strncpy (dst src : List Nat) (n : Nat) : List Nat :=
  (src.take n ++ List.replicate (n - src.length) 0) ++ dst.drop n

/-- Embedding of `SwitchCtrl_Session_SubnetUNI::setSubnetUniData`; `bw` is the
bit pattern of the `float` argument, `cc_name` is `none` for a null pointer
and otherwise the characters of the string.  The arguments `tunnel_id` and
`port` are not used by the body. -/
def setSubnetUniData (CTRL_CHAN_NAME_LEN : Nat) (data : SubnetUNI_Data)
    (subuni_id _tunnel_id bw tna_ipv4 uni_cid_ipv4 uni_nid_ipv4 data_if _port
      egress_label upstream_label : Nat) (cc_name : Option (List Nat)) : SubnetUNI_Data :=
  let d0 := memsetZero CTRL_CHAN_NAME_LEN data
  let d1 : SubnetUNI_Data :=
    { d0 with
      subnet_id := subuni_id, ethernet_bw := bw, tna_ipv4 := tna_ipv4,
      egress_label := egress_label, upstream_label := upstream_label,
      uni_cid_ipv4 := uni_cid_ipv4, uni_nid_ipv4 := uni_nid_ipv4, data_if_ipv4 := data_if }
  match cc_name with
  | some name =>
    { d1 with
      control_channel_name := strncpy d1.control_channel_name name (CTRL_CHAN_NAME_LEN - 1) }
  | none => d1

/-- The message types that `isSessionOwner` distinguishes. -/
inductive MsgType where
  | Path
  | Resv
  | Other
  deriving DecidableEq

/-- What `isSessionOwner` reads of a `Message`: the destination address and
tunnel id of its SESSION object, its type, the source address of its sender
template, and for each flow descriptor the source addresses of the filter
specs in its `filterSpecList`. -/
structure Message where
  destAddress : Nat
  tunnelId : Nat
  msgType : MsgType
  senderSrcAddress : Nat
  flowDescriptorList : List (List Nat)

/-- How a call of `isSessionOwner` ends: it returns a boolean, or it reads
through the pointer `uniData` before any assignment to it. -/
inductive OwnerResult where
  | returned (b : Bool)
  | readsUnassigned
  deriving DecidableEq

/-- The value of the local pointer `uniData` when the message-type checks of
`isSessionOwner` are reached (`none`: never assigned), or `Sum.inl false` when
the function has returned `false` before.  In the `else if` branch the
assignment `uniData = &subnetUniDest` stands after `return false`. -/
def isSessionOwner_uniData (isSource : Bool) (subnetUniSrc subnetUniDest : SubnetUNI_Data)
    (msg : Message) : Bool ⊕ Option SubnetUNI_Data :=
  if isSource then
    if ¬ (msg.destAddress = subnetUniSrc.uni_nid_ipv4 ∧ msg.tunnelId = subnetUniSrc.tunnel_id) then
      Sum.inl false
    else Sum.inr (some subnetUniSrc)
  else if ¬ (msg.destAddress = subnetUniDest.uni_cid_ipv4 ∧
      msg.tunnelId = subnetUniDest.tunnel_id) then
    Sum.inl false
  else Sum.inr none

/-- The loop over the flow descriptors of a Resv message: the first descriptor
with a non-empty `filterSpecList` reads `uniData->uni_cid_ipv4`. -/
def isSessionOwner_resv (uniData : Option SubnetUNI_Data) : List (List Nat) → OwnerResult
  | [] => OwnerResult.returned false
  | [] :: rest => isSessionOwner_resv uniData rest
  | (src :: _) :: rest =>
    match uniData with
    | none => OwnerResult.readsUnassigned
    | some d =>
      if src = d.uni_cid_ipv4 then OwnerResult.returned true
      else isSessionOwner_resv uniData rest

/-- Embedding of `SwitchCtrl_Session_SubnetUNI::isSessionOwner`.  For a Path
message the first operand of the `||` chain reads `uniData->uni_cid_ipv4`. -/
def isSessionOwner (isSource : Bool) (subnetUniSrc subnetUniDest : SubnetUNI_Data)
    (msg : Message) : OwnerResult :=
  match isSessionOwner_uniData isSource subnetUniSrc subnetUniDest msg with
  | Sum.inl b => OwnerResult.returned b
  | Sum.inr uniData =>
    match msg.msgType with
    | MsgType.Path =>
      match uniData with
      | none => OwnerResult.readsUnassigned
      | some d =>
        if msg.senderSrcAddress = d.uni_cid_ipv4 ∨ msg.senderSrcAddress = 0 ∨
            msg.senderSrcAddress = 0x100007f then OwnerResult.returned true
        else OwnerResult.returned false
    | MsgType.Resv => isSessionOwner_resv uniData msg.flowDescriptorList
    | MsgType.Other => OwnerResult.returned false

/-- A record as `setSubnetUniData` leaves it for the destination side: peer
address `10.0.0.2` (`0x0200000a`) as `uni_cid_ipv4`, tunnel id 0. -/
def destData : SubnetUNI_Data :=
  setSubnetUniData 12
    { subnet_id := 0, tunnel_id := 0, ethernet_bw := 0, tna_ipv4 := 0, logical_port := 0,
      egress_label := 0, upstream_label := 0, uni_cid_ipv4 := 0, uni_nid_ipv4 := 0,
      data_if_ipv4 := 0, control_channel_name := List.replicate 12 0, others := [] }
    1 7 0 0x0100000a 0x0200000a 0x0300000a 0 5 16 16 (some [101, 116, 104, 48])

/-- A Path message addressed to `10.0.0.2` with tunnel id 0. -/
def pathMsg : Message where
  destAddress := 0x0200000a
  tunnelId := 0
  msgType := MsgType.Path
  senderSrcAddress := 0x0200000a
  flowDescriptorList := []

/-- What the transaction functions leave alone: the `active` flag, the vendor
tag and both VLAN port map lists are unchanged, and the trace only grows. -/
def Frame (s s1 : Session) : Prop :=
  s1.active = s.active ∧ s1.vendor = s.vendor ∧
  s1.vlanPortMapListAll = s.vlanPortMapListAll ∧
  s1.vlanPortMapListUntagged = s.vlanPortMapListUntagged ∧
  ∃ l, s1.trace = s.trace ++ l

/-! ## Frame lemmas -/

theorem Frame.refl (s : Session) : Frame s s :=
  ⟨rfl, rfl, rfl, rfl, [], by simp⟩

theorem Frame.trans {a b c : Session} (h1 : Frame a b) (h2 : Frame b c) : Frame a c := by
  obtain ⟨a1, a2, a3, a4, l1, a5⟩ := h1
  obtain ⟨b1, b2, b3, b4, l2, b5⟩ := h2
  exact ⟨b1.trans a1, b2.trans a2, b3.trans a3, b4.trans a4, l1 ++ l2,
    by rw [b5, a5, List.append_assoc]⟩

theorem frame_writeShell (E : Env) (s : Session) (text : String) :
    Frame s (writeShell E s text).2 :=
  ⟨rfl, rfl, rfl, rfl, [Event.write text], rfl⟩

theorem frame_readShellBuffer (E : Env) (s : Session) : Frame s (readShellBuffer E s).2 :=
  ⟨rfl, rfl, rfl, rfl, [Event.read], rfl⟩

theorem frame_enter (f : Fn) (s : Session) : Frame s (enter f s) :=
  ⟨rfl, rfl, rfl, rfl, [Event.call f], rfl⟩

theorem frame_bufScript (s : Session) (text : String) :
    Frame s { s with bufScript := text } :=
  ⟨rfl, rfl, rfl, rfl, [], by simp⟩

theorem frame_notReady (E : Env) (s : Session) : Frame s (notReady E s).2 := by
  unfold notReady
  split_ifs
  · exact Frame.refl s
  · exact Frame.refl s
  · exact ⟨rfl, rfl, rfl, rfl, [], by simp [pipeAlive]⟩

theorem frame_falseAnd {s : Session} {r : Session × Outcome} (h : Frame s r.1) :
    Frame s (falseAnd r).1 := by
  unfold falseAnd
  split <;> exact h

theorem frame_postAction (E : Env) : ∀ (fuel : Nat) (s : Session), Frame s (postAction E fuel s).1
  | 0, s => Frame.refl s
  | fuel + 1, s => by
    have h1 := (frame_enter Fn.postAction s).trans (frame_notReady E (enter Fn.postAction s))
    have h2 := h1.trans (frame_writeShell E _ unlockCmd)
    have h3 := h2.trans (frame_readShellBuffer E _)
    simp only [postAction]
    split_ifs
    · exact h1
    · exact frame_falseAnd (h2.trans (frame_postAction E fuel _))
    · exact frame_falseAnd (h3.trans (frame_postAction E fuel _))
    · exact h3
    · exact h3
    · exact h3

theorem frame_preAction (E : Env) (fuel : Nat) (s : Session) :
    Frame s (preAction E fuel s).1 := by
  have h1 := (frame_enter Fn.preAction s).trans (frame_notReady E (enter Fn.preAction s))
  have h2 := h1.trans (frame_writeShell E _ lockCmd)
  have h3 := h2.trans (frame_readShellBuffer E _)
  simp only [preAction]
  split_ifs
  · exact h1
  · exact frame_falseAnd (h2.trans (frame_postAction E fuel _))
  · exact frame_falseAnd (h3.trans (frame_postAction E fuel _))
  · exact h3
  · exact h3
  · exact h3

theorem frame_postActionWithCommit (E : Env) (fuel : Nat) (s : Session) :
    Frame s (postActionWithCommit E fuel s).1 := by
  have h1 := (frame_enter Fn.postActionWithCommit s).trans
    (frame_notReady E (enter Fn.postActionWithCommit s))
  have h2 := h1.trans (frame_writeShell E _ commitCmd)
  have h3 := h2.trans (frame_readShellBuffer E _)
  have h4 := h3.trans (frame_writeShell E _ unlockCmd)
  have h5 := h4.trans (frame_readShellBuffer E _)
  simp only [postActionWithCommit]
  split_ifs
  · exact h1
  · exact frame_falseAnd (h2.trans (frame_postAction E fuel _))
  · exact frame_falseAnd (h3.trans (frame_postAction E fuel _))
  · exact frame_falseAnd (h4.trans (frame_postAction E fuel _))
  · exact frame_falseAnd (h5.trans (frame_postAction E fuel _))
  · exact h5
  · exact h5
  · exact h5

theorem frame_portVlanTransaction (E : Env) (fuel : Nat) (s : Session)
    (portID vlanID : Nat) (isTagged isDelete : Bool) :
    Frame s (portVlanTransaction E fuel s portID vlanID isTagged isDelete).1 := by
  have h0 := frame_preAction E fuel s
  have h1 := h0.trans (frame_bufScript (preAction E fuel s).1
    (E.setPortAndVlan portID vlanID isTagged isDelete).2)
  have h2 := h1.trans (frame_writeShell E _ (E.setPortAndVlan portID vlanID isTagged isDelete).2)
  have h3 := h2.trans (frame_writeShell E _ "\n")
  have h4 := h3.trans (frame_readShellBuffer E _)
  simp only [portVlanTransaction]
  split
  · split_ifs
    · exact h1
    · exact frame_falseAnd (h2.trans (frame_postAction E fuel _))
    · exact frame_falseAnd (h3.trans (frame_postAction E fuel _))
    · exact frame_falseAnd (h4.trans (frame_postAction E fuel _))
    · exact h4
    · exact h4
    · exact h4.trans (frame_postActionWithCommit E fuel _)
  · exact h0
  · exact h0

/-! ## Guards of the port-membership operations -/

/-- C7 (control-port guard): for every device, session state and VLAN ID,
`movePortToVLANAsTagged`, `movePortToVLANAsUntagged` and `removePortFromVLAN`
called with `port == SWITCH_CTRL_PORT` return `false` and leave the session
as it was: same maps, same trace, so `preAction()` was not entered and nothing
was written to the device. -/
theorem control_port_guard (E : Env) (fuel : Nat) (s : Session) (vlanID : Nat) :
    movePortToVLANAsTagged E fuel s E.SWITCH_CTRL_PORT vlanID = (s, Outcome.returned false) ∧
    movePortToVLANAsUntagged E fuel s E.SWITCH_CTRL_PORT vlanID = (s, Outcome.returned false) ∧
    removePortFromVLAN E fuel s E.SWITCH_CTRL_PORT vlanID = (s, Outcome.returned false) := by
  refine ⟨?_, ?_, ?_⟩
  · simp [movePortToVLANAsTagged]
  · simp [movePortToVLANAsUntagged]
  · simp [removePortFromVLAN]

/-- C8 (VLAN-range guard): for every device, session state and port, and every
`vlanID` with `vlanID < MIN_VLAN` or `vlanID > MAX_VLAN`, the three
port-membership operations return `false` and leave the session as it was: no
transaction is started (`preAction()` is not entered, nothing is written) and
both VLAN port maps are unchanged. -/
theorem vlan_range_guard (E : Env) (fuel : Nat) (s : Session) (port vlanID : Nat)
    (h : vlanID < E.MIN_VLAN ∨ vlanID > E.MAX_VLAN) :
    movePortToVLANAsTagged E fuel s port vlanID = (s, Outcome.returned false) ∧
    movePortToVLANAsUntagged E fuel s port vlanID = (s, Outcome.returned false) ∧
    removePortFromVLAN E fuel s port vlanID = (s, Outcome.returned false) := by
  have hg : s.active = false ∨ port = E.SWITCH_CTRL_PORT ∨ vlanID < E.MIN_VLAN ∨
      vlanID > E.MAX_VLAN := Or.inr (Or.inr h)
  have hr : ¬ (vlanID ≥ E.MIN_VLAN ∧ vlanID ≤ E.MAX_VLAN) := by omega
  refine ⟨?_, ?_, ?_⟩
  · simp only [movePortToVLANAsTagged, if_pos hg]
  · simp only [movePortToVLANAsUntagged, if_pos hg]
  · simp only [removePortFromVLAN, if_neg hr]
    split_ifs <;> rfl

/-- Witness of C8: VLAN 0 (below `MIN_VLAN = 1`) on a device where everything
would succeed. -/
theorem vlan_range_guard_witness :
    (0 < okEnv.MIN_VLAN ∨ 0 > okEnv.MAX_VLAN) ∧
    (movePortToVLANAsTagged okEnv 1 session100 5 0 = (session100, Outcome.returned false) ∧
     movePortToVLANAsUntagged okEnv 1 session100 5 0 = (session100, Outcome.returned false) ∧
     removePortFromVLAN okEnv 1 session100 5 0 = (session100, Outcome.returned false)) :=
  ⟨by decide, vlan_range_guard okEnv 1 session100 5 0 (by decide)⟩

/-! ## PowerConnect bit mapping -/

/-- C4, as stated, fails on the 8024 branch: the slot-0 port `1/g5`
(unified port `0x1005`) maps to bit 5, and bit 5 maps back to `0x1105` (`1/xg5`). -/
theorem bitToPort_portToBit_8024_slot0 :
    bitToPort VendorModel.PowerConnect8024
      (portToBit VendorModel.PowerConnect8024 (unifiedPort 1 0 5)) = 0x1105 ∧
    unifiedPort 1 0 5 = 0x1005 ∧
    bitToPort VendorModel.PowerConnect8024
      (portToBit VendorModel.PowerConnect8024 (unifiedPort 1 0 5)) ≠ unifiedPort 1 0 5 := by
  decide

set_option maxRecDepth 100000 in
/-- C4 (amended): `bitToPort (portToBit p) = p` for the module-1 ports with port
number `1 ≤ N ≤ 255` in these cases: on the 6024/6224 branch, slot 0 (`1/gN`)
with `N ≤ 24` and slot 1 (`1/xgN`); on the 6248 branch, slot 0 with `N ≤ 48`
and slot 1; on the 8024 branch, slot 1 only. -/
theorem bitToPort_portToBit (N : Nat) (h1 : 1 ≤ N) (h255 : N ≤ 255) :
    (∀ model, model = VendorModel.PowerConnect6024 ∨ model = VendorModel.PowerConnect6224 →
      (N ≤ 24 → bitToPort model (portToBit model (unifiedPort 1 0 N)) = unifiedPort 1 0 N) ∧
      bitToPort model (portToBit model (unifiedPort 1 1 N)) = unifiedPort 1 1 N) ∧
    ((N ≤ 48 → bitToPort VendorModel.PowerConnect6248
        (portToBit VendorModel.PowerConnect6248 (unifiedPort 1 0 N)) = unifiedPort 1 0 N) ∧
      bitToPort VendorModel.PowerConnect6248
        (portToBit VendorModel.PowerConnect6248 (unifiedPort 1 1 N)) = unifiedPort 1 1 N) ∧
    bitToPort VendorModel.PowerConnect8024
      (portToBit VendorModel.PowerConnect8024 (unifiedPort 1 1 N)) = unifiedPort 1 1 N := by
  have hN : N < 256 := by omega
  refine ⟨?_, ?_, ?_⟩
  · intro model hm
    rcases hm with rfl | rfl <;> (revert N; decide)
  · revert N; decide
  · revert N; decide

/-- Witness of C4 (amended): port number 5. -/
theorem bitToPort_portToBit_witness :
    (1 ≤ 5 ∧ 5 ≤ 255) ∧
    bitToPort VendorModel.PowerConnect8024
      (portToBit VendorModel.PowerConnect8024 (unifiedPort 1 1 5)) = unifiedPort 1 1 5 :=
  ⟨by decide, (bitToPort_portToBit 5 (by decide) (by decide)).2.2⟩

/-! ## The transaction functions on concrete devices -/

/-- C1 at a failing input: the device grants the lock (`preAction()` returns
`true`) and answers the mutation with an error reply.  The four transaction
operations return `false` at `_out` through `(false && postAction())`; the
trace shows the lock request, the script, the newline and the read, and then
neither `postAction` nor `postActionWithCommit` is entered and no unlock is
written.  The same happens when the composer fails. -/
theorem transaction_error_reply_skips_unlock :
    (preAction rpcErrorEnv 1 session100).2 = Outcome.returned true ∧
    addVLANPort_JUNOScript rpcErrorEnv 1 session100 5 100 true =
      ({ session100 with
          tick := 6, bufScript := "<rpc-reply></rpc-reply>",
          trace := [Event.call Fn.preAction, Event.write lockCmd, Event.read,
                    Event.write "<rpc>port-vlan</rpc>", Event.write "\n", Event.read] },
       Outcome.returned false) ∧
    (deleteVLANPort_JUNOScript rpcErrorEnv 1 session100 5 100 false).1.trace =
      [Event.call Fn.preAction, Event.write lockCmd, Event.read,
       Event.write "<rpc>port-vlan</rpc>", Event.write "\n", Event.read] ∧
    (hook_createVLAN rpcErrorEnv 1 session100 100).1.trace =
      [Event.call Fn.preAction, Event.write lockCmd, Event.read,
       Event.write "<rpc>vlan</rpc>", Event.write "\n", Event.read] ∧
    (hook_removeVLAN rpcErrorEnv 1 session100 100).1.trace =
      [Event.call Fn.preAction, Event.write lockCmd, Event.read,
       Event.write "<rpc>vlan</rpc>", Event.write "\n", Event.read] ∧
    (addVLANPort_JUNOScript composerFailEnv 1 session100 5 100 true).1.trace =
      [Event.call Fn.preAction, Event.write lockCmd, Event.read] := by
  decide

/-- C2 at a failing input: the commit reply cannot be loaded and verified, the
unlock that follows succeeds, and `postActionWithCommit()` returns `true`. -/
theorem postActionWithCommit_failed_commit_returns_true :
    commitErrorEnv.commitLoadAndVerifyScript (commitErrorEnv.readShellBuffer 2).2 = false ∧
    (postActionWithCommit commitErrorEnv 1 session100).1.bufScript =
      (commitErrorEnv.readShellBuffer 4).2 ∧
    written (postActionWithCommit commitErrorEnv 1 session100).1.trace = [commitCmd, unlockCmd] ∧
    (postActionWithCommit commitErrorEnv 1 session100).2 = Outcome.returned true := by
  decide

/-- C3 at the input of the claim (port 5, VLAN 100, every reply well-formed and
successful): the transaction `addVLANPort_JUNOScript` returns `true`, the
lock, script, commit and unlock are written, the bit of port 5 is set in the
"all" map of VLAN 100, and `movePortToVLANAsTagged` returns `false`. -/
theorem movePortToVLANAsTagged_success_returns_false :
    (addVLANPort_JUNOScript okEnv 1 session100 5 100 true).2 = Outcome.returned true ∧
    written (movePortToVLANAsTagged okEnv 1 session100 5 100).1.trace =
      [lockCmd, "<rpc>port-vlan</rpc>", "\n", commitCmd, unlockCmd] ∧
    (getVlanPortMapById (movePortToVLANAsTagged okEnv 1 session100 5 100).1.vlanPortMapListAll 100).map
      (fun m => HasPortBit m.portbits (okEnv.convertUnifiedPort2JuniperEXBit 5)) = some true ∧
    (movePortToVLANAsTagged okEnv 1 session100 5 100).2 = Outcome.returned false := by
  decide

/-- C5 at a failing input: on an active session with a live pipe,
`hook_createVLAN(0)` and `hook_removeVLAN(0)` return `false` without entering
`preAction()`, but `DIE_IF_EQUAL(vlanID, 0)` runs `postAction()`, which writes
the unlock command to the device and reads the reply. -/
theorem hook_createVLAN_zero_writes_unlock :
    hook_createVLAN okEnv 1 session100 0 =
      ({ session100 with
          tick := 3, bufScript := "<rpc-reply></rpc-reply>",
          trace := [Event.call Fn.postAction, Event.write unlockCmd, Event.read] },
       Outcome.returned false) ∧
    hook_removeVLAN okEnv 1 session100 0 = hook_createVLAN okEnv 1 session100 0 := by
  decide

/-- On a device whose writes all fail while the pipe stays alive, a
`postAction()` of nesting bound `fuel` hits the bound, having written the
unlock command `fuel` times. -/
theorem postAction_writeFails (fuel : Nat) :
    ∀ s : Session, s.active = true → s.vendor = VendorModel.JuniperEX3200 →
      (postAction writeFailsEnv fuel s).2 = Outcome.outOfFuel ∧
      written (postAction writeFailsEnv fuel s).1.trace =
        written s.trace ++ List.replicate fuel unlockCmd := by
  induction fuel with
  | zero => intro s _ _; simp [postAction]
  | succ n ih =>
    intro s ha hv
    have hn : notReady writeFailsEnv (enter Fn.postAction s) =
        (false, { enter Fn.postAction s with tick := s.tick + 1 }) := by
      simp [notReady, enter, ha, hv, pipeAlive, writeFailsEnv, okEnv]
    have hw : (writeShell writeFailsEnv
        { enter Fn.postAction s with tick := s.tick + 1 } unlockCmd).1 < 0 := by
      simp [writeShell, writeFailsEnv]
    obtain ⟨ih1, ih2⟩ := ih (writeShell writeFailsEnv
        { enter Fn.postAction s with tick := s.tick + 1 } unlockCmd).2
        (by simp [writeShell, enter, ha]) (by simp [writeShell, enter, hv])
    simp only [postAction, hn, if_pos hw, Bool.false_eq_true, if_false]
    constructor
    · simp [falseAnd, ih1]
    · have : (falseAnd (postAction writeFailsEnv n (writeShell writeFailsEnv
          { enter Fn.postAction s with tick := s.tick + 1 } unlockCmd).2)).1 =
          (postAction writeFailsEnv n (writeShell writeFailsEnv
          { enter Fn.postAction s with tick := s.tick + 1 } unlockCmd).2).1 := by
        unfold falseAnd; split <;> rfl
      rw [this, ih2]
      simp [writeShell, enter, written, List.filterMap_append, List.replicate_succ]

/-- C9 at a failing input: when the first write of the unlock fails and later
calls succeed, one `postAction()` writes the unlock command twice; when every
write fails while the session stays active and the pipe alive, `postAction()`
does not return within any nesting bound and writes the unlock once per level. -/
theorem postAction_retries_unlock :
    (postAction firstWriteFailsEnv 2 session100).2 = Outcome.returned false ∧
    written (postAction firstWriteFailsEnv 2 session100).1.trace = [unlockCmd, unlockCmd] ∧
    ∀ fuel, (postAction writeFailsEnv fuel session100).2 = Outcome.outOfFuel ∧
      written (postAction writeFailsEnv fuel session100).1.trace =
        List.replicate fuel unlockCmd := by
  refine ⟨by decide, by decide, fun fuel => ?_⟩
  have h := postAction_writeFails fuel session100 rfl rfl
  exact ⟨h.1, by rw [h.2]; simp [written, session100]⟩

/-! ## Events of one call -/

theorem eventsSince_of_trace_eq {s s1 : Session} {l : List Event}
    (h : s1.trace = s.trace ++ l) : eventsSince s s1 = l := by
  unfold eventsSince
  rw [h]
  exact List.drop_left _ _

theorem mem_eventsSince_left {s s1 s2 : Session} {e : Event}
    (h01 : Frame s s1) (h12 : Frame s1 s2) (h : e ∈ eventsSince s s1) :
    e ∈ eventsSince s s2 := by
  obtain ⟨_, _, _, _, l1, t1⟩ := h01
  obtain ⟨_, _, _, _, l2, t2⟩ := h12
  rw [eventsSince_of_trace_eq t1] at h
  have t : s2.trace = s.trace ++ (l1 ++ l2) := by rw [t2, t1, List.append_assoc]
  rw [eventsSince_of_trace_eq t]
  exact List.mem_append_left _ h

theorem mem_eventsSince_right {s s1 s2 : Session} {e : Event}
    (h01 : Frame s s1) (h12 : Frame s1 s2) (h : e ∈ eventsSince s1 s2) :
    e ∈ eventsSince s s2 := by
  obtain ⟨_, _, _, _, l1, t1⟩ := h01
  obtain ⟨_, _, _, _, l2, t2⟩ := h12
  rw [eventsSince_of_trace_eq t2] at h
  have t : s2.trace = s.trace ++ (l1 ++ l2) := by rw [t2, t1, List.append_assoc]
  rw [eventsSince_of_trace_eq t]
  exact List.mem_append_right _ h

theorem mem_eventsSince_writeShell (E : Env) (s : Session) (text : String) :
    Event.write text ∈ eventsSince s (writeShell E s text).2 := by
  have t : (writeShell E s text).2.trace = s.trace ++ [Event.write text] := rfl
  rw [eventsSince_of_trace_eq t]
  exact List.mem_singleton.mpr rfl

theorem falseAnd_fst (r : Session × Outcome) : (falseAnd r).1 = r.1 := by
  unfold falseAnd
  split <;> rfl

theorem notReady_fst_of_ready (E : Env) (s : Session) (ha : s.active = true)
    (hv : s.vendor = VendorModel.JuniperEX3200) (hp : ∀ k, E.pipeAlive k = true) :
    (notReady E s).1 = false := by
  simp [notReady, ha, hv, pipeAlive, hp]

/-- On an active JuniperEX3200 session with a live pipe, a `postAction()` that
is given at least one level of nesting writes the unlock command. -/
theorem postAction_writes_unlock (E : Env) (fuel : Nat) (s : Session) (ha : s.active = true)
    (hv : s.vendor = VendorModel.JuniperEX3200) (hp : ∀ k, E.pipeAlive k = true) :
    Event.write unlockCmd ∈ eventsSince s (postAction E (fuel + 1) s).1 := by
  have hn : (notReady E (enter Fn.postAction s)).1 = false :=
    notReady_fst_of_ready E _ ha hv hp
  have h1 := (frame_enter Fn.postAction s).trans (frame_notReady E (enter Fn.postAction s))
  have hw := frame_writeShell E (notReady E (enter Fn.postAction s)).2 unlockCmd
  have hr := frame_readShellBuffer E (writeShell E (notReady E (enter Fn.postAction s)).2 unlockCmd).2
  have key : Frame (writeShell E (notReady E (enter Fn.postAction s)).2 unlockCmd).2
      (postAction E (fuel + 1) s).1 := by
    simp only [postAction, hn, Bool.false_eq_true, if_false]
    split_ifs
    · exact frame_falseAnd (frame_postAction E fuel _)
    · exact frame_falseAnd (hr.trans (frame_postAction E fuel _))
    · exact hr
    · exact hr
    · exact hr
  exact mem_eventsSince_right h1 (hw.trans key)
    (mem_eventsSince_left hw key (mem_eventsSince_writeShell E _ unlockCmd))

/-- On an active JuniperEX3200 session with a live pipe, `postActionWithCommit()`
writes the unlock command on every path (given one level of nesting for the
`postAction()` of its `DIE_IF_NEGATIVE` lines). -/
theorem postActionWithCommit_writes_unlock (E : Env) (fuel : Nat) (s : Session)
    (ha : s.active = true) (hv : s.vendor = VendorModel.JuniperEX3200)
    (hp : ∀ k, E.pipeAlive k = true) :
    Event.write unlockCmd ∈ eventsSince s (postActionWithCommit E (fuel + 1) s).1 := by
  have hn : (notReady E (enter Fn.postActionWithCommit s)).1 = false :=
    notReady_fst_of_ready E _ ha hv hp
  have h1 := (frame_enter Fn.postActionWithCommit s).trans
    (frame_notReady E (enter Fn.postActionWithCommit s))
  have h2 := h1.trans (frame_writeShell E _ commitCmd)
  have h3 := h2.trans (frame_readShellBuffer E _)
  have hw := frame_writeShell E (readShellBuffer E (writeShell E
    (notReady E (enter Fn.postActionWithCommit s)).2 commitCmd).2).2 unlockCmd
  have hr := frame_readShellBuffer E (writeShell E (readShellBuffer E (writeShell E
    (notReady E (enter Fn.postActionWithCommit s)).2 commitCmd).2).2 unlockCmd).2
  simp only [postActionWithCommit, hn, Bool.false_eq_true, if_false]
  split_ifs
  · rw [falseAnd_fst]
    exact mem_eventsSince_right h2 (frame_postAction E _ _)
      (postAction_writes_unlock E fuel _ (h2.1.trans ha) (h2.2.1.trans hv) hp)
  · rw [falseAnd_fst]
    exact mem_eventsSince_right h3 (frame_postAction E _ _)
      (postAction_writes_unlock E fuel _ (h3.1.trans ha) (h3.2.1.trans hv) hp)
  · rw [falseAnd_fst]
    exact mem_eventsSince_right h3 (hw.trans (frame_postAction E _ _))
      (mem_eventsSince_left hw (frame_postAction E _ _) (mem_eventsSince_writeShell E _ unlockCmd))
  · rw [falseAnd_fst]
    exact mem_eventsSince_right h3 (hw.trans (hr.trans (frame_postAction E _ _)))
      (mem_eventsSince_left hw (hr.trans (frame_postAction E _ _))
        (mem_eventsSince_writeShell E _ unlockCmd))
  · exact mem_eventsSince_right h3 (hw.trans hr)
      (mem_eventsSince_left hw hr (mem_eventsSince_writeShell E _ unlockCmd))
  · exact mem_eventsSince_right h3 (hw.trans hr)
      (mem_eventsSince_left hw hr (mem_eventsSince_writeShell E _ unlockCmd))
  · exact mem_eventsSince_right h3 (hw.trans hr)
      (mem_eventsSince_left hw hr (mem_eventsSince_writeShell E _ unlockCmd))

/-- C10 (best-effort unlock after a failed commit): on an active JuniperEX3200
session with a live pipe, whenever the commit step of `postActionWithCommit()`
fails (the commit write or the read after it returns a negative value, or the
commit reply does not load and verify, or is not successful), the unlock
command is among the events of the call, whether the call returns or not
(the unlock is written on every path past the precondition check, so the
failure of the commit step is not used by the proof); `1 ≤ fuel` lets the
`postAction()` of a `DIE_IF_NEGATIVE` line start. -/
theorem postActionWithCommit_unlock_after_failed_commit (E : Env) (fuel : Nat) (s : Session)
    (hactive : s.active = true) (hvendor : s.vendor = VendorModel.JuniperEX3200)
    (halive : ∀ k, E.pipeAlive k = true) (hfuel : 1 ≤ fuel)
    (_hfail : E.writeShell (s.tick + 1) commitCmd < 0 ∨
      (E.readShellBuffer (s.tick + 2)).1 < 0 ∨
      E.commitLoadAndVerifyScript (E.readShellBuffer (s.tick + 2)).2 = false ∨
      E.commitIsSuccessful (E.readShellBuffer (s.tick + 2)).2 = false) :
    Event.write unlockCmd ∈ eventsSince s (postActionWithCommit E fuel s).1 := by
  obtain ⟨n, rfl⟩ : ∃ n, fuel = n + 1 := ⟨fuel - 1, by omega⟩
  exact postActionWithCommit_writes_unlock E n s hactive hvendor halive

/-- Witness of C10: the commit write fails (transport call number 1 returns
`-1`), and the unlock is written by the `postAction()` of `DIE_IF_NEGATIVE`. -/
theorem postActionWithCommit_unlock_after_failed_commit_witness :
    firstWriteFailsEnv.writeShell (session100.tick + 1) commitCmd < 0 ∧
    Event.write unlockCmd ∈
      eventsSince session100 (postActionWithCommit firstWriteFailsEnv 1 session100).1 :=
  ⟨by decide,
   postActionWithCommit_unlock_after_failed_commit firstWriteFailsEnv 1 session100 rfl rfl
     (fun _ => rfl) (Nat.le_refl 1) (Or.inl (by decide))⟩

/-! ## The VLAN port maps across a transaction -/

theorem andAssignFalse_fst (r : Session × Outcome) (b : Bool) :
    (andAssignFalse r (fun s1 => (s1, Outcome.returned b))).1 = r.1 := by
  unfold andAssignFalse
  split <;> rfl

/-- The maps after the second half of `movePortToVLANAsUntagged`, whatever the
device does. -/
theorem maps_movePortToVLANAsUntagged_add (E : Env) (fuel : Nat) (s : Session)
    (port vlanID : Nat) :
    (movePortToVLANAsUntagged_add E fuel s port vlanID).1.vlanPortMapListAll =
      touchBit (SetPortBit (E.convertUnifiedPort2JuniperEXBit port)) vlanID
        s.vlanPortMapListAll ∧
    (movePortToVLANAsUntagged_add E fuel s port vlanID).1.vlanPortMapListUntagged =
      touchBit (SetPortBit (E.convertUnifiedPort2JuniperEXBit port)) vlanID
        s.vlanPortMapListUntagged := by
  simp only [movePortToVLANAsUntagged_add]
  split
  · rename_i m hm
    rw [andAssignFalse_fst]
    obtain ⟨_, _, h3, h4, _⟩ := frame_portVlanTransaction E fuel
      { s with
        vlanPortMapListUntagged :=
          touchBit (SetPortBit (E.convertUnifiedPort2JuniperEXBit port)) vlanID
            s.vlanPortMapListUntagged,
        vlanPortMapListAll :=
          updatePortbits (SetPortBit (E.convertUnifiedPort2JuniperEXBit port)) vlanID
            s.vlanPortMapListAll } port vlanID false false
    simp only [addVLANPort_JUNOScript]
    rw [h3, h4]
    simp only [touchBit, hm, and_self]
  · rename_i hm
    simp only [touchBit, hm, and_self]

/-- C6, as stated, fails: the device refuses the lock (`preAction()` returns
`false`), `movePortToVLANAsTagged(5, 100)` returns `false`, and the "all" map
of VLAN 100 has changed (the bit of port 5 is set). -/
theorem movePortToVLANAsTagged_failed_transaction_changes_map :
    (preAction lockErrorEnv 1 session100).2 = Outcome.returned false ∧
    (movePortToVLANAsTagged lockErrorEnv 1 session100 5 100).2 = Outcome.returned false ∧
    (movePortToVLANAsTagged lockErrorEnv 1 session100 5 100).1.vlanPortMapListAll ≠
      session100.vlanPortMapListAll := by
  decide

/-- C6 (amended): the VLAN port maps are updated before the device transaction
is attempted and are not restored when it fails.  When the guards pass (active
session, port other than the control port, VLAN ID in range, bit in range),
the maps after `movePortToVLANAsTagged` and `removePortFromVLAN` are the maps
before the call with the port's bit set, respectively cleared, in the entry of
`vlanID`, for every behaviour of the device; the same holds for
`movePortToVLANAsUntagged` whenever it returns (bit cleared in the entries of
the old untagged VLAN, then set in the entries of `vlanID`). -/
theorem port_maps_updated_before_transaction (E : Env) (fuel : Nat) (s : Session)
    (port vlanID : Nat)
    (hactive : s.active = true) (hport : port ≠ E.SWITCH_CTRL_PORT)
    (hmin : E.MIN_VLAN ≤ vlanID) (hmax : vlanID ≤ E.MAX_VLAN)
    (hbit : E.convertUnifiedPort2JuniperEXBit port < E.MAX_VLAN_PORT_BYTES * 8) :
    ((movePortToVLANAsTagged E fuel s port vlanID).1.vlanPortMapListAll =
        touchBit (SetPortBit (E.convertUnifiedPort2JuniperEXBit port)) vlanID
          s.vlanPortMapListAll ∧
      (movePortToVLANAsTagged E fuel s port vlanID).1.vlanPortMapListUntagged =
        s.vlanPortMapListUntagged) ∧
    ((removePortFromVLAN E fuel s port vlanID).1.vlanPortMapListAll =
        touchBit (ResetPortBit (E.convertUnifiedPort2JuniperEXBit port)) vlanID
          s.vlanPortMapListAll ∧
      (removePortFromVLAN E fuel s port vlanID).1.vlanPortMapListUntagged =
        touchBit (ResetPortBit (E.convertUnifiedPort2JuniperEXBit port)) vlanID
          s.vlanPortMapListUntagged) ∧
    (∀ b, (movePortToVLANAsUntagged E fuel s port vlanID).2 = Outcome.returned b →
      (movePortToVLANAsUntagged E fuel s port vlanID).1.vlanPortMapListAll =
        touchBit (SetPortBit (E.convertUnifiedPort2JuniperEXBit port)) vlanID
          (touchBit (ResetPortBit (E.convertUnifiedPort2JuniperEXBit port))
            (toUInt32 (toInt32 (getVLANbyUntaggedPort E s port))) s.vlanPortMapListAll) ∧
      (movePortToVLANAsUntagged E fuel s port vlanID).1.vlanPortMapListUntagged =
        touchBit (SetPortBit (E.convertUnifiedPort2JuniperEXBit port)) vlanID
          (touchBit (ResetPortBit (E.convertUnifiedPort2JuniperEXBit port))
            (toUInt32 (toInt32 (getVLANbyUntaggedPort E s port)))
            s.vlanPortMapListUntagged)) := by
  have hg : ¬ (s.active = false ∨ port = E.SWITCH_CTRL_PORT ∨ vlanID < E.MIN_VLAN ∨
      vlanID > E.MAX_VLAN) := by
    rintro (h | h | h | h)
    · rw [hactive] at h; exact Bool.noConfusion h
    · exact hport h
    · omega
    · omega
  have hg2 : ¬ (s.active = false ∨ port = E.SWITCH_CTRL_PORT) := by
    rintro (h | h)
    · rw [hactive] at h; exact Bool.noConfusion h
    · exact hport h
  have hr : vlanID ≥ E.MIN_VLAN ∧ vlanID ≤ E.MAX_VLAN := ⟨hmin, hmax⟩
  refine ⟨?_, ?_, ?_⟩
  · simp only [movePortToVLANAsTagged, if_neg hg, if_neg (not_not_intro hbit)]
    split
    · rename_i m hm
      rw [andAssignFalse_fst]
      obtain ⟨_, _, h3, h4, _⟩ := frame_portVlanTransaction E fuel
        { s with
          vlanPortMapListAll :=
            updatePortbits (SetPortBit (E.convertUnifiedPort2JuniperEXBit port)) vlanID
              s.vlanPortMapListAll } port vlanID true false
      simp only [addVLANPort_JUNOScript]
      rw [h3, h4]
      simp only [touchBit, hm, and_self]
    · rename_i hm
      simp only [touchBit, hm, and_self]
  · simp only [removePortFromVLAN, if_neg hg2, if_pos hr, if_neg (not_not_intro hbit)]
    split
    · rename_i m hm
      rw [andAssignFalse_fst]
      obtain ⟨_, _, h3, h4, _⟩ := frame_portVlanTransaction E fuel
        { s with
          vlanPortMapListUntagged :=
            touchBit (ResetPortBit (E.convertUnifiedPort2JuniperEXBit port)) vlanID
              s.vlanPortMapListUntagged,
          vlanPortMapListAll :=
            updatePortbits (ResetPortBit (E.convertUnifiedPort2JuniperEXBit port)) vlanID
              s.vlanPortMapListAll } port vlanID false true
      simp only [deleteVLANPort_JUNOScript]
      rw [h3, h4]
      simp only [touchBit, hm, and_self]
    · rename_i hm
      simp only [touchBit, hm, and_self]
  · intro b
    simp only [movePortToVLANAsUntagged, if_neg hg, if_neg (not_not_intro hbit)]
    split_ifs with hold
    · obtain ⟨_, _, h3, h4, _⟩ := frame_portVlanTransaction E fuel
        { s with
          vlanPortMapListUntagged :=
            touchBit (ResetPortBit (E.convertUnifiedPort2JuniperEXBit port))
              (toUInt32 (toInt32 (getVLANbyUntaggedPort E s port))) s.vlanPortMapListUntagged,
          vlanPortMapListAll :=
            touchBit (ResetPortBit (E.convertUnifiedPort2JuniperEXBit port))
              (toUInt32 (toInt32 (getVLANbyUntaggedPort E s port))) s.vlanPortMapListAll }
        port (toUInt32 (toInt32 (getVLANbyUntaggedPort E s port))) false true
      simp only [deleteVLANPort_JUNOScript, andAssignFalse]
      split
      · intro _
        obtain ⟨m1, m2⟩ := maps_movePortToVLANAsUntagged_add E fuel
          (portVlanTransaction E fuel
            { s with
              vlanPortMapListUntagged :=
                touchBit (ResetPortBit (E.convertUnifiedPort2JuniperEXBit port))
                  (toUInt32 (toInt32 (getVLANbyUntaggedPort E s port)))
                  s.vlanPortMapListUntagged,
              vlanPortMapListAll :=
                touchBit (ResetPortBit (E.convertUnifiedPort2JuniperEXBit port))
                  (toUInt32 (toInt32 (getVLANbyUntaggedPort E s port)))
                  s.vlanPortMapListAll }
            port (toUInt32 (toInt32 (getVLANbyUntaggedPort E s port))) false true).1
          port vlanID
        rw [m1, m2, h3, h4]
        exact ⟨rfl, rfl⟩
      · rename_i o ho
        intro h
        exact absurd h (ho b)
    · intro _
      exact maps_movePortToVLANAsUntagged_add E fuel _ port vlanID

/-- Witness of C6 (amended): port 5 and VLAN 100 on a device that refuses the lock. -/
theorem port_maps_updated_before_transaction_witness :
    (session100.active = true ∧ 5 ≠ lockErrorEnv.SWITCH_CTRL_PORT ∧
      lockErrorEnv.MIN_VLAN ≤ 100 ∧ 100 ≤ lockErrorEnv.MAX_VLAN ∧
      lockErrorEnv.convertUnifiedPort2JuniperEXBit 5 < lockErrorEnv.MAX_VLAN_PORT_BYTES * 8) ∧
    (movePortToVLANAsTagged lockErrorEnv 1 session100 5 100).1.vlanPortMapListAll =
      touchBit (SetPortBit (lockErrorEnv.convertUnifiedPort2JuniperEXBit 5)) 100
        session100.vlanPortMapListAll :=
  ⟨by decide,
   (port_maps_updated_before_transaction lockErrorEnv 1 session100 5 100 rfl (by decide)
     (by decide) (by decide) (by decide)).1.1⟩

/-! ## A successful transaction, step by step -/

/-- C13 (`preAction()` precondition failure has no side effects): if the
session is not active, or its vendor is not JuniperEX3200, or `pipeAlive()`
answers `false`, then `preAction()` returns `false`; the only event of the
call is its own entry (no write, no read, no entry into `postAction()`), and
the buffer, the flags and the VLAN port maps are unchanged. -/
theorem preAction_precondition_failure (E : Env) (fuel : Nat) (s : Session)
    (h : s.active = false ∨ s.vendor ≠ VendorModel.JuniperEX3200 ∨ E.pipeAlive s.tick = false) :
    (preAction E fuel s).2 = Outcome.returned false ∧
    eventsSince s (preAction E fuel s).1 = [Event.call Fn.preAction] ∧
    (preAction E fuel s).1.bufScript = s.bufScript ∧
    (preAction E fuel s).1.active = s.active ∧
    (preAction E fuel s).1.vendor = s.vendor ∧
    (preAction E fuel s).1.vlanPortMapListAll = s.vlanPortMapListAll ∧
    (preAction E fuel s).1.vlanPortMapListUntagged = s.vlanPortMapListUntagged := by
  have hn : (notReady E (enter Fn.preAction s)).1 = true := by
    unfold notReady
    split_ifs with h1 h2
    · rfl
    · rfl
    · rcases h with h | h | h
      · exact absurd h h1
      · exact absurd h (not_not.mp h2 ▸ fun hh => hh rfl)
      · simp [pipeAlive, enter, h]
  have ht : (notReady E (enter Fn.preAction s)).2.trace = s.trace ++ [Event.call Fn.preAction] := by
    unfold notReady
    split_ifs <;> rfl
  have hf := (frame_enter Fn.preAction s).trans (frame_notReady E (enter Fn.preAction s))
  have hb : (notReady E (enter Fn.preAction s)).2.bufScript = s.bufScript := by
    unfold notReady
    split_ifs <;> rfl
  simp only [preAction, hn, if_true]
  exact ⟨trivial, eventsSince_of_trace_eq ht, hb, hf.1, hf.2.1, hf.2.2.1, hf.2.2.2.1⟩

/-- Witness of C13: a session that is not active. -/
theorem preAction_precondition_failure_witness :
    sessionNew.active = false ∧
    (preAction okEnv 1 sessionNew).2 = Outcome.returned false ∧
    eventsSince sessionNew (preAction okEnv 1 sessionNew).1 = [Event.call Fn.preAction] :=
  ⟨rfl, (preAction_precondition_failure okEnv 1 sessionNew (Or.inl rfl)).1,
    (preAction_precondition_failure okEnv 1 sessionNew (Or.inl rfl)).2.1⟩

/-! ## Bits of a port map -/

theorem getD_modify_eq (f : Nat → Nat) (l : List Nat) (n : Nat) (h : n < l.length) :
    (l.modify f n).getD n 0 = f (l.getD n 0) := by
  simp [List.getD_eq_getElem?_getD, List.getElem?_modify_eq, List.getElem?_eq_getElem h]

theorem getD_modify_ne (f : Nat → Nat) (l : List Nat) {m n : Nat} (h : n ≠ m) :
    (l.modify f n).getD m 0 = l.getD m 0 := by
  simp [List.getD_eq_getElem?_getD, List.getElem?_modify_ne _ _ h]

theorem or_mask_and_mask (b m : Nat) : (b ||| m) &&& m = m := by
  apply Nat.eq_of_testBit_eq
  intro i
  simp only [Nat.testBit_and, Nat.testBit_or]
  cases b.testBit i <;> cases m.testBit i <;> rfl

theorem portMask_ne_zero (k : Nat) : 0x80 >>> (k % 8) ≠ 0 := by
  have h : k % 8 < 8 := Nat.mod_lt _ (by decide)
  generalize k % 8 = j at h
  interval_cases j <;> decide

theorem clearMask_and_portMask (k : Nat) :
    (0xff ^^^ (0x80 >>> (k % 8))) &&& (0x80 >>> (k % 8)) = 0 := by
  have h : k % 8 < 8 := Nat.mod_lt _ (by decide)
  generalize k % 8 = j at h
  interval_cases j <;> decide

set_option maxRecDepth 1000000 in
theorem byte_eq_zero_of_no_bit :
    ∀ b, b < 256 → (∀ k, k < 8 → b &&& (0x80 >>> k) = 0) → b = 0 := by
  decide

/-- Setting a bit that lies inside the byte array makes it readable. -/
theorem HasPortBit_SetPortBit (bit : Nat) (p : List Nat) (h : bit / 8 < p.length) :
    HasPortBit (SetPortBit bit p) bit = true := by
  simp only [HasPortBit, SetPortBit, getD_modify_eq _ _ _ h, or_mask_and_mask]
  simpa using portMask_ne_zero bit

/-- After `ResetPortBit` the bit reads as clear. -/
theorem HasPortBit_ResetPortBit (bit : Nat) (p : List Nat) :
    HasPortBit (ResetPortBit bit p) bit = false := by
  simp only [HasPortBit, ResetPortBit]
  by_cases h : bit / 8 < p.length
  · rw [getD_modify_eq _ _ _ h, Nat.land_assoc, clearMask_and_portMask, Nat.and_zero]
    rfl
  · rw [List.getD_eq_default _ _ (by simpa using h), Nat.zero_and]
    rfl

/-- A bit that reads as set lies in a non-zero byte of the array. -/
theorem exists_ne_zero_of_HasPortBit (p : List Nat) (bit : Nat) (h : HasPortBit p bit = true) :
    ∃ b ∈ p, b ≠ 0 := by
  by_cases hl : bit / 8 < p.length
  · refine ⟨p.getD (bit / 8) 0, ?_, ?_⟩
    · rw [List.getD_eq_getElem _ _ hl]
      exact List.getElem_mem hl
    · intro h0
      unfold HasPortBit at h
      rw [h0, Nat.zero_and] at h
      exact absurd h (by decide)
  · unfold HasPortBit at h
    rw [List.getD_eq_default _ _ (not_lt.mp hl), Nat.zero_and] at h
    exact absurd h (by decide)

/-! ## Empty-VLAN detection -/

/-- C14 (empty-VLAN detection): for a port map whose `portbits` has its
`MAX_VLAN_PORT_BYTES` bytes, `hook_isVLANEmpty` is `true` if and only if every
byte is zero; the answer does not depend on `vid`; the all-zero map is empty;
a map in which some bit reads as set is not empty; a map of bytes (values
below 256) in which no bit reads as set is empty; in particular setting one
bit of the zero map makes it non-empty and clearing it makes it empty again. -/
theorem hook_isVLANEmpty_iff (E : Env) (vpm : vlanPortMap)
    (hlen : vpm.portbits.length = E.MAX_VLAN_PORT_BYTES) :
    (hook_isVLANEmpty E vpm = true ↔ ∀ b ∈ vpm.portbits, b = 0) ∧
    (∀ vid, hook_isVLANEmpty E { vpm with vid := vid } = hook_isVLANEmpty E vpm) ∧
    (∀ vid, hook_isVLANEmpty E
      { vid := vid, portbits := List.replicate E.MAX_VLAN_PORT_BYTES 0 } = true) ∧
    (∀ bit, HasPortBit vpm.portbits bit = true → hook_isVLANEmpty E vpm = false) ∧
    ((∀ b ∈ vpm.portbits, b < 256) →
      (∀ bit, bit < E.MAX_VLAN_PORT_BYTES * 8 → HasPortBit vpm.portbits bit = false) →
      hook_isVLANEmpty E vpm = true) ∧
    (∀ vid bit, bit < E.MAX_VLAN_PORT_BYTES * 8 →
      hook_isVLANEmpty E
        { vid := vid, portbits := SetPortBit bit (List.replicate E.MAX_VLAN_PORT_BYTES 0) } = false ∧
      hook_isVLANEmpty E
        { vid := vid,
          portbits := ResetPortBit bit
            (SetPortBit bit (List.replicate E.MAX_VLAN_PORT_BYTES 0)) } = true) := by
  have key : ∀ p : List Nat, p.length = E.MAX_VLAN_PORT_BYTES →
      ∀ vid, (hook_isVLANEmpty E { vid := vid, portbits := p } = true ↔ ∀ b ∈ p, b = 0) := by
    intro p hp vid
    simp only [hook_isVLANEmpty, beq_iff_eq]
    rw [List.take_of_length_le (Nat.le_of_eq hp), List.eq_replicate_iff]
    exact ⟨fun h => h.2, fun h => ⟨hp, h⟩⟩
  have nonempty : ∀ (p : List Nat), p.length = E.MAX_VLAN_PORT_BYTES → ∀ vid bit,
      HasPortBit p bit = true → hook_isVLANEmpty E { vid := vid, portbits := p } = false := by
    intro p hp vid bit hb
    obtain ⟨b, hbm, hb0⟩ := exists_ne_zero_of_HasPortBit p bit hb
    cases hE : hook_isVLANEmpty E { vid := vid, portbits := p }
    · rfl
    · exact absurd ((key p hp vid).mp hE b hbm) hb0
  have empty : ∀ (p : List Nat), p.length = E.MAX_VLAN_PORT_BYTES → ∀ vid,
      (∀ b ∈ p, b < 256) →
      (∀ bit, bit < E.MAX_VLAN_PORT_BYTES * 8 → HasPortBit p bit = false) →
      hook_isVLANEmpty E { vid := vid, portbits := p } = true := by
    intro p hp vid hbyte hbits
    refine (key p hp vid).mpr ?_
    intro b hb
    obtain ⟨i, hi, rfl⟩ := List.getElem_of_mem hb
    refine byte_eq_zero_of_no_bit _ (hbyte _ hb) ?_
    intro k hk
    have h1 := hbits (8 * i + k) (by omega)
    have e1 : (8 * i + k) / 8 = i := by omega
    have e2 : (8 * i + k) % 8 = k := by omega
    simp only [HasPortBit, e1, e2, List.getD_eq_getElem _ _ hi] at h1
    simpa using h1
  refine ⟨key vpm.portbits hlen vpm.vid, fun vid => rfl, ?_, ?_, ?_, ?_⟩
  · intro vid
    exact (key _ (List.length_replicate _ _) vid).mpr (fun b hb => (List.mem_replicate.mp hb).2)
  · intro bit hb
    exact nonempty vpm.portbits hlen vpm.vid bit hb
  · intro hbyte hbits
    exact empty vpm.portbits hlen vpm.vid hbyte hbits
  · intro vid bit hbit
    have hl : bit / 8 < (List.replicate E.MAX_VLAN_PORT_BYTES 0).length := by
      rw [List.length_replicate]; omega
    constructor
    · exact nonempty _ (by simp [SetPortBit]) vid bit (HasPortBit_SetPortBit bit _ hl)
    · refine (key _ (by simp [SetPortBit, ResetPortBit]) vid).mpr ?_
      intro b hb
      obtain ⟨i, hi, rfl⟩ := List.getElem_of_mem hb
      simp only [ResetPortBit, SetPortBit, List.getElem_modify, List.getElem_replicate]
      split_ifs
      · simpa [Nat.zero_or] using (Nat.and_comm _ _).trans (clearMask_and_portMask bit)
      · rfl

/-- Witness of C14: the all-zero map of VLAN 100 with 24 bytes. -/
theorem hook_isVLANEmpty_iff_witness :
    hook_isVLANEmpty okEnv { vid := 100, portbits := List.replicate 24 0 } = true ∧
    hook_isVLANEmpty okEnv { vid := 100, portbits := SetPortBit 5 (List.replicate 24 0) } = false :=
  ⟨((hook_isVLANEmpty_iff okEnv { vid := 100, portbits := List.replicate 24 0 } rfl).2.2.1 100),
   ((hook_isVLANEmpty_iff okEnv { vid := 100, portbits := List.replicate 24 0 } rfl).2.2.2.2.2
      100 5 (by decide)).1⟩

/-! ## Connect and bandwidth policing -/

theorem stepsOrAbort_active (steps : List (Session → Int × Session))
    (h : ∀ step ∈ steps, ∀ s, (step s).2.active = s.active) :
    ∀ s, (stepsOrAbort steps s).2.active = s.active := by
  induction steps with
  | nil => intro s; rfl
  | cons step rest ih =>
    intro s
    have hs := h step (List.mem_cons_self _ _) s
    have hr := ih (fun st hst => h st (List.mem_cons_of_mem _ hst)) (step s).2
    simp only [stepsOrAbort]
    split_ifs
    · exact hs
    · exact hr.trans hs

/-- The function `connectSwitch` itself never writes the `active` flag: on
return it is what the base connect (when that fails) or `engage` left. -/
theorem connectSwitch_active (C : ConnectEnv) (E : Env) (s : Session) :
    (connectSwitch C E s).2.active =
      if (C.baseConnectSwitch s).1 = false then (C.baseConnectSwitch s).2.active
      else (C.engage (C.baseConnectSwitch s).2).2.active := by
  have hsteps : ∀ step ∈ handshakeSteps C E, ∀ s, (step s).2.active = s.active := by
    intro step hstep s
    simp only [handshakeSteps, List.mem_cons, List.mem_singleton, List.not_mem_nil,
      or_false] at hstep
    rcases hstep with rfl | rfl | rfl | rfl | rfl | rfl <;> rfl
  simp only [connectSwitch]
  split_ifs
  · rfl
  · rfl
  · exact stepsOrAbort_active _ hsteps _

/-- The function `connectSwitch` returns `true` only if the base connect, the
login and the six handshake transport calls all succeeded. -/
theorem connectSwitch_true (C : ConnectEnv) (E : Env) (s : Session)
    (h : (connectSwitch C E s).1 = true) :
    (C.baseConnectSwitch s).1 = true ∧
    (C.engage (C.baseConnectSwitch s).2).1 = true ∧
    0 ≤ E.writeShell (C.engage (C.baseConnectSwitch s).2).2.tick junoscriptCmd ∧
    0 ≤ C.readShell ((C.engage (C.baseConnectSwitch s).2).2.tick + 1) ∧
    0 ≤ C.readShell ((C.engage (C.baseConnectSwitch s).2).2.tick + 2) ∧
    0 ≤ E.writeShell ((C.engage (C.baseConnectSwitch s).2).2.tick + 3) junoscriptHello ∧
    0 ≤ C.readShell ((C.engage (C.baseConnectSwitch s).2).2.tick + 4) ∧
    0 ≤ C.readShell ((C.engage (C.baseConnectSwitch s).2).2.tick + 5) := by
  simp only [connectSwitch, handshakeSteps, stepsOrAbort] at h
  split_ifs at h with h1 h2 h3 h4 h5 h6 h7 h8
  refine ⟨by simpa using h1, by simpa using h2, not_lt.mp h3, not_lt.mp h4, not_lt.mp h5,
    not_lt.mp h6, not_lt.mp h7, not_lt.mp h8⟩

/-- C17, as stated, fails: the base connect and the login succeed and leave
the session active, then the first handshake write (`junoscript`) returns
`-1`; `connectSwitch()` goes to `_abort`, which only logs: it returns `false`
and the session is still active on return. -/
theorem connectSwitch_failed_handshake_stays_active :
    (okConnectEnv.baseConnectSwitch sessionNew).1 = true ∧
    (okConnectEnv.engage (okConnectEnv.baseConnectSwitch sessionNew).2).1 = true ∧
    writeFailsEnv.writeShell 0 junoscriptCmd < 0 ∧
    (connectSwitch okConnectEnv writeFailsEnv sessionNew).1 = false ∧
    (connectSwitch okConnectEnv writeFailsEnv sessionNew).2.active = true := by
  decide

/-- C17 (amended): for every behaviour of the base connect, the login and the
transport, `connectSwitch()` returns `true` if and only if the base connect,
`engage("login:")` and the six transport calls of the junoscript handshake
all succeed, so it returns `false` when any step fails; and it never writes
the `active` flag itself: on return the flag is what the base connect (when
that fails) or `engage` left, also after a failed handshake step. -/
theorem connectSwitch_result_and_active (C : ConnectEnv) (E : Env) (s : Session) :
    ((connectSwitch C E s).1 = true ↔
      (C.baseConnectSwitch s).1 = true ∧
      (C.engage (C.baseConnectSwitch s).2).1 = true ∧
      0 ≤ E.writeShell (C.engage (C.baseConnectSwitch s).2).2.tick junoscriptCmd ∧
      0 ≤ C.readShell ((C.engage (C.baseConnectSwitch s).2).2.tick + 1) ∧
      0 ≤ C.readShell ((C.engage (C.baseConnectSwitch s).2).2.tick + 2) ∧
      0 ≤ E.writeShell ((C.engage (C.baseConnectSwitch s).2).2.tick + 3) junoscriptHello ∧
      0 ≤ C.readShell ((C.engage (C.baseConnectSwitch s).2).2.tick + 4) ∧
      0 ≤ C.readShell ((C.engage (C.baseConnectSwitch s).2).2.tick + 5)) ∧
    ((C.baseConnectSwitch s).1 = false ∨
      (C.engage (C.baseConnectSwitch s).2).1 = false ∨
      E.writeShell (C.engage (C.baseConnectSwitch s).2).2.tick junoscriptCmd < 0 ∨
      C.readShell ((C.engage (C.baseConnectSwitch s).2).2.tick + 1) < 0 ∨
      C.readShell ((C.engage (C.baseConnectSwitch s).2).2.tick + 2) < 0 ∨
      E.writeShell ((C.engage (C.baseConnectSwitch s).2).2.tick + 3) junoscriptHello < 0 ∨
      C.readShell ((C.engage (C.baseConnectSwitch s).2).2.tick + 4) < 0 ∨
      C.readShell ((C.engage (C.baseConnectSwitch s).2).2.tick + 5) < 0 →
      (connectSwitch C E s).1 = false) ∧
    (connectSwitch C E s).2.active =
      (if (C.baseConnectSwitch s).1 = false then (C.baseConnectSwitch s).2.active
       else (C.engage (C.baseConnectSwitch s).2).2.active) := by
  refine ⟨⟨connectSwitch_true C E s, ?_⟩, ?_, connectSwitch_active C E s⟩
  · rintro ⟨h1, h2, h3, h4, h5, h6, h7, h8⟩
    simp only [connectSwitch, handshakeSteps, stepsOrAbort, readShell, writeShell, h1, h2,
      Bool.true_eq_false, if_false, if_neg (not_lt.mpr h3), if_neg (not_lt.mpr h4),
      if_neg (not_lt.mpr h5), if_neg (not_lt.mpr h6), if_neg (not_lt.mpr h7),
      if_neg (not_lt.mpr h8)]
  · intro hfail
    cases hres : (connectSwitch C E s).1 with
    | false => rfl
    | true =>
      obtain ⟨h1, h2, h3, h4, h5, h6, h7, h8⟩ := connectSwitch_true C E s hres
      rcases hfail with h | h | h | h | h | h | h | h
      · rw [h1] at h; exact Bool.noConfusion h
      · rw [h2] at h; exact Bool.noConfusion h
      all_goals omega

/-- On a device whose writes all fail while the pipe stays alive, `preAction()`
on an active JuniperEX3200 session does not return within any nesting bound. -/
theorem preAction_writeFails (fuel : Nat) (s : Session) (ha : s.active = true)
    (hv : s.vendor = VendorModel.JuniperEX3200) :
    (preAction writeFailsEnv fuel s).2 = Outcome.outOfFuel := by
  have hn : notReady writeFailsEnv (enter Fn.preAction s) =
      (false, { enter Fn.preAction s with tick := s.tick + 1 }) := by
    simp [notReady, enter, ha, hv, pipeAlive, writeFailsEnv, okEnv]
  have hw : (writeShell writeFailsEnv
      { enter Fn.preAction s with tick := s.tick + 1 } lockCmd).1 < 0 := by
    simp [writeShell, writeFailsEnv]
  have h := (postAction_writeFails fuel (writeShell writeFailsEnv
      { enter Fn.preAction s with tick := s.tick + 1 } lockCmd).2
      (by simp [writeShell, enter, ha]) (by simp [writeShell, enter, hv])).1
  simp only [preAction, hn, if_pos hw, Bool.false_eq_true, if_false]
  simp [falseAnd, h]

/-- C20: the two `CLI_Session` hooks return `false` for every argument, and
`policeInputBandwidth_JUNOScript` never returns `true`; but at a failing input
(writes that always fail while the pipe stays alive, `committed_rate` of 1)
it does not return at all: its `preAction()` runs into the unbounded nesting
of `postAction()`. -/
theorem policeInputBandwidth_hooks :
    (∀ (do_undo : Bool) (port vlan_id : Nat) (rate peak : Int) (burst peak_burst : Int),
      CLI_Session_policeInputBandwidth do_undo port vlan_id rate burst peak peak_burst = false ∧
      CLI_Session_limitOutputBandwidth do_undo port vlan_id rate burst peak peak_burst = false) ∧
    (∀ (E : Env) (fuel : Nat) (s : Session) (do_undo : Bool) (port vlan_id : Nat)
        (rate burst peak_burst : Int),
      (policeInputBandwidth_JUNOScript E fuel s do_undo port vlan_id rate burst peak_burst).2 ≠
        Outcome.returned true) ∧
    (∀ fuel, (policeInputBandwidth_JUNOScript writeFailsEnv fuel session100
        true 5 100 1 0 0).2 = Outcome.outOfFuel) := by
  refine ⟨fun _ _ _ _ _ _ _ => ⟨rfl, rfl⟩, ?_, ?_⟩
  · intro E fuel s do_undo port vlan_id rate burst peak_burst
    simp only [policeInputBandwidth_JUNOScript]
    split_ifs
    · simp
    · split
      · simp
      · rename_i o ho
        intro h
        exact ho true h
  · intro fuel
    have h := preAction_writeFails fuel session100 rfl rfl
    simp only [policeInputBandwidth_JUNOScript]
    rw [if_neg (by decide)]
    simp [h]


/-! ## The `sscanf` conversions and the reference-table walks -/

theorem not_space_of_isDigit (c : Char) (h : c.isDigit = true) :
    isspace c = false ∧ c ≠ '-' ∧ c ≠ '+' := by
  refine ⟨?_, ?_, ?_⟩
  · simp only [isspace, decide_eq_false_iff_not, not_or]
    refine ⟨?_, ?_, ?_, ?_, ?_, ?_⟩ <;> (rintro rfl; revert h; decide)
  · rintro rfl; revert h; decide
  · rintro rfl; revert h; decide

theorem span_digits (ds rest : List Char) (hd : ∀ c ∈ ds, c.isDigit = true)
    (hr : ∀ c r, rest = c :: r → c.isDigit = false) :
    (ds ++ rest).takeWhile Char.isDigit = ds ∧ (ds ++ rest).dropWhile Char.isDigit = rest := by
  induction ds with
  | nil =>
    cases rest with
    | nil => simp
    | cons c r => simp [List.takeWhile, List.dropWhile, hr c r rfl]
  | cons d ds ih =>
    have hd1 := hd d (List.mem_cons_self _ _)
    obtain ⟨i1, i2⟩ := ih (fun c hc => hd c (List.mem_cons_of_mem _ hc))
    simp [List.takeWhile, List.dropWhile, hd1, i1, i2]

/-- A number without sign, converted as by `strtol` and stored in 32 bits:
values above `LONG_MAX` are read as `LONG_MAX`. -/
theorem toUInt32_clamp_natCast (n : Nat) :
    toUInt32 (max LONG_MIN (min LONG_MAX (n : Int))) = min n (2 ^ 63 - 1) % 2 ^ 32 := by
  simp only [toUInt32, LONG_MIN, LONG_MAX]
  omega

theorem scanDecimal_decimal (ds rest : List Char) (hd : IsDecimal ds)
    (hr : ∀ c r, rest = c :: r → c.isDigit = false) :
    scanDecimal (ds ++ rest) = some (min (digitsValue ds) (2 ^ 63 - 1) % 2 ^ 32, rest) := by
  obtain ⟨hne, hall⟩ := hd
  cases ds with
  | nil => exact absurd rfl hne
  | cons d ds =>
    obtain ⟨h1, h2, h3⟩ := not_space_of_isDigit d (hall d (List.mem_cons_self _ _))
    obtain ⟨s1, s2⟩ := span_digits (d :: ds) rest hall hr
    have hdrop : ((d :: ds) ++ rest).dropWhile isspace = d :: (ds ++ rest) := by
      simp [List.dropWhile, h1]
    simp only [scanDecimal, hdrop]
    simp only [h2, h3, or_self, if_false]
    rw [show d :: (ds ++ rest) = (d :: ds) ++ rest from rfl, s1, s2,
      if_neg (List.cons_ne_nil d ds), toUInt32_clamp_natCast]

theorem slash_not_digit {x : Char} {rest0 : List Char} :
    ∀ c r, x :: rest0 = c :: r → x.isDigit = false → c.isDigit = false := by
  intro c r h hx
  injection h with h1 _
  exact h1 ▸ hx

theorem nil_no_head : ∀ (c : Char) (r : List Char), ([] : List Char) = c :: r → c.isDigit = false := by
  intro c r h
  exact List.noConfusion h

theorem unifiedPort_mod (x y z : Nat) :
    unifiedPort (x % 2 ^ 32) (y % 2 ^ 32) (z % 2 ^ 32) = unifiedPort x y z := by
  have m4 : ∀ n : Nat, (n % 2 ^ 32) &&& 0xf = n &&& 0xf := by
    intro n
    rw [show (0xf : Nat) = 2 ^ 4 - 1 from rfl, Nat.and_pow_two_sub_one_eq_mod,
      Nat.and_pow_two_sub_one_eq_mod]
    exact Nat.mod_mod_of_dvd n (by decide)
  have m8 : ∀ n : Nat, (n % 2 ^ 32) &&& 0xff = n &&& 0xff := by
    intro n
    rw [show (0xff : Nat) = 2 ^ 8 - 1 from rfl, Nat.and_pow_two_sub_one_eq_mod,
      Nat.and_pow_two_sub_one_eq_mod]
    exact Nat.mod_mod_of_dvd n (by decide)
  simp only [unifiedPort, m4, m8]

theorem sscanf_ge_port_name (a b c : List Char) (ha : IsDecimal a) (hb : IsDecimal b)
    (hc : IsDecimal c) :
    sscanf_ge (['g', 'e', '-'] ++ a ++ '/' :: b ++ '/' :: c) =
      (3, min (digitsValue a) (2 ^ 63 - 1) % 2 ^ 32, min (digitsValue b) (2 ^ 63 - 1) % 2 ^ 32,
        min (digitsValue c) (2 ^ 63 - 1) % 2 ^ 32) := by
  have e1 : scanLiteral ['g', 'e', '-'] (['g', 'e', '-'] ++ a ++ '/' :: b ++ '/' :: c) =
      some (a ++ '/' :: (b ++ '/' :: (c ++ []))) := by
    simp [scanLiteral]
  have e2 := scanDecimal_decimal a ('/' :: (b ++ '/' :: (c ++ []))) ha
    (fun c r h => slash_not_digit c r h (by decide))
  have e3 := scanDecimal_decimal b ('/' :: (c ++ [])) hb
    (fun c r h => slash_not_digit c r h (by decide))
  have e4 := scanDecimal_decimal c [] hc nil_no_head
  unfold sscanf_ge
  rw [e1]
  simp only [Option.some_bind, e2, scanLiteral, if_true, e3, e4, Option.none_bind]

theorem sscanf_ge_unit_name (a b c d : List Char) (ha : IsDecimal a) (hb : IsDecimal b)
    (hc : IsDecimal c) (hd : IsDecimal d) :
    (sscanf_ge (['g', 'e', '-'] ++ a ++ '/' :: b ++ '/' :: c ++ '.' :: d)).1 = 4 := by
  have e1 : scanLiteral ['g', 'e', '-']
      (['g', 'e', '-'] ++ a ++ '/' :: b ++ '/' :: c ++ '.' :: d) =
      some (a ++ '/' :: (b ++ '/' :: (c ++ '.' :: (d ++ [])))) := by
    simp [scanLiteral]
  have e2 := scanDecimal_decimal a ('/' :: (b ++ '/' :: (c ++ '.' :: (d ++ [])))) ha
    (fun c r h => slash_not_digit c r h (by decide))
  have e3 := scanDecimal_decimal b ('/' :: (c ++ '.' :: (d ++ []))) hb
    (fun c r h => slash_not_digit c r h (by decide))
  have e4 := scanDecimal_decimal c ('.' :: (d ++ [])) hc
    (fun c r h => slash_not_digit c r h (by decide))
  have e5 := scanDecimal_decimal d [] hd nil_no_head
  unfold sscanf_ge
  rw [e1]
  simp only [Option.some_bind, e2, scanLiteral, if_true, e3, e4, e5]

theorem scanLiteral_some (lit : List Char) : ∀ (str r : List Char),
    scanLiteral lit str = some r → str = lit ++ r := by
  induction lit with
  | nil => intro str r h; simpa [scanLiteral] using h
  | cons c cs ih =>
    intro str r h
    cases str with
    | nil => simp [scanLiteral] at h
    | cons i input =>
      simp only [scanLiteral] at h
      split_ifs at h with hc
      rw [hc, ih input r h]
      rfl

theorem sscanf_ge_start (str : List Char) (h : (sscanf_ge str).1 = 3) :
    ∃ rest, str = 'g' :: 'e' :: '-' :: rest := by
  cases hl : scanLiteral ['g', 'e', '-'] str with
  | none => simp [sscanf_ge, hl] at h
  | some r => exact ⟨r, scanLiteral_some _ _ _ hl⟩

theorem sscanf_dynamic_vlan_start (str : List Char) (id : Nat)
    (h : sscanf_dynamic_vlan str = some id) :
    ∃ rest, str = ['d', 'y', 'n', 'a', 'm', 'i', 'c', '_', 'v', 'l', 'a', 'n', '_'] ++ rest := by
  cases hl : scanLiteral ['d', 'y', 'n', 'a', 'm', 'i', 'c', '_', 'v', 'l', 'a', 'n', '_'] str with
  | none => simp [sscanf_dynamic_vlan, hl] at h
  | some r => exact ⟨r, scanLiteral_some _ _ _ hl⟩

theorem sscanf_dynamic_vlan_name (d : List Char) (hd : IsDecimal d) :
    sscanf_dynamic_vlan (['d', 'y', 'n', 'a', 'm', 'i', 'c', '_', 'v', 'l', 'a', 'n', '_'] ++ d) =
      some (min (digitsValue d) (2 ^ 63 - 1) % 2 ^ 32) := by
  have e1 : scanLiteral ['d', 'y', 'n', 'a', 'm', 'i', 'c', '_', 'v', 'l', 'a', 'n', '_']
      (['d', 'y', 'n', 'a', 'm', 'i', 'c', '_', 'v', 'l', 'a', 'n', '_'] ++ d) = some (d ++ []) := by
    simp [scanLiteral]
  have e2 := scanDecimal_decimal d [] hd nil_no_head
  unfold sscanf_dynamic_vlan
  rw [e1]
  simp only [Option.some_bind, e2, Option.map_some']

/-! ### The copy into `ref_str` -/

theorem ne_nul_of_isDigit (c : Char) (h : c.isDigit = true) : c ≠ '\x00' := by
  rintro rfl; revert h; decide

theorem takeWhile_ne_nul (l : List Char) (h : ∀ c ∈ l, c ≠ '\x00') :
    l.takeWhile (fun c => c != '\x00') = l := by
  induction l with
  | nil => rfl
  | cons x t ih =>
    have hx : (x != '\x00') = true := by
      simpa using h x (List.mem_cons_self _ _)
    rw [List.takeWhile_cons, hx]
    simp only [if_true]
    rw [ih (fun c hc => h c (List.mem_cons_of_mem _ hc))]

theorem takeWhile_eq_cons {p : Char → Bool} {l t : List Char} {x : Char}
    (h : l.takeWhile p = x :: t) : ∃ r, l = x :: r ∧ r.takeWhile p = t := by
  cases l with
  | nil => exact List.noConfusion h
  | cons y r =>
    rw [List.takeWhile_cons] at h
    split_ifs at h
    injection h with h1 h2
    exact ⟨r, by rw [h1], h2⟩

theorem refStr_of_text (v : SnmpVar) (name : String) (hv : v.val = some name)
    (hlen : name.utf8ByteSize < 100) (hnul : ∀ c ∈ name.toList, c ≠ '\x00') :
    refStr v = some name.toList := by
  have hfit : fitsRefStr v = true := by
    simp only [fitsRefStr, hv, decide_eq_true_eq]
    exact hlen
  simp only [refStr, hfit, if_true, hv, Option.getD_some, takeWhile_ne_nul _ hnul]

theorem refStr_some (v : SnmpVar) (str : List Char) (h : refStr v = some str) :
    fitsRefStr v = true ∧ str = (v.val.getD "").toList.takeWhile (fun c => c != '\x00') := by
  unfold refStr at h
  split_ifs at h with hf
  injection h with h
  exact ⟨hf, h.symm⟩

theorem portEntry_of_fits (v : SnmpVar) (h : fitsRefStr v = true) :
    portEntry v =
      some (portEntryOf v ((v.val.getD "").toList.takeWhile (fun c => c != '\x00'))) := by
  simp only [portEntry, refStr, h, if_true, Option.map_some']

theorem vlanEntry_of_fits (v : SnmpVar) (h : fitsRefStr v = true) :
    vlanEntry v =
      some (vlanEntryOf v ((v.val.getD "").toList.takeWhile (fun c => c != '\x00'))) := by
  simp only [vlanEntry, refStr, h, if_true, Option.map_some']

/-! ### The walks -/

theorem walkVar_in_subtree {α : Type} (entry : SnmpVar → Option (Option α)) (root : List Nat)
    (st : WalkState α) (v : SnmpVar) (p : Option α)
    (hst : st.anOID.take root.length = root)
    (hlen : root.length ≤ v.name.length) (hv : v.name.take root.length = root)
    (hex : v.isException = false) (hp : entry v = some p) :
    walkVar entry root.length st v =
      { list := st.list ++ p.toList, anOID := v.name, running := st.running,
        overflow := st.overflow } := by
  have hc : ¬ (v.name.length < root.length ∨
      st.anOID.take root.length ≠ v.name.take root.length) := by
    rw [hst, hv]
    simp
    exact hlen
  simp only [walkVar, if_neg hc, hp, hex, if_true]
  cases p <;> simp

/-- One variable whose text fits the buffer: no overflow is recorded, `anOID`
stays below the root, and the walk keeps running only if it was running and
the variable lies in the subtree and has no exception type. -/
theorem walkVar_fits {α : Type} (entry : SnmpVar → Option (Option α)) (root : List Nat)
    (st : WalkState α) (v : SnmpVar) (hst : st.anOID.take root.length = root)
    (hfit : ∃ p, entry v = some p) :
    (walkVar entry root.length st v).overflow = st.overflow ∧
    (walkVar entry root.length st v).anOID.take root.length = root ∧
    ((walkVar entry root.length st v).running = true →
      st.running = true ∧ root.length ≤ v.name.length ∧ v.name.take root.length = root ∧
        v.isException = false) := by
  obtain ⟨p, hp⟩ := hfit
  by_cases hc : v.name.length < root.length ∨
      st.anOID.take root.length ≠ v.name.take root.length
  · have e : walkVar entry root.length st v = { st with running := false } := by
      simp only [walkVar, if_pos hc]
    rw [e]
    exact ⟨rfl, hst, fun h => Bool.noConfusion h⟩
  · have hlen : root.length ≤ v.name.length := by
      by_contra hlt
      exact hc (Or.inl (not_le.mp hlt))
    have hv : v.name.take root.length = root := by
      by_contra hne
      exact hc (Or.inr (by rw [hst]; exact fun h => hne h.symm))
    by_cases hex : v.isException = false
    · rw [walkVar_in_subtree entry root st v p hst hlen hv hex hp]
      exact ⟨rfl, hv, fun h => ⟨h, hlen, hv, hex⟩⟩
    · have e : walkVar entry root.length st v =
          { list := st.list ++ p.toList, anOID := st.anOID, running := false,
            overflow := st.overflow } := by
        simp only [walkVar, if_neg hc, hp, if_neg hex]
        cases p <;> simp
      rw [e]
      exact ⟨rfl, hst, fun h => Bool.noConfusion h⟩

theorem foldl_walkVar_fits {α : Type} (entry : SnmpVar → Option (Option α)) (root : List Nat) :
    ∀ (vars : List SnmpVar) (st : WalkState α), st.anOID.take root.length = root →
      (∀ v ∈ vars, ∃ p, entry v = some p) →
      (vars.foldl (walkVar entry root.length) st).overflow = st.overflow ∧
      (vars.foldl (walkVar entry root.length) st).anOID.take root.length = root ∧
      ((vars.foldl (walkVar entry root.length) st).running = true →
        st.running = true ∧ ∀ v ∈ vars, root.length ≤ v.name.length ∧
          v.name.take root.length = root ∧ v.isException = false) := by
  intro vars
  induction vars with
  | nil =>
    intro st hst _
    exact ⟨rfl, hst, fun h => ⟨h, fun v hv => absurd hv (List.not_mem_nil v)⟩⟩
  | cons x t ih =>
    intro st hst hfit
    obtain ⟨h1, h2, h3⟩ := walkVar_fits entry root st x hst (hfit x (List.mem_cons_self _ _))
    obtain ⟨i1, i2, i3⟩ := ih (walkVar entry root.length st x) h2
      (fun v hv => hfit v (List.mem_cons_of_mem _ hv))
    rw [List.foldl_cons]
    refine ⟨i1.trans h1, i2, fun hrun => ?_⟩
    obtain ⟨j1, j2⟩ := i3 hrun
    obtain ⟨k1, k2⟩ := h3 j1
    refine ⟨k1, fun v hv => ?_⟩
    rcases List.mem_cons.mp hv with rfl | hv
    · exact k2
    · exact j2 v hv

theorem walk_walkAgent {α : Type} (entry : SnmpVar → Option (Option α)) (root : List Nat)
    (results : List SnmpVar)
    (hin : ∀ v ∈ results, root.length ≤ v.name.length ∧ v.name.take root.length = root ∧
      v.isException = false ∧ ∃ p, entry v = some p) :
    ∀ (fuel k : Nat) (st : WalkState α), st.anOID.take root.length = root →
      st.running = true → st.overflow = false → k ≤ results.length →
      results.length - k < fuel →
      walk (walkAgent results) entry root.length fuel k st =
        some (st.list ++ (results.drop k).filterMap (fun v => (entry v).join)) := by
  intro fuel
  induction fuel with
  | zero => intro k st _ _ _ _ hf; omega
  | succ n ih =>
    intro k st hst hrun hov hk hf
    by_cases hlt : k < results.length
    · have hget : results[k]? = some results[k] := List.getElem?_eq_getElem hlt
      obtain ⟨h1, h2, h3, p, hp⟩ := hin results[k] (List.getElem_mem hlt)
      have hstep := walkVar_in_subtree entry root st results[k] p hst h1 h2 h3 hp
      have hresp : (walkAgent results).snmp_synch_response k st.anOID =
          { success := true, vars := [results[k]] } := by
        simp only [walkAgent, hget]
      have hnext := ih (k + 1)
        { list := st.list ++ p.toList, anOID := results[k].name,
          running := true, overflow := false } h2 rfl rfl (by omega) (by omega)
      simp only [walk, hresp, List.foldl_cons, List.foldl_nil, hstep, hrun, hov, if_true,
        Bool.false_eq_true, if_false]
      rw [hnext, List.drop_eq_getElem_cons hlt, List.filterMap_cons, hp]
      cases p <;> simp
    · have hnone : results[k]? = none := List.getElem?_eq_none (by omega)
      have hdrop : results.drop k = [] := List.drop_eq_nil_of_le (by omega)
      have hresp : (walkAgent results).snmp_synch_response k st.anOID =
          { success := false, vars := [] } := by
        simp only [walkAgent, hnone]
      simp [walk, hresp, hdrop]

/-- The walk ends: when every text of the responses up to request `n` fits the
buffer and the response to request `n` ends the walk (a failed request, a
variable outside the subtree, or an exception type), a walk that may issue
more than `n` requests has a result. -/
theorem walk_returns {α : Type} (S : SnmpEnv) (entry : SnmpVar → Option (Option α))
    (root : List Nat) (n : Nat)
    (hfit : ∀ k oid, k ≤ n → ∀ v ∈ (S.snmp_synch_response k oid).vars, ∃ p, entry v = some p)
    (hend : ∀ oid, endsWalk root (S.snmp_synch_response n oid) = true) :
    ∀ (fuel k : Nat) (st : WalkState α), st.anOID.take root.length = root →
      st.overflow = false → k ≤ n → n < k + fuel →
      ∃ l, walk S entry root.length fuel k st = some l := by
  intro fuel
  induction fuel with
  | zero => intro k st _ _ h1 h2; omega
  | succ m ih =>
    intro k st hst hov h1 h2
    obtain ⟨f1, f2, f3⟩ := foldl_walkVar_fits entry root
      (S.snmp_synch_response k st.anOID).vars st hst (hfit k st.anOID h1)
    simp only [walk]
    split_ifs with hs ho hr
    · rw [f1, hov] at ho
      exact Bool.noConfusion ho
    · have hk : k ≠ n := by
        rintro rfl
        obtain ⟨_, hall⟩ := f3 hr
        have he := hend st.anOID
        simp only [endsWalk, Bool.or_eq_true, Bool.not_eq_true', List.any_eq_true,
          decide_eq_true_eq, bne_iff_ne, ne_eq] at he
        rcases he with he | ⟨v, hv, he⟩
        · rw [he] at hs
          exact Bool.noConfusion hs
        · obtain ⟨a1, a2, a3⟩ := hall v hv
          rcases he with (he | he) | he
          · omega
          · exact he a2
          · rw [a3] at he
            exact Bool.noConfusion he
      exact ih (k + 1) _ f2 (f1.trans hov) (by omega) (by omega)
    · exact ⟨_, rfl⟩
    · exact ⟨_, rfl⟩

theorem hook_createPortToIDRefTable_walkAgent (results : List SnmpVar) (list0 : List portRefID)
    (hin : ∀ v ∈ results, ifDescrRoot.length ≤ v.name.length ∧
      v.name.take ifDescrRoot.length = ifDescrRoot ∧ v.isException = false ∧
      fitsRefStr v = true) :
    hook_createPortToIDRefTable (walkAgent results) (results.length + 1) list0 =
      some (if (results.filterMap (fun v => (portEntry v).join)).length = 0 then false else true,
        results.filterMap (fun v => (portEntry v).join)) := by
  have h := walk_walkAgent portEntry ifDescrRoot results
    (fun v hv => ⟨(hin v hv).1, (hin v hv).2.1, (hin v hv).2.2.1, _,
      portEntry_of_fits v (hin v hv).2.2.2⟩) (results.length + 1) 0
    { list := [], anOID := ifDescrRoot, running := true, overflow := false } (by decide) rfl rfl
    (Nat.zero_le _) (by omega)
  have he : (walkAgent results).snmpEnabled = true := rfl
  simp only [hook_createPortToIDRefTable, he, Bool.true_eq_false, if_false, h, List.drop_zero,
    List.nil_append, Option.map_some']

theorem hook_createVlanInterfaceToIDRefTable_walkAgent (results : List SnmpVar)
    (list0 : List vlanRefID)
    (hin : ∀ v ∈ results, vlanStaticNameRoot.length ≤ v.name.length ∧
      v.name.take vlanStaticNameRoot.length = vlanStaticNameRoot ∧ v.isException = false ∧
      fitsRefStr v = true) :
    hook_createVlanInterfaceToIDRefTable (walkAgent results) (results.length + 1) list0 =
      some (if (results.filterMap (fun v => (vlanEntry v).join)).length = 0 then false else true,
        results.filterMap (fun v => (vlanEntry v).join)) := by
  have h := walk_walkAgent vlanEntry vlanStaticNameRoot results
    (fun v hv => ⟨(hin v hv).1, (hin v hv).2.1, (hin v hv).2.2.1, _,
      vlanEntry_of_fits v (hin v hv).2.2.2⟩) (results.length + 1) 0
    { list := [], anOID := vlanStaticNameRoot, running := true, overflow := false } (by decide)
    rfl rfl (Nat.zero_le _) (by omega)
  have he : (walkAgent results).snmpEnabled = true := rfl
  simp only [hook_createVlanInterfaceToIDRefTable, he, Bool.true_eq_false, if_false, h,
    List.drop_zero, List.nil_append, Option.map_some']

theorem fits_of_namesFit (r : SnmpResponse) (h : namesFit r = true) :
    ∀ v ∈ r.vars, fitsRefStr v = true := by
  simpa [namesFit, List.all_eq_true] using h

theorem IsGePortName_chars (name : List Char) (h : IsGePortName name) :
    ∀ ch ∈ name, ch.isDigit = true ∨ ch = 'g' ∨ ch = 'e' ∨ ch = '-' ∨ ch = '/' := by
  obtain ⟨a, b, c, ha, hb, hc, rfl⟩ := h
  intro ch hch
  simp only [List.mem_append, List.mem_cons, List.mem_singleton, List.not_mem_nil,
    or_false] at hch
  rcases hch with (((h | h | h) | h) | h | h) | h | h
  · exact Or.inr (Or.inl h)
  · exact Or.inr (Or.inr (Or.inl h))
  · exact Or.inr (Or.inr (Or.inr (Or.inl h)))
  · exact Or.inl (ha.2 ch h)
  · exact Or.inr (Or.inr (Or.inr (Or.inr h)))
  · exact Or.inl (hb.2 ch h)
  · exact Or.inr (Or.inr (Or.inr (Or.inr h)))
  · exact Or.inl (hc.2 ch h)

theorem ge_port_name_no_nul (a b c : List Char) (ha : IsDecimal a) (hb : IsDecimal b)
    (hc : IsDecimal c) :
    ∀ ch ∈ ['g', 'e', '-'] ++ a ++ '/' :: b ++ '/' :: c, ch ≠ '\x00' := by
  intro ch hch
  rcases IsGePortName_chars _ ⟨a, b, c, ha, hb, hc, rfl⟩ ch hch with h | h | h | h | h
  · exact ne_nul_of_isDigit ch h
  all_goals (rw [h]; decide)

theorem ge_unit_name_no_nul (a b c d : List Char) (ha : IsDecimal a) (hb : IsDecimal b)
    (hc : IsDecimal c) (hd : IsDecimal d) :
    ∀ ch ∈ ['g', 'e', '-'] ++ a ++ '/' :: b ++ '/' :: c ++ '.' :: d, ch ≠ '\x00' := by
  intro ch hch
  rcases List.mem_append.mp hch with h | h
  · exact ge_port_name_no_nul a b c ha hb hc ch h
  · rcases List.mem_cons.mp h with h | h
    · rw [h]; decide
    · exact ne_nul_of_isDigit ch (hd.2 ch h)

theorem vlan_name_no_nul (d : List Char) (hd : IsDecimal d) :
    ∀ ch ∈ ['d', 'y', 'n', 'a', 'm', 'i', 'c', '_', 'v', 'l', 'a', 'n', '_'] ++ d,
      ch ≠ '\x00' := by
  intro ch hch
  rcases List.mem_append.mp hch with h | h
  · have hlit : ∀ x ∈ ['d', 'y', 'n', 'a', 'm', 'i', 'c', '_', 'v', 'l', 'a', 'n', '_'],
        x ≠ '\x00' := by decide
    exact hlit ch h
  · exact ne_nul_of_isDigit ch (hd.2 ch h)

/-- C15, as stated, fails: the name `ge-0/0/3:0` is not of the form
`ge-<mod>/<slot>/<port>`, yet `sscanf` assigns three numbers before it stops
at the colon, and an entry for module 0 / slot 0 / port 3 is pushed. -/
theorem portEntry_name_with_trailing_text :
    ¬ IsGePortName "ge-0/0/3:0".toList ∧
    portEntry { name := ifDescrRoot ++ [505], isException := false, val := some "ge-0/0/3:0" } =
      some (some { ref_id := 505, port_id := unifiedPort 0 0 3, port_bit := 505 }) := by
  refine ⟨?_, by decide⟩
  intro h
  have := IsGePortName_chars _ h ':' (by decide)
  revert this
  decide

/-- C15 (amended): for every sequence of in-subtree walk results whose names
are shorter than the 100 bytes of `ref_str`, handed out one per response, the
table built by `hook_createPortToIDRefTable` is the list of the entries of the
results, in order, where a result has an entry exactly when
`sscanf(name, "ge-%d/%d/%d.%d")` assigns exactly three numbers.  Every such
name `ge-<mod>/<slot>/<port>` has the entry with `ref_id = port_bit =` last
OID component and `port_id = ((mod & 0xf) << 12) | ((slot & 0xf) << 8) |
(port & 0xff)`, a number above `LONG_MAX` being read as `LONG_MAX` (so
`ge-1/2/10000000000000000000` gives `0x12ff`); no name
`ge-<mod>/<slot>/<port>.<unit>` has an entry; every entry has `ref_id =
port_bit =` last OID component and comes from a name that starts with `ge-`.
For `ge-0/0/3` at index 503 and `ge-0/0/3.0` at index 504 the table is the
single entry of index 503 for module 0 / slot 0 / port 3. -/
theorem hook_createPortToIDRefTable_convention :
    (∀ (results : List SnmpVar) (list0 : List portRefID),
      (∀ v ∈ results, ifDescrRoot.length ≤ v.name.length ∧
        v.name.take ifDescrRoot.length = ifDescrRoot ∧ v.isException = false ∧
        fitsRefStr v = true) →
      hook_createPortToIDRefTable (walkAgent results) (results.length + 1) list0 =
        some (if (results.filterMap (fun v => (portEntry v).join)).length = 0 then false
            else true,
          results.filterMap (fun v => (portEntry v).join))) ∧
    (∀ (v : SnmpVar) (name : String) (a b c : List Char),
      v.val = some name → name.utf8ByteSize < 100 →
      IsDecimal a → IsDecimal b → IsDecimal c →
      name.toList = ['g', 'e', '-'] ++ a ++ '/' :: b ++ '/' :: c →
      portEntry v = some (some
        { ref_id := lastSubId v, port_bit := lastSubId v,
          port_id := unifiedPort (min (digitsValue a) (2 ^ 63 - 1))
            (min (digitsValue b) (2 ^ 63 - 1)) (min (digitsValue c) (2 ^ 63 - 1)) })) ∧
    (∀ (v : SnmpVar) (name : String) (a b c d : List Char),
      v.val = some name → name.utf8ByteSize < 100 →
      IsDecimal a → IsDecimal b → IsDecimal c → IsDecimal d →
      name.toList = ['g', 'e', '-'] ++ a ++ '/' :: b ++ '/' :: c ++ '.' :: d →
      portEntry v = some none) ∧
    (∀ (v : SnmpVar) (e : portRefID), portEntry v = some (some e) →
      e.ref_id = lastSubId v ∧ e.port_bit = lastSubId v ∧
      ∃ name rest, v.val = some name ∧ name.utf8ByteSize < 100 ∧
        name.toList = 'g' :: 'e' :: '-' :: rest) ∧
    hook_createPortToIDRefTable ifDescrEnv 4 [] =
      some (true, [{ ref_id := 503, port_id := unifiedPort 0 0 3, port_bit := 503 }]) ∧
    portEntry { name := ifDescrRoot ++ [506], isException := false,
                val := some "ge-1/2/10000000000000000000" } =
      some (some { ref_id := 506, port_id := 0x12ff, port_bit := 506 }) := by
  refine ⟨hook_createPortToIDRefTable_walkAgent, ?_, ?_, ?_, by decide, by decide⟩
  · intro v name a b c hv hlen ha hb hc hn
    have hnul : ∀ ch ∈ name.toList, ch ≠ '\x00' := by
      rw [hn]
      exact ge_port_name_no_nul a b c ha hb hc
    have hne : ['g', 'e', '-'] ++ a ++ '/' :: b ++ '/' :: c ≠ [] := by simp
    simp only [portEntry, refStr_of_text v name hv hlen hnul, Option.map_some', portEntryOf, hn,
      if_neg hne, sscanf_ge_port_name a b c ha hb hc, if_true, unifiedPort_mod]
  · intro v name a b c d hv hlen ha hb hc hd hn
    have hnul : ∀ ch ∈ name.toList, ch ≠ '\x00' := by
      rw [hn]
      exact ge_unit_name_no_nul a b c d ha hb hc hd
    have hne : ['g', 'e', '-'] ++ a ++ '/' :: b ++ '/' :: c ++ '.' :: d ≠ [] := by simp
    have h4 := sscanf_ge_unit_name a b c d ha hb hc hd
    simp only [portEntry, refStr_of_text v name hv hlen hnul, Option.map_some', portEntryOf, hn,
      if_neg hne, h4]
    rfl
  · intro v e he
    cases hr : refStr v with
    | none =>
      rw [portEntry, hr] at he
      exact Option.noConfusion he
    | some str =>
      obtain ⟨hfit, hstr⟩ := refStr_some v str hr
      simp only [portEntry, hr, Option.map_some', portEntryOf, Option.some.injEq] at he
      split_ifs at he with h1 h2
      obtain ⟨rest, hrest⟩ := sscanf_ge_start _ h2
      injection he with he
      subst he
      refine ⟨rfl, rfl, ?_⟩
      cases hv : v.val with
      | none =>
        rw [hv] at hstr
        exact absurd hstr h1
      | some name =>
        have hlen : name.utf8ByteSize < 100 := by
          simpa [fitsRefStr, hv] using hfit
        rw [hv, Option.getD_some, hrest] at hstr
        obtain ⟨r1, e1, t1⟩ := takeWhile_eq_cons hstr.symm
        obtain ⟨r2, e2, t2⟩ := takeWhile_eq_cons t1
        obtain ⟨r3, e3, _⟩ := takeWhile_eq_cons t2
        exact ⟨name, r3, rfl, hlen, by rw [e1, e2, e3]⟩

theorem takeWhile_eq_append {p : Char → Bool} : ∀ (pre l t : List Char),
    l.takeWhile p = pre ++ t → ∃ r, l = pre ++ r := by
  intro pre
  induction pre with
  | nil => intro l t _; exact ⟨l, rfl⟩
  | cons x pre ih =>
    intro l t h
    obtain ⟨r, e, ht⟩ := takeWhile_eq_cons (show l.takeWhile p = x :: (pre ++ t) from h)
    obtain ⟨r1, e1⟩ := ih r t ht
    exact ⟨r1, by rw [e, e1]; rfl⟩

/-- C16, as stated, fails: the name `defaults` is neither `dynamic_vlan_<id>`
nor the literal name `default`, yet `strncmp(ref_str, "default", 7)` compares
seven characters only, and an entry for VLAN 1 is pushed. -/
theorem vlanEntry_name_starting_with_default :
    ¬ IsVlanName "defaults".toList ∧
    vlanEntry { name := vlanStaticNameRoot ++ [4], isException := false, val := some "defaults" } =
      some (some { ref_id := 4, vlan_id := 1 }) := by
  refine ⟨?_, by decide⟩
  rintro (⟨d, _, h⟩ | h)
  · have h2 : ("defaults".toList)[1]? = some 'y' := by rw [h]; rfl
    revert h2
    decide
  · revert h
    decide

/-- C16 (amended): for every sequence of in-subtree walk results whose names
are shorter than the 100 bytes of `ref_str`, handed out one per response, the
table built by `hook_createVlanInterfaceToIDRefTable` is the list of the
entries of the results, in order, where a result has an entry exactly when
`sscanf(name, "dynamic_vlan_%d")` assigns a number (entry `vlan_id` that
number) or, failing that, the first seven characters of the name are
`default` (entry `vlan_id = 1`).  Every such name `dynamic_vlan_<id>` has the
entry with `vlan_id = id` as `%d` stores it in 32 bits, an `id` above
`LONG_MAX` being read as `LONG_MAX` (so `dynamic_vlan_9223372036854775808`
gives 4294967295); the name `default` has the entry with `vlan_id = 1`;
`ref_id` is the last OID component; and a name that starts with neither
`dynamic_vlan_` nor `default` has no entry. -/
theorem hook_createVlanInterfaceToIDRefTable_convention :
    (∀ (results : List SnmpVar) (list0 : List vlanRefID),
      (∀ v ∈ results, vlanStaticNameRoot.length ≤ v.name.length ∧
        v.name.take vlanStaticNameRoot.length = vlanStaticNameRoot ∧ v.isException = false ∧
        fitsRefStr v = true) →
      hook_createVlanInterfaceToIDRefTable (walkAgent results) (results.length + 1) list0 =
        some (if (results.filterMap (fun v => (vlanEntry v).join)).length = 0 then false
            else true,
          results.filterMap (fun v => (vlanEntry v).join))) ∧
    (∀ (v : SnmpVar) (name : String) (d : List Char), v.val = some name →
      name.utf8ByteSize < 100 → IsDecimal d →
      name.toList = ['d', 'y', 'n', 'a', 'm', 'i', 'c', '_', 'v', 'l', 'a', 'n', '_'] ++ d →
      vlanEntry v = some (some
        { ref_id := lastSubId v, vlan_id := min (digitsValue d) (2 ^ 63 - 1) % 2 ^ 32 })) ∧
    (∀ (v : SnmpVar) (name : String), v.val = some name →
      name.toList = ['d', 'e', 'f', 'a', 'u', 'l', 't'] →
      vlanEntry v = some (some { ref_id := lastSubId v, vlan_id := 1 })) ∧
    (∀ (v : SnmpVar) (e : vlanRefID), vlanEntry v = some (some e) →
      e.ref_id = lastSubId v ∧
      ∃ name, v.val = some name ∧ name.utf8ByteSize < 100 ∧
        ((∃ rest, name.toList =
            ['d', 'y', 'n', 'a', 'm', 'i', 'c', '_', 'v', 'l', 'a', 'n', '_'] ++ rest) ∨
          (name.toList.take 7 = ['d', 'e', 'f', 'a', 'u', 'l', 't'] ∧ e.vlan_id = 1))) ∧
    hook_createVlanInterfaceToIDRefTable vlanNameEnv 4 [] =
      some (true, [{ ref_id := 2, vlan_id := 1 }, { ref_id := 3, vlan_id := 100 },
        { ref_id := 4, vlan_id := 1 }]) ∧
    vlanEntry { name := vlanStaticNameRoot ++ [5], isException := false,
                val := some "dynamic_vlan_9223372036854775808" } =
      some (some { ref_id := 5, vlan_id := 4294967295 }) := by
  refine ⟨hook_createVlanInterfaceToIDRefTable_walkAgent, ?_, ?_, ?_, by decide, by decide⟩
  · intro v name d hv hlen hd hn
    have hnul : ∀ ch ∈ name.toList, ch ≠ '\x00' := by
      rw [hn]
      exact vlan_name_no_nul d hd
    have hne : ['d', 'y', 'n', 'a', 'm', 'i', 'c', '_', 'v', 'l', 'a', 'n', '_'] ++ d ≠ [] := by
      simp
    simp only [vlanEntry, refStr_of_text v name hv hlen hnul, Option.map_some', vlanEntryOf, hn,
      if_neg hne, sscanf_dynamic_vlan_name d hd]
  · intro v name hv hn
    have hname : name = "default" := String.ext hn
    subst hname
    have hs : sscanf_dynamic_vlan ['d', 'e', 'f', 'a', 'u', 'l', 't'] = none := by decide
    have hr : refStr v = some ['d', 'e', 'f', 'a', 'u', 'l', 't'] :=
      refStr_of_text v "default" hv (by decide) (by decide)
    have hne : ['d', 'e', 'f', 'a', 'u', 'l', 't'] ≠ [] := by simp
    simp only [vlanEntry, hr, Option.map_some', vlanEntryOf, if_neg hne, hs]
    rfl
  · intro v e he
    cases hr : refStr v with
    | none =>
      rw [vlanEntry, hr] at he
      exact Option.noConfusion he
    | some str =>
      obtain ⟨hfit, hstr⟩ := refStr_some v str hr
      simp only [vlanEntry, hr, Option.map_some', vlanEntryOf, Option.some.injEq] at he
      cases hv : v.val with
      | none =>
        rw [hv] at hstr
        have h0 : str = [] := hstr
        rw [if_pos h0] at he
        exact Option.noConfusion he
      | some name =>
        have hlen : name.utf8ByteSize < 100 := by
          simpa [fitsRefStr, hv] using hfit
        rw [hv, Option.getD_some] at hstr
        by_cases h1 : str = []
        · rw [if_pos h1] at he
          exact Option.noConfusion he
        · rw [if_neg h1] at he
          cases hs : sscanf_dynamic_vlan str with
          | some id =>
            rw [hs] at he
            injection he with he
            subst he
            obtain ⟨rest, hrest⟩ := sscanf_dynamic_vlan_start _ _ hs
            obtain ⟨r, hr1⟩ := takeWhile_eq_append _ name.toList rest (hstr.symm.trans hrest)
            exact ⟨rfl, name, rfl, hlen, Or.inl ⟨r, hr1⟩⟩
          | none =>
            rw [hs] at he
            by_cases h2 : str.take 7 = ['d', 'e', 'f', 'a', 'u', 'l', 't']
            · simp only [if_pos h2] at he
              injection he with he
              subst he
              have hsplit : str = ['d', 'e', 'f', 'a', 'u', 'l', 't'] ++ str.drop 7 := by
                rw [← h2, List.take_append_drop]
              obtain ⟨r, hr1⟩ := takeWhile_eq_append _ name.toList (str.drop 7)
                (hstr.symm.trans hsplit)
              exact ⟨rfl, name, rfl, hlen, Or.inr ⟨by rw [hr1]; rfl, rfl⟩⟩
            · simp only [if_neg h2] at he
              exact Option.noConfusion he

/-- C19 (the walks fail on an empty result): whenever
`hook_createPortToIDRefTable` or `hook_createVlanInterfaceToIDRefTable`
returns, the result is `false` if and only if SNMP is disabled or the list is
empty after the call, and with SNMP enabled the result and the list are the
same whatever the list held before the call (it is cleared before the walk).
The calls do return: at once with `false` when SNMP is disabled, and
otherwise whenever the names handed out fit the buffer `ref_str` and the
response to some request ends the walk (a failed request, a variable outside
the subtree, or an exception type) while more requests than that are
allowed. -/
theorem refTable_false_iff_empty (S : SnmpEnv) (fuel : Nat)
    (portList0 : List portRefID) (vlanList0 : List vlanRefID) :
    (∀ b l, hook_createPortToIDRefTable S fuel portList0 = some (b, l) →
      (b = false ↔ S.snmpEnabled = false ∨ l = []) ∧
      (S.snmpEnabled = true →
        ∀ other, hook_createPortToIDRefTable S fuel other = some (b, l))) ∧
    (∀ b l, hook_createVlanInterfaceToIDRefTable S fuel vlanList0 = some (b, l) →
      (b = false ↔ S.snmpEnabled = false ∨ l = []) ∧
      (S.snmpEnabled = true →
        ∀ other, hook_createVlanInterfaceToIDRefTable S fuel other = some (b, l))) ∧
    (S.snmpEnabled = false →
      hook_createPortToIDRefTable S fuel portList0 = some (false, portList0) ∧
      hook_createVlanInterfaceToIDRefTable S fuel vlanList0 = some (false, vlanList0)) ∧
    (∀ n, n < fuel → (∀ k oid, k ≤ n → namesFit (S.snmp_synch_response k oid) = true) →
      ((∀ oid, endsWalk ifDescrRoot (S.snmp_synch_response n oid) = true) →
        ∃ b l, hook_createPortToIDRefTable S fuel portList0 = some (b, l)) ∧
      ((∀ oid, endsWalk vlanStaticNameRoot (S.snmp_synch_response n oid) = true) →
        ∃ b l, hook_createVlanInterfaceToIDRefTable S fuel vlanList0 = some (b, l))) := by
  refine ⟨?_, ?_, ?_, ?_⟩
  · intro b l h
    cases he : S.snmpEnabled with
    | false =>
      simp only [hook_createPortToIDRefTable, he, if_true, Option.some.injEq,
        Prod.mk.injEq] at h
      exact ⟨by simp [← h.1], fun h => Bool.noConfusion h⟩
    | true =>
      simp only [hook_createPortToIDRefTable, he, Bool.true_eq_false, if_false] at h
      cases hw : walk S portEntry ifDescrRoot.length fuel 0
          { list := [], anOID := ifDescrRoot, running := true, overflow := false } with
      | none =>
        rw [hw] at h
        exact Option.noConfusion h
      | some l1 =>
        rw [hw, Option.map_some', Option.some.injEq, Prod.mk.injEq] at h
        obtain ⟨hb, hl⟩ := h
        subst hl
        subst hb
        refine ⟨?_, fun _ other => by simp [hook_createPortToIDRefTable, he, hw]⟩
        cases l1 <;> simp
  · intro b l h
    cases he : S.snmpEnabled with
    | false =>
      simp only [hook_createVlanInterfaceToIDRefTable, he, if_true, Option.some.injEq,
        Prod.mk.injEq] at h
      exact ⟨by simp [← h.1], fun h => Bool.noConfusion h⟩
    | true =>
      simp only [hook_createVlanInterfaceToIDRefTable, he, Bool.true_eq_false, if_false] at h
      cases hw : walk S vlanEntry vlanStaticNameRoot.length fuel 0
          { list := [], anOID := vlanStaticNameRoot, running := true, overflow := false } with
      | none =>
        rw [hw] at h
        exact Option.noConfusion h
      | some l1 =>
        rw [hw, Option.map_some', Option.some.injEq, Prod.mk.injEq] at h
        obtain ⟨hb, hl⟩ := h
        subst hl
        subst hb
        refine ⟨?_, fun _ other => by simp [hook_createVlanInterfaceToIDRefTable, he, hw]⟩
        cases l1 <;> simp
  · intro he
    exact ⟨by simp [hook_createPortToIDRefTable, he],
      by simp [hook_createVlanInterfaceToIDRefTable, he]⟩
  · intro n hn hfit
    constructor
    · intro hend
      cases he : S.snmpEnabled with
      | false => exact ⟨false, portList0, by simp [hook_createPortToIDRefTable, he]⟩
      | true =>
        obtain ⟨l, hl⟩ := walk_returns S portEntry ifDescrRoot n
          (fun k oid hk v hv =>
            ⟨_, portEntry_of_fits v (fits_of_namesFit _ (hfit k oid hk) v hv)⟩) hend fuel 0
          { list := [], anOID := ifDescrRoot, running := true, overflow := false }
          (by decide) rfl (Nat.zero_le _) (by omega)
        exact ⟨if l.length = 0 then false else true, l,
          by simp [hook_createPortToIDRefTable, he, hl]⟩
    · intro hend
      cases he : S.snmpEnabled with
      | false => exact ⟨false, vlanList0, by simp [hook_createVlanInterfaceToIDRefTable, he]⟩
      | true =>
        obtain ⟨l, hl⟩ := walk_returns S vlanEntry vlanStaticNameRoot n
          (fun k oid hk v hv =>
            ⟨_, vlanEntry_of_fits v (fits_of_namesFit _ (hfit k oid hk) v hv)⟩) hend fuel 0
          { list := [], anOID := vlanStaticNameRoot, running := true, overflow := false }
          (by decide) rfl (Nat.zero_le _) (by omega)
        exact ⟨if l.length = 0 then false else true, l,
          by simp [hook_createVlanInterfaceToIDRefTable, he, hl]⟩

/-- Witness of C19: the port walk over `ge-0/0/3`, `ge-0/0/3.0` and a variable
of the next column, which ends the walk at request 2 by leaving the subtree;
the call is started on a list that holds an entry of an earlier build. -/
theorem refTable_false_iff_empty_witness :
    hook_createPortToIDRefTable ifDescrEnv 3 [{ ref_id := 1, port_id := 1, port_bit := 1 }] =
      some (true, [{ ref_id := 503, port_id := unifiedPort 0 0 3, port_bit := 503 }]) ∧
    (∀ oid, endsWalk ifDescrRoot (ifDescrEnv.snmp_synch_response 2 oid) = true) ∧
    ((true = false ↔ ifDescrEnv.snmpEnabled = false ∨
        [({ ref_id := 503, port_id := unifiedPort 0 0 3, port_bit := 503 } : portRefID)] = []) ∧
      (ifDescrEnv.snmpEnabled = true →
        ∀ other, hook_createPortToIDRefTable ifDescrEnv 3 other =
          some (true, [{ ref_id := 503, port_id := unifiedPort 0 0 3, port_bit := 503 }]))) :=
  ⟨by decide, fun _ => rfl,
   (refTable_false_iff_empty ifDescrEnv 3 [{ ref_id := 1, port_id := 1, port_bit := 1 }] []).1
     true [{ ref_id := 503, port_id := unifiedPort 0 0 3, port_bit := 503 }] (by decide)⟩

/-! ## Entries of a port map list under `SetPortBit` / `ResetPortBit` -/

theorem updatePortbits_map_vid (f : List Nat → List Nat) (vid : Nat) (l : List vlanPortMap) :
    (updatePortbits f vid l).map vlanPortMap.vid = l.map vlanPortMap.vid := by
  induction l with
  | nil => rfl
  | cons m t ih =>
    simp only [updatePortbits]
    split_ifs
    · rfl
    · simp only [List.map_cons, ih]

theorem touchBit_eq_updatePortbits (f : List Nat → List Nat) (vid : Nat) (l : List vlanPortMap) :
    touchBit f vid l = updatePortbits f vid l := by
  unfold touchBit
  split
  · rfl
  · rename_i hnone
    induction l with
    | nil => rfl
    | cons m t ih =>
      simp only [getVlanPortMapById, List.find?_cons] at hnone
      split at hnone
      · exact Option.noConfusion hnone
      · rename_i hm
        simp only [updatePortbits, hm, Bool.false_eq_true, if_false]
        rw [← ih hnone]

theorem mem_updatePortbits (f : List Nat → List Nat) (vid : Nat) (l : List vlanPortMap)
    (hnd : (l.map vlanPortMap.vid).Nodup) (m1 : vlanPortMap)
    (h : m1 ∈ updatePortbits f vid l) :
    (m1.vid ≠ vid ∧ m1 ∈ l) ∨
    (m1.vid = vid ∧ ∃ m ∈ l, m.vid = vid ∧ m1.portbits = f m.portbits) := by
  induction l with
  | nil => exact absurd h (List.not_mem_nil _)
  | cons m t ih =>
    rw [List.map_cons, List.nodup_cons] at hnd
    by_cases hm : m.vid = vid
    · have hb : (m.vid == vid) = true := by simpa using hm
      simp only [updatePortbits, hb, if_true, List.mem_cons] at h
      rcases h with h | h
      · right
        subst h
        exact ⟨hm, m, List.mem_cons_self _ _, hm, rfl⟩
      · left
        refine ⟨?_, List.mem_cons_of_mem _ h⟩
        intro hv
        exact hnd.1 (List.mem_map.mpr ⟨m1, h, hv.trans hm.symm⟩)
    · have hb : (m.vid == vid) = false := by simpa using hm
      simp only [updatePortbits, hb, Bool.false_eq_true, if_false, List.mem_cons] at h
      rcases h with h | h
      · left
        subst h
        exact ⟨hm, List.mem_cons_self _ _⟩
      · rcases ih hnd.2 h with ⟨h1, h2⟩ | ⟨h1, m0, h2, h3, h4⟩
        · exact Or.inl ⟨h1, List.mem_cons_of_mem _ h2⟩
        · exact Or.inr ⟨h1, m0, List.mem_cons_of_mem _ h2, h3, h4⟩

theorem length_ResetPortBit (bit : Nat) (p : List Nat) : (ResetPortBit bit p).length = p.length := by
  simp [ResetPortBit]

/-- After the move the bit reads as set in the entry of `v`, when the bit lies
inside the byte arrays. -/
theorem moved_bit_set_new (l : List vlanPortMap) (hnd : (l.map vlanPortMap.vid).Nodup)
    (bit old v : Nat) (hlen : ∀ m0 ∈ l, bit / 8 < m0.portbits.length) (m : vlanPortMap)
    (hm : m ∈ touchBit (SetPortBit bit) v (touchBit (ResetPortBit bit) old l))
    (hv : m.vid = v) : HasPortBit m.portbits bit = true := by
  rw [touchBit_eq_updatePortbits, touchBit_eq_updatePortbits] at hm
  have hnd1 : ((updatePortbits (ResetPortBit bit) old l).map vlanPortMap.vid).Nodup := by
    rw [updatePortbits_map_vid]; exact hnd
  rcases mem_updatePortbits _ _ _ hnd1 m hm with ⟨h1, _⟩ | ⟨_, m1, hm1, _, h4⟩
  · exact absurd hv h1
  · rw [h4]
    apply HasPortBit_SetPortBit
    rcases mem_updatePortbits _ _ _ hnd m1 hm1 with ⟨_, h2⟩ | ⟨_, m0, h2, _, h5⟩
    · exact hlen m1 h2
    · rw [h5, length_ResetPortBit]; exact hlen m0 h2

/-- An entry of another VLAN after the move is an entry from before the move,
or the entry of `old` with the bit reset. -/
theorem moved_bit_other (l : List vlanPortMap) (hnd : (l.map vlanPortMap.vid).Nodup)
    (bit old v : Nat) (m : vlanPortMap)
    (hm : m ∈ touchBit (SetPortBit bit) v (touchBit (ResetPortBit bit) old l))
    (hv : m.vid ≠ v) : (m ∈ l ∧ m.vid ≠ old) ∨ HasPortBit m.portbits bit = false := by
  rw [touchBit_eq_updatePortbits, touchBit_eq_updatePortbits] at hm
  have hnd1 : ((updatePortbits (ResetPortBit bit) old l).map vlanPortMap.vid).Nodup := by
    rw [updatePortbits_map_vid]; exact hnd
  rcases mem_updatePortbits _ _ _ hnd1 m hm with ⟨_, h2⟩ | ⟨h1, _⟩
  · rcases mem_updatePortbits _ _ _ hnd m h2 with ⟨h3, h4⟩ | ⟨_, m0, _, _, h4⟩
    · exact Or.inl ⟨h4, h3⟩
    · right; rw [h4]; exact HasPortBit_ResetPortBit bit _
  · exact absurd h1 hv

theorem moved_map_vid (l : List vlanPortMap) (bit old v : Nat) :
    (touchBit (SetPortBit bit) v (touchBit (ResetPortBit bit) old l)).map vlanPortMap.vid =
      l.map vlanPortMap.vid := by
  rw [touchBit_eq_updatePortbits, touchBit_eq_updatePortbits, updatePortbits_map_vid,
    updatePortbits_map_vid]

theorem toUInt32_toInt32 (u : Nat) (h : u < 2 ^ 32) : toUInt32 (toInt32 u) = u := by
  unfold toUInt32 toInt32
  split_ifs <;> omega

theorem getVLANbyUntaggedPort_lt (E : Env) (s : Session) (port : Nat)
    (h : ∀ m ∈ s.vlanPortMapListUntagged, m.vid < 2 ^ 32) :
    getVLANbyUntaggedPort E s port < 2 ^ 32 := by
  unfold getVLANbyUntaggedPort
  split
  · rename_i m hm
    exact h m (List.mem_of_find?_eq_some hm)
  · decide

/-! ## Untagged move -/

/-- The maps after a returning `movePortToVLANAsUntagged` whose guards pass:
the bit is reset in the entries of the old untagged VLAN, then set in the
entries of `vlanID`, whatever the device does. -/
theorem maps_movePortToVLANAsUntagged (E : Env) (fuel : Nat) (s : Session)
    (port vlanID : Nat) (b : Bool)
    (hactive : s.active = true) (hport : port ≠ E.SWITCH_CTRL_PORT)
    (hmin : E.MIN_VLAN ≤ vlanID) (hmax : vlanID ≤ E.MAX_VLAN)
    (hbit : E.convertUnifiedPort2JuniperEXBit port < E.MAX_VLAN_PORT_BYTES * 8)
    (hret : (movePortToVLANAsUntagged E fuel s port vlanID).2 = Outcome.returned b) :
    (movePortToVLANAsUntagged E fuel s port vlanID).1.vlanPortMapListAll =
      touchBit (SetPortBit (E.convertUnifiedPort2JuniperEXBit port)) vlanID
        (touchBit (ResetPortBit (E.convertUnifiedPort2JuniperEXBit port))
          (toUInt32 (toInt32 (getVLANbyUntaggedPort E s port))) s.vlanPortMapListAll) ∧
    (movePortToVLANAsUntagged E fuel s port vlanID).1.vlanPortMapListUntagged =
      touchBit (SetPortBit (E.convertUnifiedPort2JuniperEXBit port)) vlanID
        (touchBit (ResetPortBit (E.convertUnifiedPort2JuniperEXBit port))
          (toUInt32 (toInt32 (getVLANbyUntaggedPort E s port)))
          s.vlanPortMapListUntagged) := by
  have hg : ¬ (s.active = false ∨ port = E.SWITCH_CTRL_PORT ∨ vlanID < E.MIN_VLAN ∨
      vlanID > E.MAX_VLAN) := by
    rintro (h | h | h | h)
    · rw [hactive] at h; exact Bool.noConfusion h
    · exact hport h
    · omega
    · omega
  revert hret
  simp only [movePortToVLANAsUntagged, if_neg hg, if_neg (not_not_intro hbit)]
  split_ifs with hold
  · obtain ⟨_, _, h3, h4, _⟩ := frame_portVlanTransaction E fuel
      { s with
        vlanPortMapListUntagged :=
          touchBit (ResetPortBit (E.convertUnifiedPort2JuniperEXBit port))
            (toUInt32 (toInt32 (getVLANbyUntaggedPort E s port))) s.vlanPortMapListUntagged,
        vlanPortMapListAll :=
          touchBit (ResetPortBit (E.convertUnifiedPort2JuniperEXBit port))
            (toUInt32 (toInt32 (getVLANbyUntaggedPort E s port))) s.vlanPortMapListAll }
      port (toUInt32 (toInt32 (getVLANbyUntaggedPort E s port))) false true
    simp only [deleteVLANPort_JUNOScript, andAssignFalse]
    split
    · intro _
      obtain ⟨m1, m2⟩ := maps_movePortToVLANAsUntagged_add E fuel
        (portVlanTransaction E fuel
          { s with
            vlanPortMapListUntagged :=
              touchBit (ResetPortBit (E.convertUnifiedPort2JuniperEXBit port))
                (toUInt32 (toInt32 (getVLANbyUntaggedPort E s port)))
                s.vlanPortMapListUntagged,
            vlanPortMapListAll :=
              touchBit (ResetPortBit (E.convertUnifiedPort2JuniperEXBit port))
                (toUInt32 (toInt32 (getVLANbyUntaggedPort E s port)))
                s.vlanPortMapListAll }
          port (toUInt32 (toInt32 (getVLANbyUntaggedPort E s port))) false true).1
        port vlanID
      rw [m1, m2, h3, h4]
      exact ⟨rfl, rfl⟩
    · rename_i o ho
      intro h
      exact absurd h (ho b)
  · intro _
    exact maps_movePortToVLANAsUntagged_add E fuel _ port vlanID

/-- C12 (untagged exclusivity): let the guards pass, let the untagged list
hold one map per VLAN (32-bit VLAN IDs, `MAX_VLAN_PORT_BYTES` bytes each, one
of them for `vlanID`), and let the port's bit be set in at most one VLAN's
untagged map, the one `getVLANbyUntaggedPort` reports.  Then after every
`movePortToVLANAsUntagged(port, vlanID)` that returns (the returned value `b`
is arbitrary, so also when it is `true`), the port's bit is set in the
untagged map of `vlanID` and clear in the untagged map of every other VLAN. -/
theorem untagged_exclusive_after_move (E : Env) (fuel : Nat) (s : Session)
    (port vlanID : Nat) (b : Bool)
    (hactive : s.active = true) (hport : port ≠ E.SWITCH_CTRL_PORT)
    (hmin : E.MIN_VLAN ≤ vlanID) (hmax : vlanID ≤ E.MAX_VLAN)
    (hbit : E.convertUnifiedPort2JuniperEXBit port < E.MAX_VLAN_PORT_BYTES * 8)
    (hnodup : (s.vlanPortMapListUntagged.map vlanPortMap.vid).Nodup)
    (hvid : ∀ m ∈ s.vlanPortMapListUntagged, m.vid < 2 ^ 32)
    (hlen : ∀ m ∈ s.vlanPortMapListUntagged, m.portbits.length = E.MAX_VLAN_PORT_BYTES)
    (hentry : ∃ m ∈ s.vlanPortMapListUntagged, m.vid = vlanID)
    (hone : ∀ m ∈ s.vlanPortMapListUntagged,
      HasPortBit m.portbits (E.convertUnifiedPort2JuniperEXBit port) = true →
      m.vid = getVLANbyUntaggedPort E s port)
    (hret : (movePortToVLANAsUntagged E fuel s port vlanID).2 = Outcome.returned b) :
    (∃ m ∈ (movePortToVLANAsUntagged E fuel s port vlanID).1.vlanPortMapListUntagged,
      m.vid = vlanID) ∧
    ∀ m ∈ (movePortToVLANAsUntagged E fuel s port vlanID).1.vlanPortMapListUntagged,
      (m.vid = vlanID →
        HasPortBit m.portbits (E.convertUnifiedPort2JuniperEXBit port) = true) ∧
      (m.vid ≠ vlanID →
        HasPortBit m.portbits (E.convertUnifiedPort2JuniperEXBit port) = false) := by
  have hmaps := (maps_movePortToVLANAsUntagged E fuel s port vlanID b hactive hport hmin hmax
    hbit hret).2
  have hold : toUInt32 (toInt32 (getVLANbyUntaggedPort E s port)) =
      getVLANbyUntaggedPort E s port :=
    toUInt32_toInt32 _ (getVLANbyUntaggedPort_lt E s port hvid)
  rw [hmaps, hold]
  have hl8 : ∀ m0 ∈ s.vlanPortMapListUntagged,
      E.convertUnifiedPort2JuniperEXBit port / 8 < m0.portbits.length := by
    intro m0 hm0
    rw [hlen m0 hm0]
    omega
  constructor
  · obtain ⟨m, hm, hv⟩ := hentry
    have hmem : vlanID ∈ (touchBit (SetPortBit (E.convertUnifiedPort2JuniperEXBit port)) vlanID
        (touchBit (ResetPortBit (E.convertUnifiedPort2JuniperEXBit port))
          (getVLANbyUntaggedPort E s port) s.vlanPortMapListUntagged)).map vlanPortMap.vid := by
      rw [moved_map_vid]
      exact List.mem_map.mpr ⟨m, hm, hv⟩
    obtain ⟨m1, hm1, hv1⟩ := List.mem_map.mp hmem
    exact ⟨m1, hm1, hv1⟩
  · intro m hm
    constructor
    · intro hv
      exact moved_bit_set_new _ hnodup _ _ _ hl8 m hm hv
    · intro hv
      rcases moved_bit_other _ hnodup _ _ _ m hm hv with ⟨h1, h2⟩ | h
      · cases hb : HasPortBit m.portbits (E.convertUnifiedPort2JuniperEXBit port)
        · rfl
        · exact absurd (hone m h1 hb) h2
      · exact h

/-- Witness of C12: port 5, untagged member of VLAN 50, is moved to VLAN 100
on a device where everything succeeds; the call returns `false`. -/
theorem untagged_exclusive_after_move_witness :
    (movePortToVLANAsUntagged moveEnv 1 session50 5 100).2 = Outcome.returned false ∧
    ((∃ m ∈ (movePortToVLANAsUntagged moveEnv 1 session50 5 100).1.vlanPortMapListUntagged,
      m.vid = 100) ∧
    ∀ m ∈ (movePortToVLANAsUntagged moveEnv 1 session50 5 100).1.vlanPortMapListUntagged,
      (m.vid = 100 →
        HasPortBit m.portbits (moveEnv.convertUnifiedPort2JuniperEXBit 5) = true) ∧
      (m.vid ≠ 100 →
        HasPortBit m.portbits (moveEnv.convertUnifiedPort2JuniperEXBit 5) = false)) :=
  ⟨by decide,
   untagged_exclusive_after_move moveEnv 1 session50 5 100 false rfl (by decide) (by decide)
     (by decide) (by decide) (by decide) (by decide) (by decide) (by decide) (by decide)
     (by decide)⟩

/-! ## Texts written by the transaction functions -/

theorem andAssignFalse_ne_true (r : Session × Outcome) :
    (andAssignFalse r (fun s1 => (s1, Outcome.returned false))).2 ≠ Outcome.returned true := by
  unfold andAssignFalse
  split
  · exact fun h => Bool.noConfusion (Outcome.returned.inj h)
  · rename_i o ho
    exact fun h => ho true h

theorem andAssignFalse_returned (r : Session × Outcome) (k : Session → Session × Outcome)
    (b : Bool) (h : r.2 = Outcome.returned b) : andAssignFalse r k = k r.1 := by
  unfold andAssignFalse
  rw [h]

theorem movePortToVLANAsUntagged_add_ne_true (E : Env) (fuel : Nat) (s : Session)
    (port vlanID : Nat) :
    (movePortToVLANAsUntagged_add E fuel s port vlanID).2 ≠ Outcome.returned true := by
  simp only [movePortToVLANAsUntagged_add]
  split
  · exact andAssignFalse_ne_true _
  · exact fun h => Bool.noConfusion (Outcome.returned.inj h)

/-- When no write and no read returns a negative value, `postAction()` is never
nested: `postActionWithCommit()` returns. -/
theorem postActionWithCommit_returns (E : Env) (fuel : Nat) (s : Session)
    (hw : ∀ k text, ¬ E.writeShell k text < 0) (hr : ∀ k, ¬ (E.readShellBuffer k).1 < 0) :
    ∃ b, (postActionWithCommit E fuel s).2 = Outcome.returned b := by
  simp only [postActionWithCommit, writeShell, readShellBuffer, hw, hr, if_false]
  split_ifs <;> exact ⟨_, rfl⟩

theorem preAction_returns (E : Env) (fuel : Nat) (s : Session)
    (hw : ∀ k text, ¬ E.writeShell k text < 0) (hr : ∀ k, ¬ (E.readShellBuffer k).1 < 0) :
    ∃ b, (preAction E fuel s).2 = Outcome.returned b := by
  simp only [preAction, writeShell, readShellBuffer, hw, hr, if_false]
  split_ifs <;> exact ⟨_, rfl⟩

theorem portVlanTransaction_returns (E : Env) (fuel : Nat) (s : Session)
    (portID vlanID : Nat) (isTagged isDelete : Bool)
    (hw : ∀ k text, ¬ E.writeShell k text < 0) (hr : ∀ k, ¬ (E.readShellBuffer k).1 < 0) :
    ∃ b, (portVlanTransaction E fuel s portID vlanID isTagged isDelete).2 =
      Outcome.returned b := by
  obtain ⟨b, hb⟩ := preAction_returns E fuel s hw hr
  simp only [portVlanTransaction, hb]
  cases b with
  | false => exact ⟨_, rfl⟩
  | true =>
    simp only [writeShell, readShellBuffer, hw, hr, if_false]
    split_ifs
    · exact ⟨_, rfl⟩
    · exact ⟨_, rfl⟩
    · exact ⟨_, rfl⟩
    · exact postActionWithCommit_returns E fuel _ hw hr

theorem movePortToVLANAsUntagged_add_returns (E : Env) (fuel : Nat) (s : Session)
    (port vlanID : Nat)
    (hw : ∀ k text, ¬ E.writeShell k text < 0) (hr : ∀ k, ¬ (E.readShellBuffer k).1 < 0) :
    (movePortToVLANAsUntagged_add E fuel s port vlanID).2 = Outcome.returned false := by
  simp only [movePortToVLANAsUntagged_add]
  split
  · obtain ⟨b, hb⟩ := portVlanTransaction_returns E fuel
      { s with
        vlanPortMapListUntagged :=
          touchBit (SetPortBit (E.convertUnifiedPort2JuniperEXBit port)) vlanID
            s.vlanPortMapListUntagged,
        vlanPortMapListAll :=
          updatePortbits (SetPortBit (E.convertUnifiedPort2JuniperEXBit port)) vlanID
            s.vlanPortMapListAll } port vlanID false false hw hr
    simp only [addVLANPort_JUNOScript]
    rw [andAssignFalse_returned _ _ b hb]
  · rfl

theorem portVlanTransaction_writeFails (fuel : Nat) (s : Session) (portID vlanID : Nat)
    (isTagged isDelete : Bool) (ha : s.active = true)
    (hv : s.vendor = VendorModel.JuniperEX3200) :
    (portVlanTransaction writeFailsEnv fuel s portID vlanID isTagged isDelete).2 =
      Outcome.outOfFuel := by
  have hp := preAction_writeFails fuel s ha hv
  simp only [portVlanTransaction, hp]

theorem andAssignFalse_outOfFuel (r : Session × Outcome) (k : Session → Session × Outcome)
    (h : r.2 = Outcome.outOfFuel) : (andAssignFalse r k).2 = Outcome.outOfFuel := by
  simp only [andAssignFalse, h]

/-- C21: the code diverges from the claim.  For every session state, port,
VLAN ID and device behaviour, no call of `movePortToVLANAsTagged`,
`movePortToVLANAsUntagged` or `removePortFromVLAN` returns `true` (the result
is seeded with `false` and only combined with `&=`), and the three calls
return `false` whenever the bit index passes the `assert` and no write or
read returns a negative value.  But on a device whose writes all fail while
the pipe stays alive, the three calls for port 5 and VLAN 100 do not return
within any nesting bound: `preAction()` enters the `postAction()` that calls
itself after every failed write. -/
theorem membership_ops_never_report_success :
    (∀ (E : Env) (fuel : Nat) (s : Session) (port vlanID : Nat),
      (movePortToVLANAsTagged E fuel s port vlanID).2 ≠ Outcome.returned true ∧
      (movePortToVLANAsUntagged E fuel s port vlanID).2 ≠ Outcome.returned true ∧
      (removePortFromVLAN E fuel s port vlanID).2 ≠ Outcome.returned true) ∧
    (∀ (E : Env) (fuel : Nat) (s : Session) (port vlanID : Nat),
      E.convertUnifiedPort2JuniperEXBit port < E.MAX_VLAN_PORT_BYTES * 8 →
      (∀ k text, 0 ≤ E.writeShell k text) → (∀ k, 0 ≤ (E.readShellBuffer k).1) →
      (movePortToVLANAsTagged E fuel s port vlanID).2 = Outcome.returned false ∧
      (movePortToVLANAsUntagged E fuel s port vlanID).2 = Outcome.returned false ∧
      (removePortFromVLAN E fuel s port vlanID).2 = Outcome.returned false) ∧
    (∀ fuel,
      (movePortToVLANAsTagged writeFailsEnv fuel session100 5 100).2 = Outcome.outOfFuel ∧
      (movePortToVLANAsUntagged writeFailsEnv fuel session100 5 100).2 = Outcome.outOfFuel ∧
      (removePortFromVLAN writeFailsEnv fuel session100 5 100).2 = Outcome.outOfFuel) := by
  have hft : Outcome.returned false ≠ Outcome.returned true :=
    fun h => Bool.noConfusion (Outcome.returned.inj h)
  have hat : Outcome.assertFailed ≠ Outcome.returned true := fun h => Outcome.noConfusion h
  refine ⟨?_, ?_, ?_⟩
  · intro E fuel s port vlanID
    refine ⟨?_, ?_, ?_⟩
    · simp only [movePortToVLANAsTagged]
      split_ifs
      · exact hft
      · split
        · exact andAssignFalse_ne_true _
        · exact hft
      · exact hat
    · simp only [movePortToVLANAsUntagged]
      split_ifs
      · exact hft
      · unfold andAssignFalse
        split
        · exact movePortToVLANAsUntagged_add_ne_true E fuel _ port vlanID
        · rename_i o ho
          exact fun h => ho true h
      · exact movePortToVLANAsUntagged_add_ne_true E fuel _ port vlanID
      · exact hat
    · simp only [removePortFromVLAN]
      split_ifs
      · exact hft
      · split
        · exact andAssignFalse_ne_true _
        · exact hft
      · exact hat
      · exact hft
  · intro E fuel s port vlanID hbit hw0 hr0
    have hw : ∀ k text, ¬ E.writeShell k text < 0 := fun k text => not_lt.mpr (hw0 k text)
    have hr : ∀ k, ¬ (E.readShellBuffer k).1 < 0 := fun k => not_lt.mpr (hr0 k)
    refine ⟨?_, ?_, ?_⟩
    · simp only [movePortToVLANAsTagged, if_neg (not_not_intro hbit)]
      split_ifs
      · rfl
      · split
        · obtain ⟨b, hb⟩ := portVlanTransaction_returns E fuel
            { s with
              vlanPortMapListAll :=
                updatePortbits (SetPortBit (E.convertUnifiedPort2JuniperEXBit port)) vlanID
                  s.vlanPortMapListAll } port vlanID true false hw hr
          simp only [addVLANPort_JUNOScript]
          rw [andAssignFalse_returned _ _ b hb]
        · rfl
    · simp only [movePortToVLANAsUntagged, if_neg (not_not_intro hbit)]
      split_ifs
      · rfl
      · obtain ⟨b, hb⟩ := portVlanTransaction_returns E fuel
          { s with
            vlanPortMapListUntagged :=
              touchBit (ResetPortBit (E.convertUnifiedPort2JuniperEXBit port))
                (toUInt32 (toInt32 (getVLANbyUntaggedPort E s port)))
                s.vlanPortMapListUntagged,
            vlanPortMapListAll :=
              touchBit (ResetPortBit (E.convertUnifiedPort2JuniperEXBit port))
                (toUInt32 (toInt32 (getVLANbyUntaggedPort E s port))) s.vlanPortMapListAll }
          port (toUInt32 (toInt32 (getVLANbyUntaggedPort E s port))) false true hw hr
        simp only [deleteVLANPort_JUNOScript]
        rw [andAssignFalse_returned _ _ b hb]
        exact movePortToVLANAsUntagged_add_returns E fuel _ port vlanID hw hr
      · exact movePortToVLANAsUntagged_add_returns E fuel _ port vlanID hw hr
    · simp only [removePortFromVLAN, if_neg (not_not_intro hbit)]
      split_ifs
      · rfl
      · split
        · obtain ⟨b, hb⟩ := portVlanTransaction_returns E fuel
            { s with
              vlanPortMapListUntagged :=
                touchBit (ResetPortBit (E.convertUnifiedPort2JuniperEXBit port)) vlanID
                  s.vlanPortMapListUntagged,
              vlanPortMapListAll :=
                updatePortbits (ResetPortBit (E.convertUnifiedPort2JuniperEXBit port)) vlanID
                  s.vlanPortMapListAll } port vlanID false true hw hr
          simp only [deleteVLANPort_JUNOScript]
          rw [andAssignFalse_returned _ _ b hb]
        · rfl
      · rfl
  · intro fuel
    have hguard : ¬ (session100.active = false ∨ 5 = writeFailsEnv.SWITCH_CTRL_PORT ∨
        100 < writeFailsEnv.MIN_VLAN ∨ 100 > writeFailsEnv.MAX_VLAN) := by decide
    have hguard1 : ¬ (session100.active = false ∨ 5 = writeFailsEnv.SWITCH_CTRL_PORT) := by
      decide
    have hrange : 100 ≥ writeFailsEnv.MIN_VLAN ∧ 100 ≤ writeFailsEnv.MAX_VLAN := by decide
    have hbit : writeFailsEnv.convertUnifiedPort2JuniperEXBit 5 <
        writeFailsEnv.MAX_VLAN_PORT_BYTES * 8 := by decide
    have hentry : getVlanPortMapById session100.vlanPortMapListAll 100 =
        some { vid := 100, portbits := List.replicate 24 0 } := by decide
    have hold : ¬ toInt32 (getVLANbyUntaggedPort writeFailsEnv session100 5) > 1 := by decide
    have hentry1 : getVlanPortMapById
        (touchBit (ResetPortBit (writeFailsEnv.convertUnifiedPort2JuniperEXBit 5))
          (toUInt32 (toInt32 (getVLANbyUntaggedPort writeFailsEnv session100 5)))
          session100.vlanPortMapListAll) 100 =
        some { vid := 100, portbits := List.replicate 24 0 } := by decide
    refine ⟨?_, ?_, ?_⟩
    · simp only [movePortToVLANAsTagged, if_neg hguard, if_neg (not_not_intro hbit), hentry,
        addVLANPort_JUNOScript]
      exact andAssignFalse_outOfFuel _ _
        (portVlanTransaction_writeFails fuel _ 5 100 true false rfl rfl)
    · simp only [movePortToVLANAsUntagged, if_neg hguard, if_neg (not_not_intro hbit),
        if_neg hold, movePortToVLANAsUntagged_add, hentry1, addVLANPort_JUNOScript]
      exact andAssignFalse_outOfFuel _ _
        (portVlanTransaction_writeFails fuel _ 5 100 false false rfl rfl)
    · simp only [removePortFromVLAN, if_neg hguard1, if_pos hrange,
        if_neg (not_not_intro hbit), hentry, deleteVLANPort_JUNOScript]
      exact andAssignFalse_outOfFuel _ _
        (portVlanTransaction_writeFails fuel _ 5 100 false true rfl rfl)

/-- Witness for C21: on the device that accepts every write and answers every
read, port 5 (bit index 5 of 192) and VLAN 100, the three operations return
`false`. -/
theorem membership_ops_never_report_success_witness :
    okEnv.convertUnifiedPort2JuniperEXBit 5 < okEnv.MAX_VLAN_PORT_BYTES * 8 ∧
    (∀ k text, 0 ≤ okEnv.writeShell k text) ∧ (∀ k, 0 ≤ (okEnv.readShellBuffer k).1) ∧
    (movePortToVLANAsTagged okEnv 4 session100 5 100).2 = Outcome.returned false ∧
    (movePortToVLANAsUntagged okEnv 4 session100 5 100).2 = Outcome.returned false ∧
    (removePortFromVLAN okEnv 4 session100 5 100).2 = Outcome.returned false :=
  ⟨by decide, fun _ _ => (by decide : (0 : Int) ≤ 1), fun _ => (by decide : (0 : Int) ≤ 1),
    membership_ops_never_report_success.2.1 okEnv 4 session100 5 100 (by decide)
      (fun _ _ => (by decide : (0 : Int) ≤ 1)) (fun _ => (by decide : (0 : Int) ≤ 1))⟩

/-! ## The owner test of a subnet UNI session -/

/-- C22: the code diverges from the claim.  For a destination-role session
(`isSource` false) `isSessionOwner` never assigns `uniData` before the
message-type checks, the assignment standing after `return false`; a Path
message whose destination address and tunnel id match `subnetUniDest` makes
it read `uniData->uni_cid_ipv4` through the unassigned pointer. -/
theorem isSessionOwner_dest_reads_unassigned :
    (pathMsg.destAddress = destData.uni_cid_ipv4 ∧ pathMsg.tunnelId = destData.tunnel_id ∧
      isSessionOwner false destData destData pathMsg = OwnerResult.readsUnassigned) ∧
    (∀ (src dest d : SubnetUNI_Data) (msg : Message),
      isSessionOwner_uniData false src dest msg ≠ Sum.inr (some d)) ∧
    (∀ (src dest : SubnetUNI_Data) (msg : Message),
      msg.destAddress = dest.uni_cid_ipv4 → msg.tunnelId = dest.tunnel_id →
      msg.msgType = MsgType.Path →
      isSessionOwner false src dest msg = OwnerResult.readsUnassigned) := by
  refine ⟨by decide, ?_, ?_⟩
  · intro src dest d msg h
    simp only [isSessionOwner_uniData, Bool.false_eq_true, if_false] at h
    split_ifs at h
    exact Option.noConfusion (Sum.inr.inj h)
  · intro src dest msg ha ht hp
    have hu : isSessionOwner_uniData false src dest msg = Sum.inr none := by
      simp only [isSessionOwner_uniData, Bool.false_eq_true, if_false]
      rw [if_neg (not_not_intro ⟨ha, ht⟩)]
    simp only [isSessionOwner, hu, hp]

/-! ## Reference-table lookups -/

theorem find?_key_eq {α : Type} (key : α → Nat) (l : List α) (e : α)
    (hnd : (l.map key).Nodup) (he : e ∈ l) :
    l.find? (fun x => key x == key e) = some e := by
  induction l with
  | nil => exact absurd he (List.not_mem_nil e)
  | cons a l ih =>
    rw [List.map_cons, List.nodup_cons] at hnd
    rcases List.mem_cons.mp he with h | h
    · subst h
      simp [List.find?_cons]
    · have hne : key a ≠ key e := by
        intro hk
        exact hnd.1 (hk ▸ List.mem_map_of_mem key h)
      have hb : (key a == key e) = false := by
        simpa using hne
      rw [List.find?_cons, hb]
      exact ih hnd.2 h

theorem hook_convertPortInterfaceToID_entry (l : List portRefID) (e : portRefID)
    (hnd : (l.map (fun x => x.ref_id)).Nodup) (he : e ∈ l) :
    hook_convertPortInterfaceToID l e.ref_id = e.port_id := by
  unfold hook_convertPortInterfaceToID
  rw [find?_key_eq (fun x => x.ref_id) l e hnd he]

theorem hook_convertPortIDToInterface_entry (l : List portRefID) (e : portRefID)
    (hnd : (l.map (fun x => x.port_id)).Nodup) (he : e ∈ l) :
    hook_convertPortIDToInterface l e.port_id = e.ref_id := by
  unfold hook_convertPortIDToInterface
  rw [find?_key_eq (fun x => x.port_id) l e hnd he]

theorem hook_convertVLANInterfaceToID_entry (l : List vlanRefID) (e : vlanRefID)
    (hnd : (l.map (fun x => x.ref_id)).Nodup) (he : e ∈ l) :
    hook_convertVLANInterfaceToID l e.ref_id = e.vlan_id := by
  unfold hook_convertVLANInterfaceToID
  rw [find?_key_eq (fun x => x.ref_id) l e hnd he]

theorem hook_convertVLANIDToInterface_entry (l : List vlanRefID) (e : vlanRefID)
    (hnd : (l.map (fun x => x.vlan_id)).Nodup) (he : e ∈ l) :
    hook_convertVLANIDToInterface l e.vlan_id = e.ref_id := by
  unfold hook_convertVLANIDToInterface
  rw [find?_key_eq (fun x => x.vlan_id) l e hnd he]

/-- C23: reference-table lookups round-trip.  For a port reference table
whose entries have pairwise distinct `ref_id` and pairwise distinct `port_id`
and every entry `e` in it, looking up `e.ref_id` and converting the result
back gives `e.ref_id`, and looking up `e.port_id` and converting back gives
`e.port_id`; the same holds for a VLAN table with pairwise distinct `ref_id`
and pairwise distinct `vlan_id`. -/
theorem reference_lookups_round_trip
    (portRefIdConvList : List portRefID) (e : portRefID)
    (vlanRefIdConvList : List vlanRefID) (v : vlanRefID)
    (hpr : (portRefIdConvList.map (fun x => x.ref_id)).Nodup)
    (hpp : (portRefIdConvList.map (fun x => x.port_id)).Nodup)
    (he : e ∈ portRefIdConvList)
    (hvr : (vlanRefIdConvList.map (fun x => x.ref_id)).Nodup)
    (hvv : (vlanRefIdConvList.map (fun x => x.vlan_id)).Nodup)
    (hv : v ∈ vlanRefIdConvList) :
    hook_convertPortIDToInterface portRefIdConvList
        (hook_convertPortInterfaceToID portRefIdConvList e.ref_id) = e.ref_id ∧
    hook_convertPortInterfaceToID portRefIdConvList
        (hook_convertPortIDToInterface portRefIdConvList e.port_id) = e.port_id ∧
    hook_convertVLANIDToInterface vlanRefIdConvList
        (hook_convertVLANInterfaceToID vlanRefIdConvList v.ref_id) = v.ref_id ∧
    hook_convertVLANInterfaceToID vlanRefIdConvList
        (hook_convertVLANIDToInterface vlanRefIdConvList v.vlan_id) = v.vlan_id := by
  rw [hook_convertPortInterfaceToID_entry _ e hpr he,
    hook_convertPortIDToInterface_entry _ e hpp he,
    hook_convertPortInterfaceToID_entry _ e hpr he,
    hook_convertVLANInterfaceToID_entry _ v hvr hv,
    hook_convertVLANIDToInterface_entry _ v hvv hv,
    hook_convertVLANInterfaceToID_entry _ v hvr hv]
  exact ⟨rfl, rfl, rfl, rfl⟩

/-- Witness for C23: a port table with two entries and a VLAN table with two
entries, looked up at their second entries. -/
theorem reference_lookups_round_trip_witness :
    hook_convertPortIDToInterface
        [{ ref_id := 501, port_id := 0x2005, port_bit := 5 },
         { ref_id := 502, port_id := 0x2006, port_bit := 6 }]
        (hook_convertPortInterfaceToID
          [{ ref_id := 501, port_id := 0x2005, port_bit := 5 },
           { ref_id := 502, port_id := 0x2006, port_bit := 6 }] 502) = 502 ∧
    hook_convertPortInterfaceToID
        [{ ref_id := 501, port_id := 0x2005, port_bit := 5 },
         { ref_id := 502, port_id := 0x2006, port_bit := 6 }]
        (hook_convertPortIDToInterface
          [{ ref_id := 501, port_id := 0x2005, port_bit := 5 },
           { ref_id := 502, port_id := 0x2006, port_bit := 6 }] 0x2006) = 0x2006 ∧
    hook_convertVLANIDToInterface
        [{ ref_id := 7, vlan_id := 100 }, { ref_id := 9, vlan_id := 200 }]
        (hook_convertVLANInterfaceToID
          [{ ref_id := 7, vlan_id := 100 }, { ref_id := 9, vlan_id := 200 }] 9) = 9 ∧
    hook_convertVLANInterfaceToID
        [{ ref_id := 7, vlan_id := 100 }, { ref_id := 9, vlan_id := 200 }]
        (hook_convertVLANIDToInterface
          [{ ref_id := 7, vlan_id := 100 }, { ref_id := 9, vlan_id := 200 }] 200) = 200 :=
  reference_lookups_round_trip
    [{ ref_id := 501, port_id := 0x2005, port_bit := 5 },
     { ref_id := 502, port_id := 0x2006, port_bit := 6 }]
    { ref_id := 502, port_id := 0x2006, port_bit := 6 }
    [{ ref_id := 7, vlan_id := 100 }, { ref_id := 9, vlan_id := 200 }]
    { ref_id := 9, vlan_id := 200 }
    (by decide) (by decide) (by decide) (by decide) (by decide) (by decide)

/-! ## Filling a subnet UNI record -/

/-- C24: `setSubnetUniData` fills exactly the listed fields.  After the call
`subnet_id`, `ethernet_bw`, `tna_ipv4`, `egress_label`, `upstream_label`,
`uni_cid_ipv4`, `uni_nid_ipv4` and `data_if_ipv4` equal the corresponding
arguments; `control_channel_name` keeps its `CTRL_CHAN_NAME_LEN` bytes, which
are the first `CTRL_CHAN_NAME_LEN - 1` characters of `cc_name` (fewer when
the name is shorter) followed by NUL bytes only, at least one of them, and
all NUL when `cc_name` is null; `tunnel_id`, `logical_port` and every other
byte of the record are zero, whatever the `tunnel_id` and `port` arguments
are. -/
theorem setSubnetUniData_fills_listed_fields (CTRL_CHAN_NAME_LEN : Nat)
    (data : SubnetUNI_Data)
    (subuni_id tunnel_id bw tna_ipv4 uni_cid_ipv4 uni_nid_ipv4 data_if port
      egress_label upstream_label : Nat) (cc_name : Option (List Nat))
    (hlen : 1 ≤ CTRL_CHAN_NAME_LEN) :
    (setSubnetUniData CTRL_CHAN_NAME_LEN data subuni_id tunnel_id bw tna_ipv4 uni_cid_ipv4
      uni_nid_ipv4 data_if port egress_label upstream_label cc_name) =
    { subnet_id := subuni_id, tunnel_id := 0, ethernet_bw := bw, tna_ipv4 := tna_ipv4,
      logical_port := 0, egress_label := egress_label, upstream_label := upstream_label,
      uni_cid_ipv4 := uni_cid_ipv4, uni_nid_ipv4 := uni_nid_ipv4, data_if_ipv4 := data_if,
      control_channel_name :=
        match cc_name with
        | some name =>
          name.take (CTRL_CHAN_NAME_LEN - 1) ++
            List.replicate (CTRL_CHAN_NAME_LEN - 1 - name.length + 1) 0
        | none => List.replicate CTRL_CHAN_NAME_LEN 0,
      others := List.replicate data.others.length 0 } ∧
    (setSubnetUniData CTRL_CHAN_NAME_LEN data subuni_id tunnel_id bw tna_ipv4 uni_cid_ipv4
      uni_nid_ipv4 data_if port egress_label upstream_label
      cc_name).control_channel_name.length = CTRL_CHAN_NAME_LEN ∧
    (setSubnetUniData CTRL_CHAN_NAME_LEN data subuni_id tunnel_id bw tna_ipv4 uni_cid_ipv4
      uni_nid_ipv4 data_if port egress_label upstream_label
      cc_name).control_channel_name.getLast? = some 0 := by
  have hdrop : (List.replicate CTRL_CHAN_NAME_LEN 0).drop (CTRL_CHAN_NAME_LEN - 1) =
      List.replicate 1 0 := by
    rw [List.drop_replicate]
    congr 1
    omega
  cases cc_name with
  | none =>
    refine ⟨rfl, ?_, ?_⟩
    · simp [setSubnetUniData, memsetZero]
    · simp only [setSubnetUniData, memsetZero]
      obtain ⟨n, rfl⟩ : ∃ n, CTRL_CHAN_NAME_LEN = n + 1 := ⟨CTRL_CHAN_NAME_LEN - 1, by omega⟩
      rw [List.replicate_succ']
      simp
  | some name =>
    have hname : strncpy (List.replicate CTRL_CHAN_NAME_LEN 0) name (CTRL_CHAN_NAME_LEN - 1) =
        name.take (CTRL_CHAN_NAME_LEN - 1) ++
          List.replicate (CTRL_CHAN_NAME_LEN - 1 - name.length + 1) 0 := by
      unfold strncpy
      rw [hdrop, List.append_assoc, ← List.replicate_add]
    refine ⟨?_, ?_, ?_⟩
    · simp only [setSubnetUniData, memsetZero, hname]
    · simp only [setSubnetUniData, memsetZero, hname, List.length_append, List.length_take,
        List.length_replicate]
      omega
    · simp only [setSubnetUniData, memsetZero, hname]
      rw [List.replicate_succ', ← List.append_assoc]
      simp

/-- Witness for C24: a buffer of 12 bytes, the name `eth0`, tunnel id 7 and
port 5. -/
theorem setSubnetUniData_fills_listed_fields_witness :
    1 ≤ 12 ∧
    destData =
      { subnet_id := 1, tunnel_id := 0, ethernet_bw := 0, tna_ipv4 := 0x0100000a,
        logical_port := 0, egress_label := 16, upstream_label := 16,
        uni_cid_ipv4 := 0x0200000a, uni_nid_ipv4 := 0x0300000a, data_if_ipv4 := 0,
        control_channel_name := [101, 116, 104, 48, 0, 0, 0, 0, 0, 0, 0, 0],
        others := [] } ∧
    destData.control_channel_name.length = 12 ∧
    destData.control_channel_name.getLast? = some 0 :=
  ⟨by decide,
    setSubnetUniData_fills_listed_fields 12
      { subnet_id := 0, tunnel_id := 0, ethernet_bw := 0, tna_ipv4 := 0, logical_port := 0,
        egress_label := 0, upstream_label := 0, uni_cid_ipv4 := 0, uni_nid_ipv4 := 0,
        data_if_ipv4 := 0, control_channel_name := List.replicate 12 0, others := [] }
      1 7 0 0x0100000a 0x0200000a 0x0300000a 0 5 16 16 (some [101, 116, 104, 48])
      (by decide)⟩

end DRAGON
